import Mathlib

/-!
# JSBSim turbine engine model (`FGSimTurbine.cpp`)

A shallow embedding of the engine phase machine and its per-phase update
functions.  C++ `double` values are idealised as exact rationals (`ℚ`), so
every definition is executable and every comparison decidable.  Member
variables of the C++ class are fields of the structure `FGSimTurbine`; the
values obtained from collaborating objects (`Auxiliary`, `State`,
`Propulsion`, `FCS`, `Translation`, the thrust tables, the fuel tanks) are
gathered in the structure `Collaborators`.
-/

namespace JSBSim

/-- The engine phases (`phaseType` of `FGSimTurbine.h`). -/
inductive phaseType where
  | tpOff
  | tpRun
  | tpSpinUp
  | tpStart
  | tpStall
  | tpSeize
  | tpTrim
  deriving DecidableEq, Repr

open phaseType

/-- Member variables of the class `FGSimTurbine` that the model reads or writes. -/
structure FGSimTurbine where
  MilThrust : ℚ
  MaxThrust : ℚ
  BypassRatio : ℚ
  TSFC : ℚ
  ATSFC : ℚ
  IdleN1 : ℚ
  IdleN2 : ℚ
  MaxN1 : ℚ
  MaxN2 : ℚ
  Augmented : Int
  AugMethod : Int
  Injected : Int
  delay : ℚ
  N1_factor : ℚ
  N2_factor : ℚ
  IdleFF : ℚ
  phase : phaseType
  N1 : ℚ
  N2 : ℚ
  EGT_degC : ℚ
  OilTemp_degK : ℚ
  OilPressure_psi : ℚ
  FuelFlow_pph : ℚ
  Thrust : ℚ
  EPR : ℚ
  NozzlePosition : ℚ
  InletPosition : ℚ
  ThrottleCmd : ℚ
  BleedDemand : ℚ
  TAT : ℚ
  dt : ℚ
  Running : Bool
  Cutoff : Bool
  Starter : Bool
  Starved : Bool
  Stalled : Bool
  Seized : Bool
  Augmentation : Bool
  Injection : Bool
  Reversed : Bool
  Cranking : Bool
  Overtemp : Bool
  Fire : Bool

/-- Values supplied by the collaborating objects during one call of `Calculate`.
The four `table` fields are the results of `ThrustTables[i]->TotalValue()`.

Modelled from the spec: `FGEngine::ConsumeFuel` is not part of the translated
sources.  The spec says it reduces an external fuel store by the fuel-need
computation and that the engine may become starved; it is taken here as a
parameter mapping the fuel need of the tick and the current `Starved` flag to
the `Starved` flag after the call. -/
structure Collaborators where
  GetTotalTemperature : ℚ
  Getdt : ℚ
  GetRate : ℚ
  GetThrottleCmd : ℚ
  Getqbar : ℚ
  table0 : ℚ
  table1 : ℚ
  table2 : ℚ
  table3 : ℚ
  ConsumeFuel : ℚ → Bool → Bool

/-- `FGSimTurbine::Seek`, with the member `dt` passed explicitly and `*var` passed by value. -/
def Seek (dt v target accel decel : ℚ) : ℚ :=
  if v > target then
    let v1 := v - dt * decel
    if v1 < target then target else v1
  else if v < target then
    let v1 := v + dt * accel
    if v1 > target then target else v1
  else v

/-- The rate limiter as the specification words it: move up by `accel * dt`
clamped at the target, move down by `decel * dt` clamped at the target,
unchanged when equal. -/
def SeekSpec (dt v target accel decel : ℚ) : ℚ :=
  if v < target then min (v + accel * dt) target
  else if v > target then max (v - decel * dt) target
  else v

/-- The value after `n` successive calls of `Seek` with the same target, rates
and time step. -/
def iterateSeek (dt target accel decel : ℚ) : Nat → ℚ → ℚ
  | 0, v => v
  | n + 1, v => Seek dt (iterateSeek dt target accel decel n v) target accel decel

/-- `FGSimTurbine::Off`: the updated engine and the returned thrust. -/
def Off (s : FGSimTurbine) (c : Collaborators) : FGSimTurbine × ℚ :=
  let qbar : ℚ := c.Getqbar
  let s : FGSimTurbine := { s with Running := false }
  let s : FGSimTurbine := { s with FuelFlow_pph := 0 }
  let s : FGSimTurbine := { s with N1 := Seek s.dt s.N1 (qbar / 10) (s.N1 / 2) (s.N1 / 2) }
  let s : FGSimTurbine := { s with N2 := Seek s.dt s.N2 (qbar / 15) (s.N2 / 2) (s.N2 / 2) }
  let s : FGSimTurbine := { s with EGT_degC := Seek s.dt s.EGT_degC s.TAT 11.7 7.3 }
  let s : FGSimTurbine := { s with OilTemp_degK := Seek s.dt s.OilTemp_degK (s.TAT + 273) 0.2 0.2 }
  let s : FGSimTurbine := { s with OilPressure_psi := s.N2 * 0.62 }
  let s : FGSimTurbine := { s with EPR := 1 }
  (s, 0)

/-- `FGSimTurbine::CalcFuelNeed`. -/
def CalcFuelNeed (s : FGSimTurbine) (c : Collaborators) : ℚ :=
  s.FuelFlow_pph / 3600 * c.Getdt * c.GetRate

/-- The call `ConsumeFuel()` made by `Run`: the fuel need of the tick is handed
to the fuel store, which answers with the new `Starved` flag. -/
def ConsumeFuel (s : FGSimTurbine) (c : Collaborators) : FGSimTurbine :=
  { s with Starved := c.ConsumeFuel (CalcFuelNeed s c) s.Starved }

/-- `FGSimTurbine::Run`: the updated engine and the returned thrust.  A guarded
assignment `if (c) x = e;` is written as the assignment of `if c then e else x`. -/
def Run (s : FGSimTurbine) (c : Collaborators) : FGSimTurbine × ℚ :=
  let idlethrust : ℚ := s.MilThrust * c.table0
  let milthrust : ℚ := (s.MilThrust - idlethrust) * c.table1
  let s : FGSimTurbine := { s with Running := true }
  let s : FGSimTurbine := { s with Starter := false }
  let s : FGSimTurbine :=
    { s with N2 := Seek s.dt s.N2 (s.IdleN2 + s.ThrottleCmd * s.N2_factor) s.delay (s.delay * 3) }
  let s : FGSimTurbine :=
    { s with N1 := Seek s.dt s.N1 (s.IdleN1 + s.ThrottleCmd * s.N1_factor) s.delay (s.delay * 2.4) }
  let N2norm : ℚ := (s.N2 - s.IdleN2) / s.N2_factor
  let thrust : ℚ := idlethrust + milthrust * N2norm * N2norm
  let thrust : ℚ := thrust * (1 - s.BleedDemand)
  let s : FGSimTurbine := { s with FuelFlow_pph := thrust * s.TSFC }
  let s : FGSimTurbine :=
    { s with FuelFlow_pph := if s.FuelFlow_pph < s.IdleFF then s.IdleFF else s.FuelFlow_pph }
  let s : FGSimTurbine := { s with EGT_degC := s.TAT + 363.1 + s.ThrottleCmd * 357.1 }
  let s : FGSimTurbine := { s with OilPressure_psi := s.N2 * 0.62 }
  let s : FGSimTurbine := { s with OilTemp_degK := Seek s.dt s.OilTemp_degK 366 1.2 0 }
  let s : FGSimTurbine := { s with EPR := 1 + thrust / s.MilThrust }
  let s : FGSimTurbine := { s with NozzlePosition := Seek s.dt s.NozzlePosition (1 - N2norm) 0.8 0.8 }
  let thrust : ℚ := if s.Reversed = true then thrust * (-0.2) else thrust
  let s : FGSimTurbine :=
    { s with Augmentation :=
        if s.AugMethod = 1 then
          (if s.ThrottleCmd > 0.99 ∧ s.N2 > 97 then true else false)
        else s.Augmentation }
  let thrust : ℚ :=
    if s.Augmented = 1 ∧ s.Augmentation = true then s.MaxThrust * c.table2 else thrust
  let s : FGSimTurbine :=
    { s with FuelFlow_pph :=
        if s.Augmented = 1 ∧ s.Augmentation = true then thrust * s.ATSFC else s.FuelFlow_pph }
  let s : FGSimTurbine :=
    { s with NozzlePosition :=
        if s.Augmented = 1 ∧ s.Augmentation = true then Seek s.dt s.NozzlePosition 1 0.8 0.8
        else s.NozzlePosition }
  let thrust : ℚ := if s.Injected = 1 ∧ s.Injection = true then thrust * c.table3 else thrust
  let s : FGSimTurbine := ConsumeFuel s c
  let s : FGSimTurbine := { s with phase := if s.Cutoff = true then tpOff else s.phase }
  let s : FGSimTurbine := { s with phase := if s.Starved = true then tpOff else s.phase }
  (s, thrust)

/-- `FGSimTurbine::SpinUp`: the updated engine and the returned thrust. -/
def SpinUp (s : FGSimTurbine) : FGSimTurbine × ℚ :=
  let s : FGSimTurbine := { s with Running := false }
  let s : FGSimTurbine := { s with FuelFlow_pph := 0 }
  let s : FGSimTurbine := { s with N2 := Seek s.dt s.N2 25.18 3 (s.N2 / 2) }
  let s : FGSimTurbine := { s with N1 := Seek s.dt s.N1 5.21 1 (s.N1 / 2) }
  let s : FGSimTurbine := { s with EGT_degC := s.TAT }
  let s : FGSimTurbine := { s with OilPressure_psi := s.N2 * 0.62 }
  let s : FGSimTurbine := { s with OilTemp_degK := s.TAT + 273 }
  let s : FGSimTurbine := { s with EPR := 1 }
  let s : FGSimTurbine := { s with NozzlePosition := 1 }
  (s, 0)

/-- `FGSimTurbine::Start`: the updated engine and the returned thrust. -/
def Start (s : FGSimTurbine) : FGSimTurbine × ℚ :=
  if s.N2 > 15 ∧ s.Starved = false then
    let s : FGSimTurbine := { s with Cranking := true }
    if s.N2 < s.IdleN2 then
      let s : FGSimTurbine := { s with N2 := Seek s.dt s.N2 s.IdleN2 2 (s.N2 / 2) }
      let s : FGSimTurbine := { s with N1 := Seek s.dt s.N1 s.IdleN1 1.4 (s.N1 / 2) }
      let s : FGSimTurbine := { s with EGT_degC := Seek s.dt s.EGT_degC (s.TAT + 363.1) 21.3 7.3 }
      let s : FGSimTurbine := { s with FuelFlow_pph := Seek s.dt s.FuelFlow_pph s.IdleFF 103.7 103.7 }
      let s : FGSimTurbine := { s with OilPressure_psi := s.N2 * 0.62 }
      (s, 0)
    else
      let s : FGSimTurbine := { s with phase := tpRun }
      let s : FGSimTurbine := { s with Running := true }
      let s : FGSimTurbine := { s with Starter := false }
      let s : FGSimTurbine := { s with Cranking := false }
      (s, 0)
  else
    let s : FGSimTurbine := { s with phase := tpOff }
    let s : FGSimTurbine := { s with Starter := false }
    (s, 0)

/-- `FGSimTurbine::Stall`: the updated engine and the returned thrust. -/
def Stall (s : FGSimTurbine) (c : Collaborators) : FGSimTurbine × ℚ :=
  let qbar : ℚ := c.Getqbar
  let s : FGSimTurbine := { s with EGT_degC := s.TAT + 903.14 }
  let s : FGSimTurbine := { s with FuelFlow_pph := s.IdleFF }
  let s : FGSimTurbine := { s with N1 := Seek s.dt s.N1 (qbar / 10) 0 (s.N1 / 10) }
  let s : FGSimTurbine := { s with N2 := Seek s.dt s.N2 (qbar / 15) 0 (s.N2 / 10) }
  let s : FGSimTurbine := { s with phase := if s.ThrottleCmd = 0 then tpRun else s.phase }
  (s, 0)

/-- `FGSimTurbine::Seize`: the updated engine and the returned thrust. -/
def Seize (s : FGSimTurbine) (c : Collaborators) : FGSimTurbine × ℚ :=
  let qbar : ℚ := c.Getqbar
  let s : FGSimTurbine := { s with N2 := 0 }
  let s : FGSimTurbine := { s with N1 := Seek s.dt s.N1 (qbar / 20) 0 (s.N1 / 15) }
  let s : FGSimTurbine := { s with FuelFlow_pph := s.IdleFF }
  let s : FGSimTurbine := { s with OilPressure_psi := 0 }
  let s : FGSimTurbine := { s with OilTemp_degK := Seek s.dt s.OilTemp_degK (s.TAT + 273) 0 0.2 }
  let s : FGSimTurbine := { s with Running := false }
  (s, 0)

/-- `FGSimTurbine::Trim`: the returned thrust (no member is written). -/
def Trim (s : FGSimTurbine) (c : Collaborators) : FGSimTurbine × ℚ :=
  let idlethrust : ℚ := s.MilThrust * c.table0
  let milthrust : ℚ := (s.MilThrust - idlethrust) * c.table1
  let thrust : ℚ := idlethrust + milthrust * s.ThrottleCmd * s.ThrottleCmd
  (s, thrust)

/-- The first three statements of `FGSimTurbine::Calculate`: the total air
temperature, the time step and the throttle command are read. -/
def readInputs (s : FGSimTurbine) (c : Collaborators) : FGSimTurbine :=
  let s : FGSimTurbine := { s with TAT := (c.GetTotalTemperature - 491.69) * 0.5555556 }
  let s : FGSimTurbine := { s with dt := c.Getdt * c.GetRate }
  let s : FGSimTurbine := { s with ThrottleCmd := c.GetThrottleCmd }
  s

/-- The block of `FGSimTurbine::Calculate` commented "When trimming is finished
check if user wants engine OFF or RUNNING". -/
def leaveTrim (s : FGSimTurbine) : FGSimTurbine :=
  if s.phase = tpTrim ∧ s.dt > 0 then
    (if s.Running = true ∧ s.Starved = false then
      let s : FGSimTurbine := { s with phase := tpRun }
      let s : FGSimTurbine := { s with N2 := s.IdleN2 }
      let s : FGSimTurbine := { s with N1 := s.IdleN1 }
      let s : FGSimTurbine := { s with OilTemp_degK := s.TAT + 10 }
      { s with Cutoff := false }
    else
      let s : FGSimTurbine := { s with phase := tpOff }
      let s : FGSimTurbine := { s with Cutoff := true }
      { s with EGT_degC := s.TAT })
  else s

/-- The seven phase rules of `FGSimTurbine::Calculate` that precede the
`switch`, in the order of the source.  A guarded assignment `if (c) phase = p;`
is written as the assignment of `if c then p else phase`. -/
def phaseRules (s : FGSimTurbine) : FGSimTurbine :=
  let s : FGSimTurbine :=
    { s with phase :=
        if s.Running = false ∧ s.Cutoff = true ∧ s.Starter = true then
          (if s.phase = tpOff then tpSpinUp else s.phase)
        else s.phase }
  let s : FGSimTurbine :=
    { s with phase := if s.Running = false ∧ s.Cutoff = false ∧ s.N2 > 15 then tpStart else s.phase }
  let s : FGSimTurbine :=
    { s with phase := if s.Cutoff = true ∧ s.phase ≠ tpSpinUp then tpOff else s.phase }
  let s : FGSimTurbine := { s with phase := if s.dt = 0 then tpTrim else s.phase }
  let s : FGSimTurbine := { s with phase := if s.Starved = true then tpOff else s.phase }
  let s : FGSimTurbine := { s with phase := if s.Stalled = true then tpStall else s.phase }
  let s : FGSimTurbine := { s with phase := if s.Seized = true then tpSeize else s.phase }
  s

/-- The part of `FGSimTurbine::Calculate` before the `switch`: the inputs are
read and the phase the engine should be in is determined. -/
def selectPhase (s : FGSimTurbine) (c : Collaborators) : FGSimTurbine :=
  phaseRules (leaveTrim (readInputs s c))

/-- The `switch (phase)` of `FGSimTurbine::Calculate`: the handler of the
current phase is called.  (The `default` branch cannot be reached: every
value of `phaseType` has its own case.) -/
def dispatch (s : FGSimTurbine) (c : Collaborators) : FGSimTurbine × ℚ :=
  match s.phase with
  | tpOff => Off s c
  | tpRun => Run s c
  | tpSpinUp => SpinUp s
  | tpStart => Start s
  | tpStall => Stall s c
  | tpSeize => Seize s c
  | tpTrim => Trim s c

/-- The assignment `Thrust = ...` and the `return Thrust` of `Calculate`. -/
def storeThrust (r : FGSimTurbine × ℚ) : FGSimTurbine × ℚ :=
  ({ r.1 with Thrust := r.2 }, r.2)

/-- `FGSimTurbine::Calculate`: the phase is selected, its handler is run, the
result is stored in `Thrust` and returned. -/
def Calculate (s : FGSimTurbine) (c : Collaborators) : FGSimTurbine × ℚ :=
  storeThrust (dispatch (selectPhase s c) c)

/-- The phase that the rules of `Calculate` select, written as one nested
conditional in order of priority (the last rule of the source first). -/
def rulePhase (s : FGSimTurbine) : phaseType :=
  if s.Seized then tpSeize
  else if s.Stalled then tpStall
  else if s.Starved then tpOff
  else if s.dt = 0 then tpTrim
  else if s.Cutoff then
    (if s.phase = tpSpinUp ∨ (s.Running = false ∧ s.Starter = true ∧ s.phase = tpOff)
      then tpSpinUp else tpOff)
  else if s.Running = false ∧ s.N2 > 15 then tpStart
  else s.phase

/-- The engine after `n` calls of `Calculate` with the same collaborator values. -/
def iterateCalculate (c : Collaborators) : Nat → FGSimTurbine → FGSimTurbine
  | 0, s => s
  | n + 1, s => (Calculate (iterateCalculate c n s) c).1

/-- An engine as `SetDefaults` and the pre-calculations of `Load` leave it
(`IdleFF` rounded to a rational), with the members those functions do not
initialise set to zero or false. -/
def defaultEngine : FGSimTurbine where
  MilThrust := 10000
  MaxThrust := 10000
  BypassRatio := 0
  TSFC := 0.8
  ATSFC := 1.7
  IdleN1 := 30
  IdleN2 := 60
  MaxN1 := 100
  MaxN2 := 100
  Augmented := 0
  AugMethod := 0
  Injected := 0
  delay := 20
  N1_factor := 70
  N2_factor := 40
  IdleFF := 675
  phase := tpOff
  N1 := 0
  N2 := 0
  EGT_degC := 0
  OilTemp_degK := 273
  OilPressure_psi := 0
  FuelFlow_pph := 0
  Thrust := 0
  EPR := 1
  NozzlePosition := 1
  InletPosition := 1
  ThrottleCmd := 0
  BleedDemand := 0
  TAT := 0
  dt := 0
  Running := false
  Cutoff := false
  Starter := false
  Starved := false
  Stalled := false
  Seized := false
  Augmentation := false
  Injection := false
  Reversed := false
  Cranking := false
  Overtemp := false
  Fire := false

/-- The default engine with the starter engaged and the fuel cutoff cleared. -/
def starterOnEngine : FGSimTurbine :=
  { defaultEngine with Starter := true, Cutoff := false }

/-- The default engine with the starter engaged and the fuel cutoff set. -/
def motoringEngine : FGSimTurbine :=
  { defaultEngine with Starter := true, Cutoff := true }

/-- The default engine at the end of trimming, not running, starter engaged. -/
def trimmedStarterEngine : FGSimTurbine :=
  { defaultEngine with phase := tpTrim, Running := false, Starter := true }

/-- The default engine at the end of trimming, running and not starved. -/
def trimmedRunningEngine : FGSimTurbine :=
  { defaultEngine with phase := tpTrim, Running := true, Starved := false }

/-- The rotor-speed bounds of the data model: N1 in [0, MaxN1] and N2 in [0, MaxN2]. -/
def rotorBounds (s : FGSimTurbine) : Prop :=
  0 ≤ s.N1 ∧ s.N1 ≤ s.MaxN1 ∧ 0 ≤ s.N2 ∧ s.N2 ≤ s.MaxN2

/-- The default engine shut down at full rotor speed (N1 = MaxN1, N2 = MaxN2). -/
def shutDownEngine : FGSimTurbine :=
  { defaultEngine with phase := tpOff, Cutoff := true, N1 := 100, N2 := 100 }

/-- A motoring engine whose configured MaxN2 (20) lies below the starter target 25.18. -/
def lowMaxEngine : FGSimTurbine :=
  { defaultEngine with
    phase := tpSpinUp, Starter := true, Cutoff := true
    IdleN2 := 18, MaxN2 := 20, N2_factor := 2, N2 := 19 }

/-- A running engine at full rotor speed whose configured bypass ratio is -4, so
that the spool delay computed by `Load`, 60 / (BypassRatio + 3), is -60. -/
def negativeDelayEngine : FGSimTurbine :=
  { defaultEngine with
    phase := tpRun, Running := true, BypassRatio := -4, delay := -60, N1 := 100, N2 := 100 }

/-- The default engine running at idle (N1 = IdleN1, N2 = IdleN2). -/
def idlingEngine : FGSimTurbine :=
  { defaultEngine with phase := tpRun, Running := true, N1 := 30, N2 := 60 }

/-- Collaborator values for a tick of length `dt` at rest on the ground
(total temperature 491.69, no dynamic pressure), with the given throttle
command and a fuel store that never runs dry. -/
def groundTick (dt throttle : ℚ) : Collaborators where
  GetTotalTemperature := 491.69
  Getdt := dt
  GetRate := 1
  GetThrottleCmd := throttle
  Getqbar := 0
  table0 := 0.1
  table1 := 1
  table2 := 1
  table3 := 1
  ConsumeFuel := fun _ starved => starved

/-- A tick of length 1/10 in fast low-level flight: dynamic pressure 1600, throttle closed. -/
def fastFlightTick : Collaborators :=
  { groundTick (1 / 10) 0 with Getqbar := 1600 }

/-- The same tick with an empty fuel store: `ConsumeFuel` reports a shortage. -/
def dryTick (dt throttle : ℚ) : Collaborators :=
  { groundTick dt throttle with ConsumeFuel := fun _ _ => true }

/-! ## Landing gear model (`FGLGear.cpp`)

The members of the class `FGLGear` are the fields of the structure `FGLGear`;
the values obtained from `FCS`, `Propagate`, `Auxiliary`, `MassBalance`,
`State`, the ground callback, the cornering-force function and the C math
library are gathered in `GearCollaborators`.  Messages and the suspension
request are returned as a list of `GearEvent`s.  A guarded block of
assignments `if (c) { x = e; y = f; }` is written as one update in which every
assigned field takes `if c then e else x`. -/

/-- Modelled from the spec: the class `FGColumnVector3` is not among the
translated sources.  A column vector with the three components `eX`, `eY`,
`eZ`. -/
structure FGColumnVector3 where
  eX : ℚ
  eY : ℚ
  eZ : ℚ
  deriving DecidableEq

namespace FGColumnVector3

/-- The vector left by `InitMatrix()`. -/
def InitMatrix : FGColumnVector3 := ⟨0, 0, 0⟩

/-- The sum `u + v`. -/
def add (u v : FGColumnVector3) : FGColumnVector3 :=
  ⟨u.eX + v.eX, u.eY + v.eY, u.eZ + v.eZ⟩

/-- The difference `u - v`. -/
def sub (u v : FGColumnVector3) : FGColumnVector3 :=
  ⟨u.eX - v.eX, u.eY - v.eY, u.eZ - v.eZ⟩

/-- The cross product, written `u * v` in the source. -/
def cross (u v : FGColumnVector3) : FGColumnVector3 :=
  ⟨u.eY * v.eZ - u.eZ * v.eY, u.eZ * v.eX - u.eX * v.eZ, u.eX * v.eY - u.eY * v.eX⟩

/-- The square of `Magnitude()`. -/
def MagnitudeSq (v : FGColumnVector3) : ℚ :=
  v.eX * v.eX + v.eY * v.eY + v.eZ * v.eZ

/-- The comparison `v.Magnitude() > bound` for a non-negative bound, stated on
the squares so that no square root is needed. -/
def MagnitudeExceeds (v : FGColumnVector3) (bound : ℚ) : Prop :=
  v.MagnitudeSq > bound * bound

instance (v : FGColumnVector3) (bound : ℚ) : Decidable (v.MagnitudeExceeds bound) := by
  unfold MagnitudeExceeds
  infer_instance

end FGColumnVector3

/-- Modelled from the spec: the class `FGMatrix33` is not among the translated
sources.  A 3 x 3 matrix given by its rows, used for the frame transforms. -/
structure FGMatrix33 where
  row1 : FGColumnVector3
  row2 : FGColumnVector3
  row3 : FGColumnVector3

/-- The product of a matrix and a column vector, written `M * v` in the source. -/
def FGMatrix33.mulVec (m : FGMatrix33) (v : FGColumnVector3) : FGColumnVector3 :=
  ⟨m.row1.eX * v.eX + m.row1.eY * v.eY + m.row1.eZ * v.eZ,
   m.row2.eX * v.eX + m.row2.eY * v.eY + m.row2.eZ * v.eZ,
   m.row3.eX * v.eX + m.row3.eY * v.eY + m.row3.eZ * v.eZ⟩

/-- The brake groups (`BrakeGroup` of `FGLGear.h`). -/
inductive BrakeGroup where
  | bgNone
  | bgLeft
  | bgRight
  | bgCenter
  | bgNose
  | bgTail
  deriving DecidableEq, Repr

/-- The steering types (`SteerType` of `FGLGear.h`). -/
inductive SteerType where
  | stSteer
  | stFixed
  | stCaster
  deriving DecidableEq, Repr

/-- The report kinds handled by `FGLGear::Report`. -/
inductive ReportType where
  | erTakeoff
  | erLand
  deriving DecidableEq, Repr

/-- What a call of `Force` sends to the outside: the two messages passed to
`PutMessage`, the call of `State->Suspend()`, and the two printed reports. -/
inductive GearEvent where
  | GEAR_CONTACT (wow : Bool)
  | CrashDetected
  | Suspend
  | TouchdownReport
  | TakeoffReport
  deriving DecidableEq, Repr

open BrakeGroup SteerType ReportType

/-- Member variables of the class `FGLGear`.  `ForceY_Function` tells whether the
pointer of that name is set; `eBrakeGrp` is `none` when the member holds none of
the enumerators of `BrakeGroup`. -/
structure FGLGear where
  vXYZ : FGColumnVector3
  kSpring : ℚ
  bDamp : ℚ
  bDampRebound : ℚ
  dynamicFCoeff : ℚ
  staticFCoeff : ℚ
  rollingFCoeff : ℚ
  maxSteerAngle : ℚ
  isRetractable : Int
  ForceY_Function : Bool
  eSteerType : SteerType
  eBrakeGrp : Option BrakeGroup
  TirePressureNorm : ℚ
  ReportEnable : Bool
  Servicable : Bool
  vForce : FGColumnVector3
  vMoment : FGColumnVector3
  vWhlBodyVec : FGColumnVector3
  vLocalGear : FGColumnVector3
  vWhlVelVec : FGColumnVector3
  vLocalForce : FGColumnVector3
  GearUp : Bool
  GearDown : Bool
  SteerAngle : ℚ
  compressLength : ℚ
  compressSpeed : ℚ
  brakePct : ℚ
  maxCompLen : ℚ
  WOW : Bool
  lastWOW : Bool
  FirstContact : Bool
  StartedGroundRun : Bool
  LandingReported : Bool
  TakeoffReported : Bool
  LandingDistanceTraveled : ℚ
  TakeoffDistanceTraveled : ℚ
  TakeoffDistanceTraveled50ft : ℚ
  MaximumStrutForce : ℚ
  MaximumStrutTravel : ℚ
  SideForce : ℚ
  RollingForce : ℚ
  SinkRate : ℚ
  GroundSpeed : ℚ
  BrakeFCoeff : ℚ
  FCoeff : ℚ
  RollingWhlVel : ℚ
  SideWhlVel : ℚ
  WheelSlip : ℚ
  lastWheelSlip : ℚ
  FirstPass : Bool
  lastFX : ℚ
  lastFY : ℚ

/-- Values supplied to one call of `Force` by the collaborating objects.
`GetAGLevel` stands for the ground callback applied to the location of the
gear: from the simulation time and the local gear vector it gives the height
above ground and the velocity `cvel` of the contact point.  `GetVelMagnitude`
is `Propagate->GetVel().Magnitude()`, `GetThrottlePos0` is
`FCS->GetThrottlePos(0)`, `ForceY_FunctionValue` is `ForceY_Function->GetValue()`.
The functions `sin`, `cos`, `atan2` and the constants `radtodeg`, `degtorad`
are those of the C library and of `FGJSBBase`, taken as parameters. -/
structure GearCollaborators where
  Getdt : ℚ
  GetRate : ℚ
  Getsim_time : ℚ
  GetGearPos : ℚ
  GetSteerPosDeg : ℚ
  GetBrake : BrakeGroup → ℚ
  GetThrottlePos0 : ℚ
  StructuralToBody : FGColumnVector3 → FGColumnVector3
  GetTb2l : FGMatrix33
  GetTl2b : FGMatrix33
  GetAGLevel : ℚ → FGColumnVector3 → ℚ × FGColumnVector3
  GetPQR : FGColumnVector3
  GetVel : FGColumnVector3
  GetVelMagnitude : ℚ
  GetEulerPsi : ℚ
  GetDistanceAGL : ℚ
  GetVground : ℚ
  ForceY_FunctionValue : ℚ
  debug_lvl : Int
  sin : ℚ → ℚ
  cos : ℚ → ℚ
  atan2 : ℚ → ℚ → ℚ
  radtodeg : ℚ
  degtorad : ℚ

/-- `FGLGear::Report` (the printed text is left out). -/
def Report (g : FGLGear) (repType : ReportType) : FGLGear :=
  match repType with
  | erLand => { g with LandingReported := true }
  | erTakeoff => { g with TakeoffReported := true }

/-- `Force`, the gear position: `GearUp` and `GearDown` from the retractable flag
and the gear-position command. -/
def resolveGearPosition (g : FGLGear) (c : GearCollaborators) : FGLGear :=
  if g.isRetractable ≠ 0 then
    (if c.GetGearPos < 0.01 then { g with GearUp := true, GearDown := false }
     else if c.GetGearPos > 0.99 then { g with GearDown := true, GearUp := false }
     else { g with GearUp := false, GearDown := false })
  else { g with GearUp := false, GearDown := true }

/-- `Force`, the `switch (eSteerType)`: the steering angle "in any case". -/
def computeSteerAngle (g : FGLGear) (c : GearCollaborators) : FGLGear :=
  match g.eSteerType with
  | stSteer => { g with SteerAngle := c.degtorad * c.GetSteerPosDeg }
  | stFixed => { g with SteerAngle := 0 }
  | stCaster => { g with SteerAngle := 0 }

/-- `Force` up to the test of `GearDown`: force and moment are cleared, the gear
position is resolved and the steering angle is computed. -/
def prepare (g : FGLGear) (c : GearCollaborators) : FGLGear :=
  let g : FGLGear := { g with vForce := FGColumnVector3.InitMatrix }
  let g : FGLGear := { g with vMoment := FGColumnVector3.InitMatrix }
  let g : FGLGear := resolveGearPosition g c
  let g : FGLGear := computeSteerAngle g c
  g

/-- `Force`, gear down: the wheel vectors and the compression length. -/
def locate (g : FGLGear) (c : GearCollaborators) : FGLGear :=
  let t : ℚ := c.Getsim_time
  let g : FGLGear := { g with vWhlBodyVec := c.StructuralToBody g.vXYZ }
  let g : FGLGear := { g with vLocalGear := c.GetTb2l.mulVec g.vWhlBodyVec }
  let g : FGLGear := { g with compressLength := - (c.GetAGLevel t g.vLocalGear).1 }
  g

/-- The height above ground that the ground callback returns in `Force` (the
compression length is its negative). -/
def AGLevel (g : FGLGear) (c : GearCollaborators) : ℚ :=
  (c.GetAGLevel c.Getsim_time (c.GetTb2l.mulVec (c.StructuralToBody g.vXYZ))).1

/-- The velocity `cvel` of the contact point that the ground callback returned. -/
def cvel (g : FGLGear) (c : GearCollaborators) : FGColumnVector3 :=
  (c.GetAGLevel c.Getsim_time g.vLocalGear).2

/-- The local `SinWheel` of `Force`. -/
def SinWheel (g : FGLGear) (c : GearCollaborators) : ℚ :=
  c.sin (c.GetEulerPsi + g.SteerAngle)

/-- The local `CosWheel` of `Force`. -/
def CosWheel (g : FGLGear) (c : GearCollaborators) : ℚ :=
  c.cos (c.GetEulerPsi + g.SteerAngle)

/-- `Force`, gear compressed: the wheel velocity in the local frame and the
compression speed. -/
def wheelVelocity (g : FGLGear) (c : GearCollaborators) : FGLGear :=
  let g : FGLGear :=
    { g with vWhlVelVec := c.GetTb2l.mulVec (c.GetPQR.cross g.vWhlBodyVec) }
  let g : FGLGear := { g with vWhlVelVec := g.vWhlVelVec.add (c.GetVel.sub (cvel g c)) }
  let g : FGLGear := { g with compressSpeed := g.vWhlVelVec.eZ }
  g

/-- `Force`, gear compressed: the block `if (!FirstContact)`. -/
def firstContact (g : FGLGear) (c : GearCollaborators) : FGLGear :=
  { g with
    FirstContact := if g.FirstContact = false then true else g.FirstContact
    SinkRate := if g.FirstContact = false then g.compressSpeed else g.SinkRate
    GroundSpeed := if g.FirstContact = false then c.GetVelMagnitude else g.GroundSpeed
    TakeoffReported := if g.FirstContact = false then false else g.TakeoffReported }

/-- The condition under which `Force` starts a takeoff ground run. -/
def takeoffRunStarts (g : FGLGear) (c : GearCollaborators) : Prop :=
  c.GetVelMagnitude > 0.1 ∧ c.GetBrake bgLeft = 0 ∧ c.GetBrake bgRight = 0 ∧
    c.GetThrottlePos0 = 1 ∧ g.StartedGroundRun = false

instance (g : FGLGear) (c : GearCollaborators) : Decidable (takeoffRunStarts g c) := by
  unfold takeoffRunStarts
  infer_instance

/-- `Force`, gear compressed: the block "If the takeoff run is starting, initialize". -/
def takeoffRunStart (g : FGLGear) (c : GearCollaborators) : FGLGear :=
  { g with
    TakeoffDistanceTraveled := if takeoffRunStarts g c then 0 else g.TakeoffDistanceTraveled
    TakeoffDistanceTraveled50ft :=
      if takeoffRunStarts g c then 0 else g.TakeoffDistanceTraveled50ft
    StartedGroundRun := if takeoffRunStarts g c then true else g.StartedGroundRun }

/-- `Force`, gear compressed: the `switch (eBrakeGrp)`.  The `default` branch
(no enumerator) leaves `BrakeFCoeff` as it was. -/
def brakeCoefficient (g : FGLGear) (c : GearCollaborators) : FGLGear :=
  match g.eBrakeGrp with
  | some bgLeft =>
    { g with BrakeFCoeff :=
        g.rollingFCoeff * (1 - c.GetBrake bgLeft) + g.staticFCoeff * c.GetBrake bgLeft }
  | some bgRight =>
    { g with BrakeFCoeff :=
        g.rollingFCoeff * (1 - c.GetBrake bgRight) + g.staticFCoeff * c.GetBrake bgRight }
  | some bgCenter =>
    { g with BrakeFCoeff :=
        g.rollingFCoeff * (1 - c.GetBrake bgCenter) + g.staticFCoeff * c.GetBrake bgCenter }
  | some bgNose =>
    { g with BrakeFCoeff :=
        g.rollingFCoeff * (1 - c.GetBrake bgCenter) + g.staticFCoeff * c.GetBrake bgCenter }
  | some bgTail =>
    { g with BrakeFCoeff :=
        g.rollingFCoeff * (1 - c.GetBrake bgCenter) + g.staticFCoeff * c.GetBrake bgCenter }
  | some bgNone => { g with BrakeFCoeff := g.rollingFCoeff }
  | none => g

/-- `Force`, gear compressed: the wheel velocity in the wheel axis system. -/
def wheelAxisVelocity (g : FGLGear) (c : GearCollaborators) : FGLGear :=
  let g : FGLGear :=
    { g with RollingWhlVel := g.vWhlVelVec.eX * CosWheel g c + g.vWhlVelVec.eY * SinWheel g c }
  let g : FGLGear :=
    { g with SideWhlVel := g.vWhlVelVec.eY * CosWheel g c - g.vWhlVelVec.eX * SinWheel g c }
  g

/-- `Force`, gear compressed: the tire slip angle. -/
def tireSlip (g : FGLGear) (c : GearCollaborators) : FGLGear :=
  let g : FGLGear :=
    { g with WheelSlip :=
        if g.RollingWhlVel = 0 ∧ g.SideWhlVel = 0 then 0
        else if |g.RollingWhlVel| < 1 then
          0.05 * c.radtodeg * c.atan2 g.SideWhlVel |g.RollingWhlVel| + 0.95 * g.WheelSlip
        else c.radtodeg * c.atan2 g.SideWhlVel |g.RollingWhlVel| }
  let g : FGLGear := { g with lastWheelSlip := g.WheelSlip }
  g

/-- `Force`, gear compressed: the side force coefficient. -/
def sideForceCoefficient (g : FGLGear) (c : GearCollaborators) : FGLGear :=
  { g with FCoeff :=
      if g.ForceY_Function = true then c.ForceY_FunctionValue
      else if |g.WheelSlip| ≤ 10 then g.staticFCoeff * g.WheelSlip / 10
      else if |g.WheelSlip| ≤ 40 then
        (g.dynamicFCoeff * (|g.WheelSlip| - 10) / 10 +
          g.staticFCoeff * (40 - |g.WheelSlip|) / 10) * |g.WheelSlip| / g.WheelSlip
      else g.dynamicFCoeff * |g.WheelSlip| / g.WheelSlip }

/-- `Force`, gear compressed: the vertical force of the strut and the peak trackers. -/
def strutForce (g : FGLGear) : FGLGear :=
  let springForce : ℚ := -g.compressLength * g.kSpring
  let dampForce : ℚ :=
    if g.compressSpeed ≥ 0 then -g.compressSpeed * g.bDamp
    else -g.compressSpeed * g.bDampRebound
  let g : FGLGear :=
    { g with vLocalForce := { g.vLocalForce with eZ := min (springForce + dampForce) 0 } }
  let g : FGLGear :=
    { g with MaximumStrutForce := max g.MaximumStrutForce |g.vLocalForce.eZ| }
  let g : FGLGear :=
    { g with MaximumStrutTravel := max g.MaximumStrutTravel |g.compressLength| }
  g

/-- `Force`, gear compressed: the forces in the wheel ground plane, turned back
to the local frame. -/
def groundPlaneForces (g : FGLGear) (c : GearCollaborators) : FGLGear :=
  let g : FGLGear := { g with RollingForce := 0 }
  let g : FGLGear :=
    { g with RollingForce :=
        if |g.RollingWhlVel| > 1e-3 then
          (1 - g.TirePressureNorm) * 30 +
            g.vLocalForce.eZ * g.BrakeFCoeff * |g.RollingWhlVel| / g.RollingWhlVel
        else g.RollingForce }
  let g : FGLGear := { g with SideForce := g.vLocalForce.eZ * g.FCoeff }
  let g : FGLGear :=
    { g with vLocalForce :=
        { g.vLocalForce with eX := g.RollingForce * CosWheel g c - g.SideForce * SinWheel g c } }
  let g : FGLGear :=
    { g with vLocalForce :=
        { g.vLocalForce with eY := g.SideForce * CosWheel g c + g.RollingForce * SinWheel g c } }
  g

/-- `Force`, gear compressed: the force in the body frame, lagged by one tick
except on the first pass, and the moment. -/
def bodyForces (g : FGLGear) (c : GearCollaborators) : FGLGear :=
  let g : FGLGear := { g with vForce := c.GetTl2b.mulVec g.vLocalForce }
  let g : FGLGear :=
    { g with
      FirstPass := if g.FirstPass = true then false else g.FirstPass
      vForce :=
        if g.FirstPass = true then g.vForce
        else { g.vForce with
               eX := 0.5 * (g.lastFX + g.vForce.eX)
               eY := 0.5 * (g.lastFY + g.vForce.eY) } }
  let g : FGLGear := { g with lastFX := g.vForce.eX }
  let g : FGLGear := { g with lastFY := g.vForce.eY }
  let g : FGLGear := { g with vMoment := g.vWhlBodyVec.cross g.vForce }
  g

/-- `Force`, the branch `compressLength > 0.00`. -/
def compressed (g : FGLGear) (c : GearCollaborators) : FGLGear :=
  let g : FGLGear := { g with WOW := true }
  let g : FGLGear := wheelVelocity g c
  let g : FGLGear := firstContact g c
  let g : FGLGear := takeoffRunStart g c
  let g : FGLGear := brakeCoefficient g c
  let g : FGLGear := wheelAxisVelocity g c
  let g : FGLGear := tireSlip g c
  let g : FGLGear := sideForceCoefficient g c
  let g : FGLGear := strutForce g
  let g : FGLGear := groundPlaneForces g c
  let g : FGLGear := bodyForces g c
  g

/-- `Force`, the branch "Gear is NOT compressed". -/
def notCompressed (g : FGLGear) (c : GearCollaborators) : FGLGear :=
  let g : FGLGear := { g with WOW := false }
  let g : FGLGear := { g with SteerAngle := g.SteerAngle * (max (c.GetGearPos - 0.8) 0 / 0.2) }
  let g : FGLGear :=
    { g with
      FirstContact := if c.GetDistanceAGL > 200 then false else g.FirstContact
      StartedGroundRun := if c.GetDistanceAGL > 200 then false else g.StartedGroundRun
      LandingReported := if c.GetDistanceAGL > 200 then false else g.LandingReported
      LandingDistanceTraveled :=
        if c.GetDistanceAGL > 200 then 0 else g.LandingDistanceTraveled
      MaximumStrutForce := if c.GetDistanceAGL > 200 then 0 else g.MaximumStrutForce
      MaximumStrutTravel := if c.GetDistanceAGL > 200 then 0 else g.MaximumStrutTravel }
  let g : FGLGear := { g with compressLength := 0 }
  g

/-- `Force`, gear down: the distance bookkeeping after the contact branches. -/
def distances (g : FGLGear) (c : GearCollaborators) : FGLGear :=
  let deltaT : ℚ := c.Getdt * c.GetRate
  let g : FGLGear :=
    { g with LandingDistanceTraveled :=
        if g.FirstContact = true then g.LandingDistanceTraveled + c.GetVground * deltaT
        else g.LandingDistanceTraveled }
  let g : FGLGear :=
    { g with
      TakeoffDistanceTraveled50ft :=
        if g.StartedGroundRun = true then g.TakeoffDistanceTraveled50ft + c.GetVground * deltaT
        else g.TakeoffDistanceTraveled50ft
      TakeoffDistanceTraveled :=
        if g.StartedGroundRun = true ∧ g.WOW = true then
          g.TakeoffDistanceTraveled + c.GetVground * deltaT
        else g.TakeoffDistanceTraveled }
  g

/-- The condition under which `Force` calls `Report(erLand)`. -/
def landingReportDue (g : FGLGear) (c : GearCollaborators) : Prop :=
  (g.ReportEnable = true ∧ c.GetVground ≤ 0.05 ∧ g.LandingReported = false) ∧ c.debug_lvl > 0

instance (g : FGLGear) (c : GearCollaborators) : Decidable (landingReportDue g c) := by
  unfold landingReportDue
  infer_instance

/-- The condition under which `Force` calls `Report(erTakeoff)`. -/
def takeoffReportDue (g : FGLGear) (c : GearCollaborators) : Prop :=
  (g.ReportEnable = true ∧ g.TakeoffReported = false ∧
    g.vLocalGear.eZ - c.GetDistanceAGL < -50) ∧ c.debug_lvl > 0

instance (g : FGLGear) (c : GearCollaborators) : Decidable (takeoffReportDue g c) := by
  unfold takeoffReportDue
  infer_instance

/-- The crash ("out-of-bounds") test at the end of `Force`. -/
def crashDetected (g : FGLGear) : Prop :=
  g.compressLength > 500 ∨ g.vForce.MagnitudeExceeds 100000000 ∨
    g.vMoment.MagnitudeExceeds 5000000000 ∨ g.SinkRate > 1.4666 * 30

instance (g : FGLGear) : Decidable (crashDetected g) := by
  unfold crashDetected
  infer_instance

/-- `Force`, gear down: the landing report, `if (...) { if (debug_lvl > 0) Report(erLand); }`. -/
def reportLanding (g : FGLGear) (c : GearCollaborators) : FGLGear :=
  if landingReportDue g c then Report g erLand else g

/-- `Force`, gear down: the takeoff report,
`if (...) { if (debug_lvl > 0) Report(erTakeoff); }`. -/
def reportTakeoff (g : FGLGear) (c : GearCollaborators) : FGLGear :=
  if takeoffReportDue g c then Report g erTakeoff else g

/-- `Force`, gear down, after the contact branches: distances, reports, the
contact-change message, `lastWOW` and the crash detection, with the events
in the order in which the source emits them. -/
def finish (g : FGLGear) (c : GearCollaborators) : FGLGear × List GearEvent :=
  let g : FGLGear := distances g c
  let landing : List GearEvent := if landingReportDue g c then [GearEvent.TouchdownReport] else []
  let g : FGLGear := reportLanding g c
  let takeoff : List GearEvent := if takeoffReportDue g c then [GearEvent.TakeoffReport] else []
  let g : FGLGear := reportTakeoff g c
  let contact : List GearEvent :=
    if g.lastWOW ≠ g.WOW then [GearEvent.GEAR_CONTACT g.WOW] else []
  let g : FGLGear := { g with lastWOW := g.WOW }
  let crash : List GearEvent :=
    if crashDetected g then [GearEvent.CrashDetected, GearEvent.Suspend] else []
  (g, landing ++ takeoff ++ contact ++ crash)

/-- `FGLGear::Force`: the updated gear (whose `vForce` is the returned vector)
and the events emitted by the call. -/
def Force (g : FGLGear) (c : GearCollaborators) : FGLGear × List GearEvent :=
  let g : FGLGear := prepare g c
  if g.GearDown = true then
    let g : FGLGear := locate g c
    let g : FGLGear := if g.compressLength > 0 then compressed g c else notCompressed g c
    finish g c
  else (g, [])

/-- The brake command that the specification assigns to a brake group: the
Left command for a Left gear, the Right command for a Right gear, the Center
command for Center, Nose and Tail gears, and no braking for group None. -/
def brakeCommandSpec (c : GearCollaborators) : BrakeGroup → ℚ
  | bgLeft => c.GetBrake bgLeft
  | bgRight => c.GetBrake bgRight
  | bgCenter => c.GetBrake bgCenter
  | bgNose => c.GetBrake bgCenter
  | bgTail => c.GetBrake bgCenter
  | bgNone => 0

/-- A gear in the state in which the constructor leaves it, with a spring
coefficient of 1000, damping 100, friction coefficients 0.8 (static), 0.5
(dynamic), 0.02 (rolling); fixed, not retractable, without brakes. -/
def newGear : FGLGear where
  vXYZ := ⟨0, 0, 0⟩
  kSpring := 1000
  bDamp := 100
  bDampRebound := 100
  dynamicFCoeff := 0.5
  staticFCoeff := 0.8
  rollingFCoeff := 0.02
  maxSteerAngle := 0
  isRetractable := 0
  ForceY_Function := false
  eSteerType := stFixed
  eBrakeGrp := some bgNone
  TirePressureNorm := 1
  ReportEnable := true
  Servicable := true
  vForce := ⟨0, 0, 0⟩
  vMoment := ⟨0, 0, 0⟩
  vWhlBodyVec := ⟨0, 0, 0⟩
  vLocalGear := ⟨0, 0, 0⟩
  vWhlVelVec := ⟨0, 0, 0⟩
  vLocalForce := ⟨0, 0, 0⟩
  GearUp := false
  GearDown := true
  SteerAngle := 0
  compressLength := 0
  compressSpeed := 0
  brakePct := 0
  maxCompLen := 0
  WOW := true
  lastWOW := true
  FirstContact := false
  StartedGroundRun := false
  LandingReported := false
  TakeoffReported := false
  LandingDistanceTraveled := 0
  TakeoffDistanceTraveled := 0
  TakeoffDistanceTraveled50ft := 0
  MaximumStrutForce := 0
  MaximumStrutTravel := 0
  SideForce := 0
  RollingForce := 0
  SinkRate := 0
  GroundSpeed := 0
  BrakeFCoeff := 0
  FCoeff := 0
  RollingWhlVel := 0
  SideWhlVel := 0
  WheelSlip := 0
  lastWheelSlip := 0
  FirstPass := true
  lastFX := 0
  lastFY := 0

/-- The new gear with a wheel slip of 400/19 degrees left by the previous tick. -/
def skiddingGear : FGLGear :=
  { newGear with WheelSlip := 400 / 19, lastWheelSlip := 400 / 19 }

/-- A retractable, steerable gear (maximum steer angle 30 degrees). -/
def retractableSteerGear : FGLGear :=
  { newGear with isRetractable := 1, eSteerType := stSteer, maxSteerAngle := 30 }

/-- The identity transform. -/
def identityMatrix : FGMatrix33 :=
  ⟨⟨1, 0, 0⟩, ⟨0, 1, 0⟩, ⟨0, 0, 1⟩⟩

/-- Collaborator values for an aircraft standing level at heading 0 with the
gear at the height `agl` above the ground: no velocity, no rotation, gear
lever down, brakes released, throttle closed, tick length 1/10. -/
def standingTick (agl : ℚ) : GearCollaborators where
  Getdt := 1 / 10
  GetRate := 1
  Getsim_time := 0
  GetGearPos := 1
  GetSteerPosDeg := 0
  GetBrake := fun _ => 0
  GetThrottlePos0 := 0
  StructuralToBody := fun v => v
  GetTb2l := identityMatrix
  GetTl2b := identityMatrix
  GetAGLevel := fun _ _ => (agl, ⟨0, 0, 0⟩)
  GetPQR := ⟨0, 0, 0⟩
  GetVel := ⟨0, 0, 0⟩
  GetVelMagnitude := 0
  GetEulerPsi := 0
  GetDistanceAGL := agl
  GetVground := 0
  ForceY_FunctionValue := 0
  debug_lvl := 1
  sin := fun _ => 0
  cos := fun _ => 1
  atan2 := fun _ _ => 0
  radtodeg := 57.29578
  degtorad := 0.01745329

/-- The standing tick two units below the ground level, but rolling straight
ahead at 1/2 unit per second (no side velocity, so `atan2` is exactly 0). -/
def slowRollTick : GearCollaborators :=
  { standingTick (-2) with GetVel := ⟨1 / 2, 0, 0⟩, GetVelMagnitude := 1 / 2, GetVground := 1 / 2 }

/-- A tick five units above the ground with the gear lever at 0.9 (gear in
transit) and a steering command of 10 degrees. -/
def retractingTick : GearCollaborators :=
  { standingTick 5 with GetGearPos := 9 / 10, GetSteerPosDeg := 10 }

/-- Modelled from the spec: the class `Element` is not among the translated
sources.  The gear definition as the constructor reads it: each numeric child
element is present (with its value, already converted to the unit asked for)
or absent; `function_types` lists the `type` attributes of the `function`
children; `steer_type` and `brake_group` are the strings that
`FindElementValue` returns (empty when the element is absent). -/
structure Element where
  spring_coeff : Option ℚ
  damping_coeff : Option ℚ
  damping_coeff_rebound : Option ℚ
  dynamic_friction : Option ℚ
  static_friction : Option ℚ
  rolling_friction : Option ℚ
  max_steer : Option ℚ
  retractable : Option ℚ
  function_types : List String
  steer_type : String
  brake_group : String
  location : Option FGColumnVector3

/-- The conversion `(int)x` of a number: truncation toward zero. -/
def truncate (x : ℚ) : Int :=
  if 0 ≤ x then ⌊x⌋ else ⌈x⌉

/-- The constructor, lines 108-110: the steer type string read from the
configuration is replaced, in each of the three branches, by one derived from
the maximum steer angle. -/
def steerTypeString (_sSteerType : String) (maxSteerAngle : ℚ) : String :=
  if maxSteerAngle = 360 then "CASTERED"
  else if maxSteerAngle = 0 then "FIXED"
  else "STEERABLE"

/-- The constructor, lines 116-127: the brake group of a brake group string;
`none` when the last `else` is taken, which prints a message and assigns
nothing to `eBrakeGrp`. -/
def brakeGroupOf (sBrakeGroup : String) : Option BrakeGroup :=
  if sBrakeGroup = "LEFT" then some bgLeft
  else if sBrakeGroup = "RIGHT" then some bgRight
  else if sBrakeGroup = "CENTER" then some bgCenter
  else if sBrakeGroup = "NOSE" then some bgNose
  else if sBrakeGroup = "TAIL" then some bgTail
  else if sBrakeGroup = "NONE" then some bgNone
  else if sBrakeGroup = "" then some bgNone
  else none

/-- The constructor, lines 129-137: the steer type of a steer type string;
`none` when the last `else` is taken, which prints a message and assigns
nothing to `eSteerType`. -/
def steerTypeOf (sSteerType : String) : Option SteerType :=
  if sSteerType = "STEERABLE" then some stSteer
  else if sSteerType = "FIXED" then some stFixed
  else if sSteerType = "CASTERED" then some stCaster
  else if sSteerType = "" then some stFixed
  else none

/-- The constructor `FGLGear::FGLGear(Element*, FGFDMExec*, int)`.  The result is
`none` when the constructor calls `exit(-1)` (no location given).  The members
it does not initialise are set to zero; a gear whose `eSteerType` was never
assigned has no value in `FGLGear`, which `steerTypeString` rules out. -/
def FGLGear.FGLGear (el : Element) (c : GearCollaborators) : Option FGLGear :=
  let kSpring : ℚ := el.spring_coeff.getD 0
  let bDamp : ℚ := el.damping_coeff.getD 0
  let bDampRebound : ℚ :=
    match el.damping_coeff_rebound with
    | some v => v
    | none => bDamp
  let dynamicFCoeff : ℚ := el.dynamic_friction.getD 0
  let staticFCoeff : ℚ := el.static_friction.getD 0
  let rollingFCoeff : ℚ := el.rolling_friction.getD 0
  let maxSteerAngle : ℚ := el.max_steer.getD 0
  let isRetractable : Int :=
    match el.retractable with
    | some v => truncate v
    | none => 0
  let ForceY_Function : Bool := decide ("CORNERING_COEFF" ∈ el.function_types)
  let sSteerType : String := el.steer_type
  let sBrakeGroup : String := el.brake_group
  let sSteerType : String := steerTypeString sSteerType maxSteerAngle
  match el.location, steerTypeOf sSteerType with
  | none, _ => none
  | some _, none => none
  | some vXYZ, some eSteerType =>
    some
      { vXYZ := vXYZ
        kSpring := kSpring
        bDamp := bDamp
        bDampRebound := bDampRebound
        dynamicFCoeff := dynamicFCoeff
        staticFCoeff := staticFCoeff
        rollingFCoeff := rollingFCoeff
        maxSteerAngle := maxSteerAngle
        isRetractable := isRetractable
        ForceY_Function := ForceY_Function
        eSteerType := eSteerType
        eBrakeGrp := brakeGroupOf sBrakeGroup
        TirePressureNorm := 1
        ReportEnable := true
        Servicable := true
        vForce := FGColumnVector3.InitMatrix
        vMoment := FGColumnVector3.InitMatrix
        vWhlBodyVec := c.StructuralToBody vXYZ
        vLocalGear := c.GetTb2l.mulVec (c.StructuralToBody vXYZ)
        vWhlVelVec := FGColumnVector3.InitMatrix
        vLocalForce := FGColumnVector3.InitMatrix
        GearUp := false
        GearDown := true
        SteerAngle := 0
        compressLength := 0
        compressSpeed := 0
        brakePct := 0
        maxCompLen := 0
        WOW := true
        lastWOW := true
        FirstContact := false
        StartedGroundRun := false
        LandingReported := false
        TakeoffReported := false
        LandingDistanceTraveled := 0
        TakeoffDistanceTraveled := 0
        TakeoffDistanceTraveled50ft := 0
        MaximumStrutForce := 0
        MaximumStrutTravel := 0
        SideForce := 0
        RollingForce := 0
        SinkRate := 0
        GroundSpeed := 0
        BrakeFCoeff := 0
        FCoeff := 0
        RollingWhlVel := 0
        SideWhlVel := 0
        WheelSlip := 0
        lastWheelSlip := 0
        FirstPass := true
        lastFX := 0
        lastFY := 0 }

/-- The gear after successive calls of `Force`, one for each element of the
list of collaborator values. -/
def iterateForce : List GearCollaborators → FGLGear → FGLGear
  | [], g => g
  | c :: cs, g => iterateForce cs (Force g c).1

/-- A gear definition with a location, every coefficient given, no steering and
the brake group string `brake_group`. -/
def exampleElement (brake_group : String) : Element where
  spring_coeff := some 1000
  damping_coeff := some 100
  damping_coeff_rebound := none
  dynamic_friction := some 0.5
  static_friction := some 0.8
  rolling_friction := some 0.02
  max_steer := none
  retractable := some 0
  function_types := []
  steer_type := ""
  brake_group := brake_group
  location := some ⟨0, 0, 0⟩

/-- A nose-wheel definition with a maximum steer angle of 360 degrees whose
configured steer type string is "FIXED". -/
def casterElement : Element :=
  { exampleElement "NOSE" with max_steer := some 360, steer_type := "FIXED" }

/-- The gear that the constructor builds from `casterElement`. -/
def casterGear : FGLGear :=
  { newGear with maxSteerAngle := 360, eSteerType := stCaster, eBrakeGrp := some bgNose }

/-- The retractable gear with weight on wheels and a latched sink rate of 100,
above the crash threshold 1.4666*30. -/
def sunkRetractableGear : FGLGear :=
  { retractableSteerGear with SinkRate := 100 }

/-- A tick of a takeoff run: two units below the ground level, full throttle,
brakes released, rolling straight ahead at 10 units per second. -/
def takeoffRollTick : GearCollaborators :=
  { standingTick (-2) with
    GetThrottlePos0 := 1, GetVel := ⟨10, 0, 0⟩, GetVelMagnitude := 10, GetVground := 10 }

/-- A tick just after liftoff: five units above the ground, full throttle, at 10
units per second. -/
def liftoffTick : GearCollaborators :=
  { standingTick 5 with
    GetThrottlePos0 := 1, GetVel := ⟨10, 0, 0⟩, GetVelMagnitude := 10, GetVground := 10 }

end JSBSim

/-! ## Theorems -/

namespace JSBSim
open phaseType

/-! ### Auxiliary facts about the phase selection -/

theorem phaseRules_eq (s : FGSimTurbine) : phaseRules s = { s with phase := rulePhase s } := by
  simp only [phaseRules]
  congr 1
  simp only [rulePhase]
  cases hR : s.Running <;> cases hC : s.Cutoff <;> cases hS : s.Starter <;>
    cases hV : s.Starved <;> cases hL : s.Stalled <;> cases hZ : s.Seized <;>
    simp <;> split_ifs <;> simp_all

theorem selectPhase_eq (s : FGSimTurbine) (c : Collaborators) :
    selectPhase s c =
      { leaveTrim (readInputs s c) with phase := rulePhase (leaveTrim (readInputs s c)) } := by
  simp only [selectPhase, phaseRules_eq]

/-- When the previous phase is not `tpTrim`, or the time step is not positive,
the trim-exit block of `Calculate` does nothing. -/
theorem leaveTrim_of_not (s : FGSimTurbine) (h : ¬ (s.phase = tpTrim ∧ s.dt > 0)) :
    leaveTrim s = s := by
  simp only [leaveTrim, h, if_false]

/-- When the previous phase is not `tpTrim`, `Calculate` only reads its inputs
and applies the phase rules before the `switch`. -/
theorem selectPhase_of_not_trim (s : FGSimTurbine) (c : Collaborators) (h : s.phase ≠ tpTrim) :
    selectPhase s c = { readInputs s c with phase := rulePhase (readInputs s c) } := by
  have h1 : leaveTrim (readInputs s c) = readInputs s c :=
    leaveTrim_of_not _ (fun hh => h (by simpa [readInputs] using hh.1))
  rw [selectPhase_eq, h1]

/-- When the previous phase is not `tpTrim`, the part of `Calculate` before the
`switch` changes no rotor speed and no flag. -/
theorem selectPhase_fields_of_not_trim (s : FGSimTurbine) (c : Collaborators)
    (h : s.phase ≠ tpTrim) :
    (selectPhase s c).N1 = s.N1 ∧ (selectPhase s c).N2 = s.N2 ∧
    (selectPhase s c).dt = c.Getdt * c.GetRate ∧
    (selectPhase s c).Running = s.Running ∧ (selectPhase s c).Cutoff = s.Cutoff ∧
    (selectPhase s c).Starter = s.Starter ∧ (selectPhase s c).Starved = s.Starved ∧
    (selectPhase s c).Stalled = s.Stalled ∧ (selectPhase s c).Seized = s.Seized := by
  rw [selectPhase_of_not_trim s c h]
  simp [readInputs]

theorem dispatch_tpOff (s : FGSimTurbine) (c : Collaborators) (h : s.phase = tpOff) :
    dispatch s c = Off s c := by
  simp only [dispatch, h]

theorem dispatch_tpRun (s : FGSimTurbine) (c : Collaborators) (h : s.phase = tpRun) :
    dispatch s c = Run s c := by
  simp only [dispatch, h]

theorem dispatch_tpSpinUp (s : FGSimTurbine) (c : Collaborators) (h : s.phase = tpSpinUp) :
    dispatch s c = SpinUp s := by
  simp only [dispatch, h]

theorem dispatch_tpStart (s : FGSimTurbine) (c : Collaborators) (h : s.phase = tpStart) :
    dispatch s c = Start s := by
  simp only [dispatch, h]

theorem dispatch_tpStall (s : FGSimTurbine) (c : Collaborators) (h : s.phase = tpStall) :
    dispatch s c = Stall s c := by
  simp only [dispatch, h]

theorem dispatch_tpSeize (s : FGSimTurbine) (c : Collaborators) (h : s.phase = tpSeize) :
    dispatch s c = Seize s c := by
  simp only [dispatch, h]

theorem dispatch_tpTrim (s : FGSimTurbine) (c : Collaborators) (h : s.phase = tpTrim) :
    dispatch s c = Trim s c := by
  simp only [dispatch, h]

/-- The fault flags, the starter and running flags and the time step that the
phase rules see are those of the engine and of the collaborators. -/
theorem leaveTrim_readInputs_flags (s : FGSimTurbine) (c : Collaborators) :
    (leaveTrim (readInputs s c)).Seized = s.Seized ∧
    (leaveTrim (readInputs s c)).Stalled = s.Stalled ∧
    (leaveTrim (readInputs s c)).Starved = s.Starved ∧
    (leaveTrim (readInputs s c)).Running = s.Running ∧
    (leaveTrim (readInputs s c)).Starter = s.Starter ∧
    (leaveTrim (readInputs s c)).dt = c.Getdt * c.GetRate := by
  unfold leaveTrim
  split_ifs <;> simp [readInputs]

/-- With both rates zero `Seek` cannot move. -/
theorem Seek_zero_rates (dt v t : ℚ) : Seek dt v t 0 0 = v := by
  unfold Seek
  simp only [mul_zero, sub_zero, add_zero]
  split_ifs <;> first | rfl | (exfalso; linarith)

/-- A `Seek` step upward from a value already clamped at the target is the
clamp of the advanced value. -/
theorem Seek_min_step (dt T r d a : ℚ) (h : 0 ≤ dt * r) :
    Seek dt (min a T) T r d = min (a + dt * r) T := by
  unfold Seek
  by_cases haT : a < T
  · have h1 : min a T = a := min_eq_left haT.le
    rw [h1]
    have h2 : ¬ a > T := not_lt.mpr haT.le
    simp only [h2, if_false, haT, if_true]
    split_ifs with h3
    · exact (min_eq_right h3.le).symm
    · exact (min_eq_left (not_lt.mp h3)).symm
  · have h1 : min a T = T := min_eq_right (not_lt.mp haT)
    rw [h1]
    simp only [gt_iff_lt, lt_irrefl, if_false]
    exact (min_eq_right (by linarith [not_lt.mp haT])).symm

/-- One tick of a motoring engine: with Running false, Cutoff and Starter set,
no fault, a positive time step and previous phase `tpOff` or `tpSpinUp`, the
`SpinUp` handler runs; the flags are kept and the rotor speeds take a `Seek`
step toward 25.18 and 5.21. -/
theorem Calculate_motoring_step (s : FGSimTurbine) (c : Collaborators)
    (hp : s.phase = tpOff ∨ s.phase = tpSpinUp) (hR : s.Running = false)
    (hC : s.Cutoff = true) (hS : s.Starter = true) (hdt : 0 < c.Getdt * c.GetRate)
    (hV : s.Starved = false) (hL : s.Stalled = false) (hZ : s.Seized = false) :
    (Calculate s c).1.phase = tpSpinUp ∧ (Calculate s c).1.Running = false ∧
    (Calculate s c).1.Cutoff = true ∧ (Calculate s c).1.Starter = true ∧
    (Calculate s c).1.Starved = false ∧ (Calculate s c).1.Stalled = false ∧
    (Calculate s c).1.Seized = false ∧
    (Calculate s c).1.N2 = Seek (c.Getdt * c.GetRate) s.N2 25.18 3 (s.N2 / 2) ∧
    (Calculate s c).1.N1 = Seek (c.Getdt * c.GetRate) s.N1 5.21 1 (s.N1 / 2) := by
  have hnt : s.phase ≠ tpTrim := by
    rcases hp with hp | hp <;> rw [hp] <;> decide
  obtain ⟨f1, f2, f3, -, f5, f6, f7, f8, f9⟩ := selectPhase_fields_of_not_trim s c hnt
  have h : (selectPhase s c).phase = tpSpinUp := by
    rw [selectPhase_of_not_trim s c hnt]
    rcases hp with hp | hp <;>
      simp [rulePhase, readInputs, hp, hR, hC, hS, hV, hL, hZ, hdt.ne.symm]
  rw [Calculate, dispatch_tpSpinUp _ _ h]
  simp [storeThrust, SpinUp, h, f1, f2, f3, f5, f6, f7, f8, f9, hC, hS, hV, hL, hZ]

/-- One tick of an engine at rest with the cutoff cleared: with previous phase
`tpOff`, Running false, Cutoff false, N2 = 0, no fault and a positive time
step, the `Off` handler runs and all of this still holds after the tick. -/
theorem Calculate_rest_step (s : FGSimTurbine) (c : Collaborators)
    (hp : s.phase = tpOff) (hR : s.Running = false) (hC : s.Cutoff = false)
    (hN : s.N2 = 0) (hdt : 0 < c.Getdt * c.GetRate)
    (hV : s.Starved = false) (hL : s.Stalled = false) (hZ : s.Seized = false) :
    (Calculate s c).1.phase = tpOff ∧ (Calculate s c).1.Running = false ∧
    (Calculate s c).1.Cutoff = false ∧ (Calculate s c).1.N2 = 0 ∧
    (Calculate s c).1.Starved = false ∧ (Calculate s c).1.Stalled = false ∧
    (Calculate s c).1.Seized = false := by
  have hnt : s.phase ≠ tpTrim := by rw [hp]; decide
  obtain ⟨-, f2, f3, -, f5, -, f7, f8, f9⟩ := selectPhase_fields_of_not_trim s c hnt
  have h : (selectPhase s c).phase = tpOff := by
    rw [selectPhase_of_not_trim s c hnt]
    simp [rulePhase, readInputs, hp, hR, hC, hN, hV, hL, hZ, hdt.ne.symm]
  rw [Calculate, dispatch_tpOff _ _ h]
  simp [storeThrust, Off, h, f2, f3, f5, f7, f8, f9, hC, hN, hV, hL, hZ, Seek_zero_rates]

/-- The light-off rule on the phase selection: previous phase other than
`tpTrim`, Running false, Cutoff false, N2 > 15, positive time step, no fault. -/
theorem Calculate_light_off_aux (s : FGSimTurbine) (c : Collaborators)
    (hp : s.phase ≠ tpTrim) (hR : s.Running = false) (hC : s.Cutoff = false)
    (hN : s.N2 > 15) (hdt : 0 < c.Getdt * c.GetRate)
    (hV : s.Starved = false) (hL : s.Stalled = false) (hZ : s.Seized = false) :
    (selectPhase s c).phase = tpStart := by
  rw [selectPhase_of_not_trim _ _ hp]
  simp [rulePhase, readInputs, hR, hC, hN, hV, hL, hZ, hdt.ne.symm]

/-- At its target `Seek` stays. -/
theorem Seek_self (dt v accel decel : ℚ) : Seek dt v v accel decel = v := by
  simp [Seek]

/-- The state that the `switch` of `Calculate` sees when trimming has just
finished on a running, fuelled engine. -/
theorem selectPhase_leave_trim_run (s : FGSimTurbine) (c : Collaborators)
    (hp : s.phase = tpTrim) (hdt : 0 < c.Getdt * c.GetRate)
    (hR : s.Running = true) (hV : s.Starved = false) :
    selectPhase s c =
      { readInputs s c with
        phase := if s.Seized = true then tpSeize else if s.Stalled = true then tpStall else tpRun
        N2 := s.IdleN2
        N1 := s.IdleN1
        OilTemp_degK := (c.GetTotalTemperature - 491.69) * 0.5555556 + 10
        Cutoff := false } := by
  have h1 : leaveTrim (readInputs s c) =
      { readInputs s c with
        phase := tpRun
        N2 := s.IdleN2
        N1 := s.IdleN1
        OilTemp_degK := (c.GetTotalTemperature - 491.69) * 0.5555556 + 10
        Cutoff := false } := by
    simp [leaveTrim, readInputs, hp, hdt, hR, hV]
  rw [selectPhase_eq, h1]
  cases hZ : s.Seized <;> cases hL : s.Stalled <;>
    simp [rulePhase, readInputs, hR, hV, hZ, hL, hdt.ne.symm]

/-- The state that the `switch` of `Calculate` sees when trimming has just
finished on an engine that is not running or is starved. -/
theorem selectPhase_leave_trim_off (s : FGSimTurbine) (c : Collaborators)
    (hp : s.phase = tpTrim) (hdt : 0 < c.Getdt * c.GetRate)
    (hRV : ¬ (s.Running = true ∧ s.Starved = false)) :
    selectPhase s c =
      { readInputs s c with
        phase :=
          if s.Seized = true then tpSeize else if s.Stalled = true then tpStall
          else if s.Starved = false ∧ s.Starter = true then tpSpinUp else tpOff
        Cutoff := true
        EGT_degC := (c.GetTotalTemperature - 491.69) * 0.5555556 } := by
  have h1 : leaveTrim (readInputs s c) =
      { readInputs s c with
        phase := tpOff
        Cutoff := true
        EGT_degC := (c.GetTotalTemperature - 491.69) * 0.5555556 } := by
    simp only [leaveTrim]
    rw [if_pos (by simp [readInputs, hp, hdt]), if_neg (by simpa [readInputs] using hRV)]
    simp [readInputs]
  rw [selectPhase_eq, h1]
  cases hZ : s.Seized <;> cases hL : s.Stalled <;> cases hV : s.Starved <;>
    cases hS : s.Starter <;> cases hR : s.Running <;>
    simp_all [rulePhase, readInputs, hdt.ne.symm]

/-- The phase and the Starved flag held after `Calculate` are those left by the
handler that was run. -/
theorem Calculate_phase_eq (s : FGSimTurbine) (c : Collaborators) :
    (Calculate s c).1.phase = (dispatch (selectPhase s c) c).1.phase ∧
    (Calculate s c).1.Starved = (dispatch (selectPhase s c) c).1.Starved := by
  simp [Calculate, storeThrust]

theorem Off_phase (s : FGSimTurbine) (c : Collaborators) :
    (Off s c).1.phase = s.phase ∧ (Off s c).1.Starved = s.Starved := by
  simp [Off]

theorem SpinUp_phase (s : FGSimTurbine) :
    (SpinUp s).1.phase = s.phase ∧ (SpinUp s).1.Starved = s.Starved := by
  simp [SpinUp]

theorem Seize_phase (s : FGSimTurbine) (c : Collaborators) :
    (Seize s c).1.phase = s.phase ∧ (Seize s c).1.Starved = s.Starved := by
  simp [Seize]

theorem Trim_phase (s : FGSimTurbine) (c : Collaborators) :
    (Trim s c).1.phase = s.phase ∧ (Trim s c).1.Starved = s.Starved := by
  simp [Trim]

theorem Stall_phase (s : FGSimTurbine) (c : Collaborators) :
    (Stall s c).1.phase = (if s.ThrottleCmd = 0 then tpRun else s.phase) ∧
    (Stall s c).1.Starved = s.Starved := by
  simp [Stall]

theorem Start_phase (s : FGSimTurbine) :
    (Start s).1.phase =
      (if s.N2 > 15 ∧ s.Starved = false then (if s.N2 < s.IdleN2 then s.phase else tpRun)
       else tpOff) ∧
    (Start s).1.Starved = s.Starved := by
  by_cases h1 : s.N2 > 15 ∧ s.Starved = false <;> by_cases h2 : s.N2 < s.IdleN2 <;>
    simp [Start, h1, h2]

theorem Run_phase (s : FGSimTurbine) (c : Collaborators) :
    (Run s c).1.phase =
      if (Run s c).1.Starved = true then tpOff
      else if s.Cutoff = true then tpOff else s.phase := by
  simp [Run, ConsumeFuel]

/-- The state seen by the `switch` of `Calculate` depends, as far as the phase
is concerned, only on the previous phase, the time step, the flags and N2. -/
theorem selectPhase_agree (s₁ s₂ : FGSimTurbine) (c₁ c₂ : Collaborators)
    (hp : s₁.phase = s₂.phase) (hdt : c₁.Getdt * c₁.GetRate = c₂.Getdt * c₂.GetRate)
    (hR : s₁.Running = s₂.Running) (hC : s₁.Cutoff = s₂.Cutoff)
    (hS : s₁.Starter = s₂.Starter) (hV : s₁.Starved = s₂.Starved)
    (hL : s₁.Stalled = s₂.Stalled) (hZ : s₁.Seized = s₂.Seized) (hN : s₁.N2 = s₂.N2) :
    (selectPhase s₁ c₁).phase = (selectPhase s₂ c₂).phase ∧
    (selectPhase s₁ c₁).Cutoff = (selectPhase s₂ c₂).Cutoff ∧
    (selectPhase s₁ c₁).Starved = s₁.Starved ∧ (selectPhase s₂ c₂).Starved = s₂.Starved ∧
    ((selectPhase s₁ c₁).phase = tpStart →
      (selectPhase s₁ c₁).N2 = s₁.N2 ∧ (selectPhase s₂ c₂).N2 = s₂.N2) ∧
    (selectPhase s₁ c₁).IdleN2 = s₁.IdleN2 ∧ (selectPhase s₂ c₂).IdleN2 = s₂.IdleN2 ∧
    (selectPhase s₁ c₁).ThrottleCmd = c₁.GetThrottleCmd ∧
    (selectPhase s₂ c₂).ThrottleCmd = c₂.GetThrottleCmd := by
  by_cases hT : s₁.phase = tpTrim ∧ 0 < c₁.Getdt * c₁.GetRate
  · obtain ⟨hT1, hT2⟩ := hT
    have hT1' : s₂.phase = tpTrim := hp ▸ hT1
    have hT2' : 0 < c₂.Getdt * c₂.GetRate := hdt ▸ hT2
    by_cases hRV : s₁.Running = true ∧ s₁.Starved = false
    · have hRV' : s₂.Running = true ∧ s₂.Starved = false := by rw [← hR, ← hV]; exact hRV
      rw [selectPhase_leave_trim_run s₁ c₁ hT1 hT2 hRV.1 hRV.2,
        selectPhase_leave_trim_run s₂ c₂ hT1' hT2' hRV'.1 hRV'.2]
      cases hZ1 : s₁.Seized <;> cases hL1 : s₁.Stalled <;>
        simp [readInputs, ← hZ, ← hL, hZ1, hL1]
    · have hRV' : ¬ (s₂.Running = true ∧ s₂.Starved = false) := by rw [← hR, ← hV]; exact hRV
      rw [selectPhase_leave_trim_off s₁ c₁ hT1 hT2 hRV,
        selectPhase_leave_trim_off s₂ c₂ hT1' hT2' hRV']
      cases hZ1 : s₁.Seized <;> cases hL1 : s₁.Stalled <;> cases hV1 : s₁.Starved <;>
        cases hS1 : s₁.Starter <;>
        simp [readInputs, ← hZ, ← hL, ← hV, ← hS, hZ1, hL1, hV1, hS1]
  · have hT' : ¬ (s₂.phase = tpTrim ∧ 0 < c₂.Getdt * c₂.GetRate) := by
      rw [← hp, ← hdt]; exact hT
    have h1 : leaveTrim (readInputs s₁ c₁) = readInputs s₁ c₁ :=
      leaveTrim_of_not _ (by simpa [readInputs] using hT)
    have h2 : leaveTrim (readInputs s₂ c₂) = readInputs s₂ c₂ :=
      leaveTrim_of_not _ (by simpa [readInputs] using hT')
    rw [selectPhase_eq, selectPhase_eq, h1, h2]
    simp [rulePhase, readInputs, ← hp, ← hdt, ← hR, ← hC, ← hS, ← hV, ← hL, ← hZ, ← hN]

/-- When the rules of `Calculate` select `tpStart`, the trim-exit block has not
touched the engine: the rotor speeds and the Starved flag seen by `Start` are
those the tick began with. -/
theorem selectPhase_start_fields (s : FGSimTurbine) (c : Collaborators)
    (h : (selectPhase s c).phase = tpStart) :
    (selectPhase s c).N1 = s.N1 ∧ (selectPhase s c).N2 = s.N2 ∧
    (selectPhase s c).Starved = s.Starved ∧ (selectPhase s c).IdleN2 = s.IdleN2 := by
  by_cases hT : s.phase = tpTrim ∧ 0 < c.Getdt * c.GetRate
  · exfalso
    obtain ⟨hT1, hT2⟩ := hT
    by_cases hRV : s.Running = true ∧ s.Starved = false
    · rw [selectPhase_leave_trim_run s c hT1 hT2 hRV.1 hRV.2] at h
      revert h
      cases s.Seized <;> cases s.Stalled <;> simp
    · rw [selectPhase_leave_trim_off s c hT1 hT2 hRV] at h
      revert h
      cases s.Seized <;> cases s.Stalled <;> cases s.Starved <;> cases s.Starter <;> simp
  · have h1 : leaveTrim (readInputs s c) = readInputs s c :=
      leaveTrim_of_not _ (by simpa [readInputs] using hT)
    rw [selectPhase_eq, h1]
    simp [readInputs]

/-! ### The rate limiter -/

/-- C1: `Seek` never overshoots.  For a time step, an acceleration rate and a
deceleration rate that are all non-negative, the result lies between the
current value and the target, both included. -/
theorem Seek_between (dt v t accel decel : ℚ) (hdt : 0 ≤ dt) (ha : 0 ≤ accel)
    (hd : 0 ≤ decel) :
    min v t ≤ Seek dt v t accel decel ∧ Seek dt v t accel decel ≤ max v t := by
  have hA : 0 ≤ dt * accel := mul_nonneg hdt ha
  have hD : 0 ≤ dt * decel := mul_nonneg hdt hd
  unfold Seek
  by_cases h1 : v > t
  · have hmin : min v t = t := min_eq_right h1.le
    have hmax : max v t = v := max_eq_left h1.le
    simp only [h1, if_true, hmin, hmax]
    split_ifs with h2
    · exact ⟨le_refl _, h1.le⟩
    · exact ⟨not_lt.mp h2, by linarith⟩
  · by_cases h2 : v < t
    · have hmin : min v t = v := min_eq_left h2.le
      have hmax : max v t = t := max_eq_right h2.le
      simp only [h1, if_false, h2, if_true, hmin, hmax]
      split_ifs with h3
      · exact ⟨h2.le, le_refl _⟩
      · exact ⟨by linarith, not_lt.mp h3⟩
    · simp only [h1, if_false, h2]
      exact ⟨min_le_left _ _, le_max_left _ _⟩

/-- Witness for C1: a step from 0 toward 10 at rate 3 with time step 1. -/
theorem Seek_between_witness :
    min (0 : ℚ) 10 ≤ Seek 1 0 10 3 2 ∧ Seek 1 0 10 3 2 ≤ max (0 : ℚ) 10 :=
  Seek_between 1 0 10 3 2 (by norm_num) (by norm_num) (by norm_num)

/-- C2: `Seek` equals the clamped-step definition of the specification
(the equality needs no sign condition on the rates or on the time step), and
the result is exactly the target as soon as the distance to the target is at
most the rate of the direction of travel times the time step. -/
theorem Seek_eq_SeekSpec (dt v t accel decel : ℚ) :
    Seek dt v t accel decel = SeekSpec dt v t accel decel ∧
    (|v - t| ≤ (if v < t then accel else decel) * dt → Seek dt v t accel decel = t) := by
  constructor
  · unfold Seek SeekSpec
    by_cases h1 : v > t
    · have h2 : ¬ v < t := not_lt.mpr h1.le
      simp only [h1, h2, if_true, if_false]
      rw [mul_comm decel dt]
      split_ifs with h3
      · exact (max_eq_right h3.le).symm
      · exact (max_eq_left (not_lt.mp h3)).symm
    · by_cases h2 : v < t
      · simp only [h1, h2, if_true, if_false]
        rw [mul_comm accel dt]
        split_ifs with h3
        · exact (min_eq_right h3.le).symm
        · exact (min_eq_left (not_lt.mp h3)).symm
      · simp only [h1, h2, if_false]
  · intro h
    unfold Seek
    by_cases h1 : v > t
    · have h2 : ¬ v < t := not_lt.mpr h1.le
      simp only [h2, if_false] at h
      rw [abs_of_pos (sub_pos.mpr h1)] at h
      simp only [h1, if_true]
      split_ifs with h3
      · rfl
      · linarith [not_lt.mp h3]
    · by_cases h2 : v < t
      · simp only [h2, if_true] at h
        rw [abs_of_neg (sub_neg.mpr h2)] at h
        simp only [h1, h2, if_true, if_false]
        split_ifs with h3
        · rfl
        · linarith [not_lt.mp h3]
      · simp only [h1, h2, if_false]
        exact le_antisymm (not_lt.mp h1) (not_lt.mp h2)

/-- Witness for C2: from 8 toward 10 at rate 3 with time step 1 the target is reached. -/
theorem Seek_eq_SeekSpec_witness :
    Seek 1 8 10 3 2 = SeekSpec 1 8 10 3 2 ∧ Seek 1 8 10 3 2 = 10 :=
  ⟨(Seek_eq_SeekSpec 1 8 10 3 2).1, (Seek_eq_SeekSpec 1 8 10 3 2).2 (by norm_num)⟩

/-! ### Phase selection in `Calculate` -/

/-- C3: the fault and trim rules override everything earlier.  Whatever the
previous phase and the values of Running, Cutoff, Starter and N2, the handler
that `Calculate` runs is `Seize` if Seized; otherwise `Stall` if Stalled;
otherwise `Off` if Starved; otherwise `Trim` if the time step is zero. -/
theorem Calculate_fault_trim_priority (s : FGSimTurbine) (c : Collaborators) :
    (s.Seized = true →
      (selectPhase s c).phase = tpSeize ∧
      Calculate s c = storeThrust (Seize (selectPhase s c) c)) ∧
    (s.Seized = false → s.Stalled = true →
      (selectPhase s c).phase = tpStall ∧
      Calculate s c = storeThrust (Stall (selectPhase s c) c)) ∧
    (s.Seized = false → s.Stalled = false → s.Starved = true →
      (selectPhase s c).phase = tpOff ∧
      Calculate s c = storeThrust (Off (selectPhase s c) c)) ∧
    (s.Seized = false → s.Stalled = false → s.Starved = false → c.Getdt * c.GetRate = 0 →
      (selectPhase s c).phase = tpTrim ∧
      Calculate s c = storeThrust (Trim (selectPhase s c) c)) := by
  obtain ⟨hZ, hL, hV, -, -, hdt⟩ := leaveTrim_readInputs_flags s c
  have hp : (selectPhase s c).phase = rulePhase (leaveTrim (readInputs s c)) := by
    rw [selectPhase_eq]
  refine ⟨fun h1 => ?_, fun h1 h2 => ?_, fun h1 h2 h3 => ?_, fun h1 h2 h3 h4 => ?_⟩
  · have h : (selectPhase s c).phase = tpSeize := by
      rw [hp]; simp [rulePhase, hZ, h1]
    exact ⟨h, by rw [Calculate, dispatch_tpSeize _ _ h]⟩
  · have h : (selectPhase s c).phase = tpStall := by
      rw [hp]; simp [rulePhase, hZ, hL, h1, h2]
    exact ⟨h, by rw [Calculate, dispatch_tpStall _ _ h]⟩
  · have h : (selectPhase s c).phase = tpOff := by
      rw [hp]; simp [rulePhase, hZ, hL, hV, h1, h2, h3]
    exact ⟨h, by rw [Calculate, dispatch_tpOff _ _ h]⟩
  · have h : (selectPhase s c).phase = tpTrim := by
      rw [hp]; simp [rulePhase, hZ, hL, hV, hdt, h1, h2, h3, h4]
    exact ⟨h, by rw [Calculate, dispatch_tpTrim _ _ h]⟩

/-- Witness for C3: a running engine with the Seized flag set is sent to `Seize`,
and a healthy one is sent to `Trim` when the time step is zero. -/
theorem Calculate_fault_trim_priority_witness :
    ((selectPhase { defaultEngine with phase := tpRun, Running := true, Seized := true }
        (groundTick (1 / 10) 1)).phase = tpSeize ∧
      Calculate { defaultEngine with phase := tpRun, Running := true, Seized := true }
          (groundTick (1 / 10) 1) =
        storeThrust (Seize (selectPhase
          { defaultEngine with phase := tpRun, Running := true, Seized := true }
          (groundTick (1 / 10) 1)) (groundTick (1 / 10) 1))) ∧
    ((selectPhase { defaultEngine with phase := tpRun, Running := true } (groundTick 0 1)).phase
        = tpTrim ∧
      Calculate { defaultEngine with phase := tpRun, Running := true } (groundTick 0 1) =
        storeThrust (Trim (selectPhase { defaultEngine with phase := tpRun, Running := true }
          (groundTick 0 1)) (groundTick 0 1))) :=
  ⟨(Calculate_fault_trim_priority _ _).1 rfl,
   (Calculate_fault_trim_priority _ _).2.2.2 rfl rfl rfl (by norm_num [groundTick])⟩

/-- C4, as stated, fails: with the starter engaged but the fuel cutoff cleared
an engine in phase `tpOff` (N2 = 0, time step 1/10, no fault) is not moved to
`tpSpinUp`; the `Off` handler is selected and the phase after the tick is `tpOff`. -/
theorem starter_with_cutoff_cleared_stays_off :
    starterOnEngine.phase = tpOff ∧ starterOnEngine.Running = false ∧
    starterOnEngine.Cutoff = false ∧ starterOnEngine.Starter = true ∧
    starterOnEngine.N2 ≤ 15 ∧
    0 < (groundTick (1 / 10) 0).Getdt * (groundTick (1 / 10) 0).GetRate ∧
    starterOnEngine.Starved = false ∧ starterOnEngine.Stalled = false ∧
    starterOnEngine.Seized = false ∧
    (selectPhase starterOnEngine (groundTick (1 / 10) 0)).phase = tpOff ∧
    (Calculate starterOnEngine (groundTick (1 / 10) 0)).1.phase = tpOff := by
  have h : (selectPhase starterOnEngine (groundTick (1 / 10) 0)).phase = tpOff := by
    rw [selectPhase_of_not_trim _ _ (by decide)]
    norm_num +decide [rulePhase, readInputs, starterOnEngine, defaultEngine, groundTick]
  refine ⟨rfl, rfl, rfl, rfl, ?_, ?_, rfl, rfl, rfl, h, ?_⟩
  · norm_num [starterOnEngine, defaultEngine]
  · norm_num [groundTick]
  · rw [Calculate, dispatch_tpOff _ _ h]
    simpa [storeThrust, Off] using h

/-- C4, amended: starter engagement from `tpOff` needs the fuel cutoff to be
set.  For every engine in phase `tpOff` with Running false, Starter true, a
positive time step and none of Starved, Stalled, Seized set: with Cutoff true
(whatever N2 is) `Calculate` selects `tpSpinUp`, runs the `SpinUp` handler and
leaves the engine in phase `tpSpinUp`; with Cutoff false and N2 <= 15 it
selects `tpOff`, runs the `Off` handler and leaves the engine in phase `tpOff`;
with Cutoff false and N2 > 15 it selects `tpStart` and runs the `Start`
handler.  So with Cutoff false the `SpinUp` handler is never the one run. -/
theorem Calculate_starter_engages_SpinUp (s : FGSimTurbine) (c : Collaborators)
    (hp : s.phase = tpOff) (hR : s.Running = false)
    (hS : s.Starter = true) (hdt : 0 < c.Getdt * c.GetRate)
    (hV : s.Starved = false) (hL : s.Stalled = false) (hZ : s.Seized = false) :
    (s.Cutoff = true →
      (selectPhase s c).phase = tpSpinUp ∧
      Calculate s c = storeThrust (SpinUp (selectPhase s c)) ∧
      (Calculate s c).1.phase = tpSpinUp) ∧
    (s.Cutoff = false → s.N2 ≤ 15 →
      (selectPhase s c).phase = tpOff ∧
      Calculate s c = storeThrust (Off (selectPhase s c) c) ∧
      (Calculate s c).1.phase = tpOff) ∧
    (s.Cutoff = false → s.N2 > 15 →
      (selectPhase s c).phase = tpStart ∧
      Calculate s c = storeThrust (Start (selectPhase s c))) ∧
    (s.Cutoff = false → (selectPhase s c).phase ≠ tpSpinUp) := by
  have hoff : s.Cutoff = false → s.N2 ≤ 15 → (selectPhase s c).phase = tpOff := by
    intro hC hN
    rw [selectPhase_of_not_trim _ _ (by rw [hp]; decide)]
    simp [rulePhase, readInputs, hp, hR, hC, not_lt.mpr hN, hV, hL, hZ, hdt.ne.symm]
  have hstart : s.Cutoff = false → s.N2 > 15 → (selectPhase s c).phase = tpStart := by
    intro hC hN
    exact Calculate_light_off_aux s c (by rw [hp]; decide) hR hC hN hdt hV hL hZ
  refine ⟨?_, ?_, ?_, ?_⟩
  · intro hC
    have h : (selectPhase s c).phase = tpSpinUp := by
      rw [selectPhase_of_not_trim _ _ (by rw [hp]; decide)]
      simp [rulePhase, readInputs, hp, hR, hC, hS, hV, hL, hZ, hdt.ne.symm]
    have hc : Calculate s c = storeThrust (SpinUp (selectPhase s c)) := by
      rw [Calculate, dispatch_tpSpinUp _ _ h]
    refine ⟨h, hc, ?_⟩
    rw [hc]
    simpa [storeThrust, SpinUp] using h
  · intro hC hN
    have h := hoff hC hN
    have hc : Calculate s c = storeThrust (Off (selectPhase s c) c) := by
      rw [Calculate, dispatch_tpOff _ _ h]
    refine ⟨h, hc, ?_⟩
    rw [hc]
    simpa [storeThrust, Off] using h
  · intro hC hN
    have h := hstart hC hN
    exact ⟨h, by rw [Calculate, dispatch_tpStart _ _ h]⟩
  · intro hC
    by_cases hN : s.N2 ≤ 15
    · rw [hoff hC hN]
      decide
    · rw [hstart hC (not_le.mp hN)]
      decide

/-- Witness for C4 (amended): the default engine with starter engaged and cutoff
set is sent to `tpSpinUp`; with the cutoff cleared (N2 = 0) it stays in `tpOff`;
with the cutoff cleared and N2 = 20 it is sent to `tpStart`. -/
theorem Calculate_starter_engages_SpinUp_witness :
    ((selectPhase motoringEngine (groundTick (1 / 10) 0)).phase = tpSpinUp ∧
      Calculate motoringEngine (groundTick (1 / 10) 0) =
        storeThrust (SpinUp (selectPhase motoringEngine (groundTick (1 / 10) 0))) ∧
      (Calculate motoringEngine (groundTick (1 / 10) 0)).1.phase = tpSpinUp) ∧
    ((selectPhase starterOnEngine (groundTick (1 / 10) 0)).phase = tpOff ∧
      Calculate starterOnEngine (groundTick (1 / 10) 0) =
        storeThrust (Off (selectPhase starterOnEngine (groundTick (1 / 10) 0))
          (groundTick (1 / 10) 0)) ∧
      (Calculate starterOnEngine (groundTick (1 / 10) 0)).1.phase = tpOff) ∧
    ((selectPhase { starterOnEngine with N2 := 20 } (groundTick (1 / 10) 0)).phase = tpStart ∧
      Calculate { starterOnEngine with N2 := 20 } (groundTick (1 / 10) 0) =
        storeThrust (Start (selectPhase { starterOnEngine with N2 := 20 }
          (groundTick (1 / 10) 0)))) :=
  ⟨(Calculate_starter_engages_SpinUp motoringEngine (groundTick (1 / 10) 0) rfl rfl rfl
      (by norm_num [groundTick]) rfl rfl rfl).1 rfl,
   (Calculate_starter_engages_SpinUp starterOnEngine (groundTick (1 / 10) 0) rfl rfl rfl
      (by norm_num [groundTick]) rfl rfl rfl).2.1 rfl
      (by norm_num [starterOnEngine, defaultEngine]),
   (Calculate_starter_engages_SpinUp { starterOnEngine with N2 := 20 } (groundTick (1 / 10) 0)
      rfl rfl rfl (by norm_num [groundTick]) rfl rfl rfl).2.2.1 rfl (by norm_num)⟩

/-- C6: the light-off rule.  For every previous phase other than `tpTrim` and
every engine with Running false, Cutoff false, N2 > 15, a positive time step
and none of Starved, Stalled, Seized set, `Calculate` selects `tpStart` and
runs the `Start` handler. -/
theorem Calculate_light_off (s : FGSimTurbine) (c : Collaborators)
    (hp : s.phase ≠ tpTrim) (hR : s.Running = false) (hC : s.Cutoff = false)
    (hN : s.N2 > 15) (hdt : 0 < c.Getdt * c.GetRate)
    (hV : s.Starved = false) (hL : s.Stalled = false) (hZ : s.Seized = false) :
    (selectPhase s c).phase = tpStart ∧
    Calculate s c = storeThrust (Start (selectPhase s c)) := by
  have h : (selectPhase s c).phase = tpStart :=
    Calculate_light_off_aux s c hp hR hC hN hdt hV hL hZ
  exact ⟨h, by rw [Calculate, dispatch_tpStart _ _ h]⟩

/-- Witness for C6: an engine motored to N2 = 20 whose fuel cutoff has been cleared. -/
theorem Calculate_light_off_witness :
    (selectPhase { starterOnEngine with phase := tpSpinUp, N2 := 20 }
      (groundTick (1 / 10) 0)).phase = tpStart ∧
    Calculate { starterOnEngine with phase := tpSpinUp, N2 := 20 } (groundTick (1 / 10) 0) =
      storeThrust (Start (selectPhase { starterOnEngine with phase := tpSpinUp, N2 := 20 }
        (groundTick (1 / 10) 0))) :=
  Calculate_light_off { starterOnEngine with phase := tpSpinUp, N2 := 20 }
    (groundTick (1 / 10) 0) (by decide) rfl rfl (by norm_num) (by norm_num [groundTick])
    rfl rfl rfl

/-! ### The start-up scenario -/

/-- C5, as stated, fails: with the starter engaged and the fuel cutoff cleared
the default engine (phase `tpOff`, N1 = N2 = 0, no fault) never reaches
`tpSpinUp`, however many ticks of length 1/10 are run. -/
theorem startup_with_cutoff_cleared_never_spins_up :
    starterOnEngine.phase = tpOff ∧ starterOnEngine.Running = false ∧
    starterOnEngine.Starter = true ∧ starterOnEngine.Cutoff = false ∧
    starterOnEngine.Starved = false ∧ starterOnEngine.Stalled = false ∧
    starterOnEngine.Seized = false ∧ starterOnEngine.N1 = 0 ∧ starterOnEngine.N2 = 0 ∧
    0 < (groundTick (1 / 10) 0).Getdt * (groundTick (1 / 10) 0).GetRate ∧
    ¬ ∃ n, (iterateCalculate (groundTick (1 / 10) 0) n starterOnEngine).phase = tpSpinUp := by
  have hdt : 0 < (groundTick (1 / 10) 0).Getdt * (groundTick (1 / 10) 0).GetRate := by
    norm_num [groundTick]
  refine ⟨rfl, rfl, rfl, rfl, rfl, rfl, rfl, rfl, rfl, hdt, ?_⟩
  have inv : ∀ n,
      (iterateCalculate (groundTick (1 / 10) 0) n starterOnEngine).phase = tpOff ∧
      (iterateCalculate (groundTick (1 / 10) 0) n starterOnEngine).Running = false ∧
      (iterateCalculate (groundTick (1 / 10) 0) n starterOnEngine).Cutoff = false ∧
      (iterateCalculate (groundTick (1 / 10) 0) n starterOnEngine).N2 = 0 ∧
      (iterateCalculate (groundTick (1 / 10) 0) n starterOnEngine).Starved = false ∧
      (iterateCalculate (groundTick (1 / 10) 0) n starterOnEngine).Stalled = false ∧
      (iterateCalculate (groundTick (1 / 10) 0) n starterOnEngine).Seized = false := by
    intro n
    induction n with
    | zero => exact ⟨rfl, rfl, rfl, rfl, rfl, rfl, rfl⟩
    | succ k ih =>
      obtain ⟨a1, a2, a3, a4, a5, a6, a7⟩ := ih
      exact Calculate_rest_step _ _ a1 a2 a3 a4 hdt a5 a6 a7
  rintro ⟨n, hn⟩
  rw [(inv n).1] at hn
  exact absurd hn (by decide)

/-- C5, amended: the start-up scenario needs the fuel cutoff set while the
starter motors the engine.  From an engine in phase `tpOff` with Running
false, Starter true, Cutoff true, no fault and N1 = N2 = 0, repeated calls of
`Calculate` with a fixed positive time step `dt` give phase `tpSpinUp` after
every tick from the first on; after `n` ticks N2 = min (3 dt n) 25.18 and
N1 = min (dt n) 5.21, so both rise, never exceed their targets and reach them
after finitely many ticks; and a tick that begins with N2 > 15 once the cutoff
has been cleared selects `tpStart`. -/
theorem startup_with_cutoff_set (s : FGSimTurbine) (c : Collaborators)
    (hp : s.phase = tpOff) (hR : s.Running = false) (hS : s.Starter = true)
    (hC : s.Cutoff = true) (hV : s.Starved = false) (hL : s.Stalled = false)
    (hZ : s.Seized = false) (hN1 : s.N1 = 0) (hN2 : s.N2 = 0)
    (hdt : 0 < c.Getdt * c.GetRate) :
    (∀ n, 1 ≤ n → (iterateCalculate c n s).phase = tpSpinUp) ∧
    (∀ n : ℕ, (iterateCalculate c n s).N2 = min (3 * (c.Getdt * c.GetRate) * n) 25.18 ∧
      (iterateCalculate c n s).N1 = min (c.Getdt * c.GetRate * n) 5.21) ∧
    (∀ n, (iterateCalculate c n s).N2 ≤ (iterateCalculate c (n + 1) s).N2 ∧
      (iterateCalculate c n s).N2 ≤ 25.18 ∧
      (iterateCalculate c n s).N1 ≤ (iterateCalculate c (n + 1) s).N1 ∧
      (iterateCalculate c n s).N1 ≤ 5.21) ∧
    (∃ n, (iterateCalculate c n s).N2 = 25.18 ∧ (iterateCalculate c n s).N1 = 5.21) ∧
    (∀ n, (iterateCalculate c n s).N2 > 15 →
      (selectPhase { iterateCalculate c n s with Cutoff := false } c).phase = tpStart) := by
  have inv : ∀ n : ℕ,
      ((iterateCalculate c n s).phase = tpOff ∨ (iterateCalculate c n s).phase = tpSpinUp) ∧
      (1 ≤ n → (iterateCalculate c n s).phase = tpSpinUp) ∧
      (iterateCalculate c n s).Running = false ∧
      (iterateCalculate c n s).Cutoff = true ∧
      (iterateCalculate c n s).Starter = true ∧
      (iterateCalculate c n s).Starved = false ∧
      (iterateCalculate c n s).Stalled = false ∧
      (iterateCalculate c n s).Seized = false ∧
      (iterateCalculate c n s).N2 = min (3 * (c.Getdt * c.GetRate) * n) 25.18 ∧
      (iterateCalculate c n s).N1 = min (c.Getdt * c.GetRate * n) 5.21 := by
    intro n
    induction n with
    | zero =>
      refine ⟨Or.inl hp, fun h => absurd h (by decide), hR, hC, hS, hV, hL, hZ, ?_, ?_⟩
      · simp only [iterateCalculate, hN2]
        norm_num
      · simp only [iterateCalculate, hN1]
        norm_num
    | succ k ih =>
      obtain ⟨a1, -, a2, a3, a4, a5, a6, a7, a8, a9⟩ := ih
      obtain ⟨b1, b2, b3, b4, b5, b6, b7, b8, b9⟩ :=
        Calculate_motoring_step _ c a1 a2 a3 a4 hdt a5 a6 a7
      refine ⟨Or.inr b1, fun _ => b1, b2, b3, b4, b5, b6, b7, ?_, ?_⟩
      · show (Calculate (iterateCalculate c k s) c).1.N2 = _
        rw [b8, a8, Seek_min_step _ _ _ _ _ (by linarith)]
        push_cast
        ring_nf
      · show (Calculate (iterateCalculate c k s) c).1.N1 = _
        rw [b9, a9, Seek_min_step _ _ _ _ _ (by linarith)]
        push_cast
        ring_nf
  have hmono : ∀ n : ℕ, (c.Getdt * c.GetRate) * (n : ℚ) ≤ (c.Getdt * c.GetRate) * ((n + 1 : ℕ) : ℚ) := by
    intro n
    push_cast
    nlinarith
  refine ⟨fun n hn => (inv n).2.1 hn, fun n => ⟨(inv n).2.2.2.2.2.2.2.2.1, (inv n).2.2.2.2.2.2.2.2.2⟩,
    fun n => ?_, ?_, fun n hn => ?_⟩
  · rw [(inv n).2.2.2.2.2.2.2.2.1, (inv (n + 1)).2.2.2.2.2.2.2.2.1,
      (inv n).2.2.2.2.2.2.2.2.2, (inv (n + 1)).2.2.2.2.2.2.2.2.2]
    refine ⟨min_le_min ?_ le_rfl, min_le_right _ _, min_le_min (hmono n) le_rfl, min_le_right _ _⟩
    have := hmono n
    nlinarith
  · obtain ⟨n, hn⟩ := exists_nat_gt ((25.18 : ℚ) / (c.Getdt * c.GetRate))
    have h1 : (25.18 : ℚ) < c.Getdt * c.GetRate * n := by
      rw [div_lt_iff₀ hdt] at hn
      linarith
    refine ⟨n, ?_, ?_⟩
    · rw [(inv n).2.2.2.2.2.2.2.2.1]
      exact min_eq_right (by nlinarith)
    · rw [(inv n).2.2.2.2.2.2.2.2.2]
      exact min_eq_right (by linarith)
  · have hsn := inv n
    obtain ⟨a1, -, a2, -, -, a5, a6, a7, -, -⟩ := hsn
    have hnt : ({ iterateCalculate c n s with Cutoff := false } : FGSimTurbine).phase ≠ tpTrim := by
      show (iterateCalculate c n s).phase ≠ tpTrim
      rcases a1 with a1 | a1 <;> rw [a1] <;> decide
    exact (Calculate_light_off_aux _ c hnt a2 rfl hn hdt a5 a6 a7)

/-- Witness for C5 (amended): the default engine with starter engaged and cutoff
set, run with ticks of length 1/10. -/
theorem startup_with_cutoff_set_witness :
    (iterateCalculate (groundTick (1 / 10) 0) 1 motoringEngine).phase = tpSpinUp ∧
    (∃ n, (iterateCalculate (groundTick (1 / 10) 0) n motoringEngine).N2 = 25.18 ∧
      (iterateCalculate (groundTick (1 / 10) 0) n motoringEngine).N1 = 5.21) :=
  ⟨(startup_with_cutoff_set motoringEngine (groundTick (1 / 10) 0) rfl rfl rfl rfl rfl rfl rfl
      rfl rfl (by norm_num [groundTick])).1 1 (le_refl 1),
   (startup_with_cutoff_set motoringEngine (groundTick (1 / 10) 0) rfl rfl rfl rfl rfl rfl rfl
      rfl rfl (by norm_num [groundTick])).2.2.2.1⟩

/-! ### Leaving and holding `tpTrim` -/

/-- C7, as stated, fails in both branches.  With previous phase `tpTrim`, a time
step of 1/10 and no fault: an engine that is not running but has its starter
engaged ends the tick in `tpSpinUp`, not `tpOff`; and a running, fuelled engine
whose fuel store runs dry during the tick ends it in `tpOff`, not `tpRun`. -/
theorem leaving_trim_other_phases :
    trimmedStarterEngine.phase = tpTrim ∧ trimmedStarterEngine.Running = false ∧
    trimmedStarterEngine.Stalled = false ∧ trimmedStarterEngine.Seized = false ∧
    (Calculate trimmedStarterEngine (groundTick (1 / 10) 0)).1.phase = tpSpinUp ∧
    trimmedRunningEngine.phase = tpTrim ∧ trimmedRunningEngine.Running = true ∧
    trimmedRunningEngine.Starved = false ∧
    trimmedRunningEngine.Stalled = false ∧ trimmedRunningEngine.Seized = false ∧
    (Calculate trimmedRunningEngine (dryTick (1 / 10) 0)).1.phase = tpOff := by
  refine ⟨rfl, rfl, rfl, rfl, ?_, rfl, rfl, rfl, rfl, rfl, ?_⟩
  · norm_num +decide [Calculate, selectPhase, readInputs, leaveTrim, phaseRules, dispatch,
      storeThrust, SpinUp, trimmedStarterEngine, defaultEngine, groundTick]
  · norm_num +decide [Calculate, selectPhase, readInputs, leaveTrim, phaseRules, dispatch,
      storeThrust, Run, ConsumeFuel, trimmedRunningEngine, defaultEngine, groundTick, dryTick]

/-- C7, amended: leaving `tpTrim`.  For every engine whose previous phase is
`tpTrim`, with a positive time step and Stalled and Seized false: if Running
and not Starved, the tick runs the `Run` handler on a state with N2 = IdleN2,
N1 = IdleN1, OilTemp = TAT + 10 and Cutoff false, and the phase after the tick
is `tpRun` unless the fuel consumption of the tick leaves the engine starved
(then it is `tpOff`); otherwise the phase after the tick is `tpOff`, or
`tpSpinUp` when the engine is not starved and its starter is engaged, with
Cutoff true, EGT equal to TAT, Running false and returned thrust 0. -/
theorem Calculate_leaving_trim (s : FGSimTurbine) (c : Collaborators)
    (hp : s.phase = tpTrim) (hdt : 0 < c.Getdt * c.GetRate)
    (hL : s.Stalled = false) (hZ : s.Seized = false) :
    (s.Running = true ∧ s.Starved = false →
      (selectPhase s c).phase = tpRun ∧
      Calculate s c = storeThrust (Run (selectPhase s c) c) ∧
      (selectPhase s c).N2 = s.IdleN2 ∧ (selectPhase s c).N1 = s.IdleN1 ∧
      (selectPhase s c).OilTemp_degK = (selectPhase s c).TAT + 10 ∧
      (selectPhase s c).Cutoff = false ∧
      (Calculate s c).1.phase = if (Calculate s c).1.Starved = true then tpOff else tpRun) ∧
    (¬ (s.Running = true ∧ s.Starved = false) →
      (Calculate s c).1.phase =
        (if s.Starved = false ∧ s.Starter = true then tpSpinUp else tpOff) ∧
      (Calculate s c).1.Cutoff = true ∧
      (Calculate s c).1.EGT_degC = (Calculate s c).1.TAT ∧
      (Calculate s c).1.Running = false ∧
      (Calculate s c).2 = 0) := by
  constructor
  · rintro ⟨hR, hV⟩
    have hT := selectPhase_leave_trim_run s c hp hdt hR hV
    have h : (selectPhase s c).phase = tpRun := by
      rw [hT]; simp [hL, hZ]
    refine ⟨h, by rw [Calculate, dispatch_tpRun _ _ h], ?_, ?_, ?_, ?_, ?_⟩
    · rw [hT]
    · rw [hT]
    · rw [hT]; simp [readInputs]
    · rw [hT]
    · rw [Calculate, dispatch_tpRun _ _ h, hT]
      simp [storeThrust, Run, ConsumeFuel, hL, hZ]
  · intro hRV
    have hT := selectPhase_leave_trim_off s c hp hdt hRV
    by_cases hS : s.Starved = false ∧ s.Starter = true
    · have h : (selectPhase s c).phase = tpSpinUp := by
        rw [hT]; simp [hL, hZ, hS]
      rw [Calculate, dispatch_tpSpinUp _ _ h, hT]
      simp [storeThrust, SpinUp, readInputs, hL, hZ, hS]
    · have h : (selectPhase s c).phase = tpOff := by
        rw [hT]; simp only [hL, hZ, hS]; simp
      rw [Calculate, dispatch_tpOff _ _ h, hT]
      simp only [hL, hZ, hS]
      simp [storeThrust, Off, readInputs, Seek_self]

/-- Witness for C7 (amended): the trimmed running engine with a fuel store that
does not run dry continues in `tpRun`; the trimmed engine with starter engaged
goes to `tpSpinUp`. -/
theorem Calculate_leaving_trim_witness :
    ((selectPhase trimmedRunningEngine (groundTick (1 / 10) 0)).phase = tpRun ∧
      Calculate trimmedRunningEngine (groundTick (1 / 10) 0) =
        storeThrust (Run (selectPhase trimmedRunningEngine (groundTick (1 / 10) 0))
          (groundTick (1 / 10) 0)) ∧
      (selectPhase trimmedRunningEngine (groundTick (1 / 10) 0)).N2 =
        trimmedRunningEngine.IdleN2 ∧
      (selectPhase trimmedRunningEngine (groundTick (1 / 10) 0)).N1 =
        trimmedRunningEngine.IdleN1 ∧
      (selectPhase trimmedRunningEngine (groundTick (1 / 10) 0)).OilTemp_degK =
        (selectPhase trimmedRunningEngine (groundTick (1 / 10) 0)).TAT + 10 ∧
      (selectPhase trimmedRunningEngine (groundTick (1 / 10) 0)).Cutoff = false ∧
      (Calculate trimmedRunningEngine (groundTick (1 / 10) 0)).1.phase =
        if (Calculate trimmedRunningEngine (groundTick (1 / 10) 0)).1.Starved = true
          then tpOff else tpRun) ∧
    (Calculate trimmedStarterEngine (groundTick (1 / 10) 0)).2 = 0 :=
  ⟨(Calculate_leaving_trim trimmedRunningEngine (groundTick (1 / 10) 0) rfl
      (by norm_num [groundTick]) rfl rfl).1 ⟨rfl, rfl⟩,
   ((Calculate_leaving_trim trimmedStarterEngine (groundTick (1 / 10) 0) rfl
      (by norm_num [groundTick]) rfl rfl).2 (by decide)).2.2.2.2⟩

/-- C8: trimming does not advance the engine.  For every engine with a zero
time step and Starved, Stalled, Seized false, `Calculate` returns
idle + (MilThrust - idle) * milTable * ThrottleCmd^2 with
idle = MilThrust * idleTable, sets the phase to `tpTrim`, and leaves N1, N2,
EGT, FuelFlow, OilTemp, OilPressure, NozzlePosition, Running, Cutoff and
Starter unchanged. -/
theorem Calculate_trimming (s : FGSimTurbine) (c : Collaborators)
    (hdt : c.Getdt * c.GetRate = 0)
    (hV : s.Starved = false) (hL : s.Stalled = false) (hZ : s.Seized = false) :
    (Calculate s c).2 =
      s.MilThrust * c.table0 +
        (s.MilThrust - s.MilThrust * c.table0) * c.table1 * c.GetThrottleCmd ^ 2 ∧
    (Calculate s c).1.phase = tpTrim ∧
    (Calculate s c).1.N1 = s.N1 ∧ (Calculate s c).1.N2 = s.N2 ∧
    (Calculate s c).1.EGT_degC = s.EGT_degC ∧
    (Calculate s c).1.FuelFlow_pph = s.FuelFlow_pph ∧
    (Calculate s c).1.OilTemp_degK = s.OilTemp_degK ∧
    (Calculate s c).1.OilPressure_psi = s.OilPressure_psi ∧
    (Calculate s c).1.NozzlePosition = s.NozzlePosition ∧
    (Calculate s c).1.Running = s.Running ∧ (Calculate s c).1.Cutoff = s.Cutoff ∧
    (Calculate s c).1.Starter = s.Starter := by
  have h1 : leaveTrim (readInputs s c) = readInputs s c :=
    leaveTrim_of_not _ (fun hh => by
      have h2 : (readInputs s c).dt > 0 := hh.2
      simp [readInputs, hdt] at h2)
  have hT : selectPhase s c = { readInputs s c with phase := tpTrim } := by
    rw [selectPhase_eq, h1]
    simp [rulePhase, readInputs, hV, hL, hZ, hdt]
  have h : (selectPhase s c).phase = tpTrim := by rw [hT]
  rw [Calculate, dispatch_tpTrim _ _ h, hT]
  simp [storeThrust, Trim, readInputs]
  ring

/-- Witness for C8: the default engine, running, trimmed at half throttle. -/
theorem Calculate_trimming_witness :
    (Calculate { defaultEngine with phase := tpRun, Running := true, N2 := 60 }
        (groundTick 0 (1 / 2))).1.phase = tpTrim ∧
    (Calculate { defaultEngine with phase := tpRun, Running := true, N2 := 60 }
        (groundTick 0 (1 / 2))).1.N2 = 60 :=
  ⟨(Calculate_trimming { defaultEngine with phase := tpRun, Running := true, N2 := 60 }
      (groundTick 0 (1 / 2)) (by norm_num [groundTick]) rfl rfl rfl).2.1,
   (Calculate_trimming { defaultEngine with phase := tpRun, Running := true, N2 := 60 }
      (groundTick 0 (1 / 2)) (by norm_num [groundTick]) rfl rfl rfl).2.2.2.1⟩

/-! ### Phase determinism -/

/-- C9, as stated, fails: the phase held after `Calculate` depends on more than
the listed quantities.  A stalled engine ends the tick in `tpRun` with a zero
throttle command and in `tpStall` with throttle 1/2; a starting engine at
N2 = 20 stays in `tpStart` with IdleN2 = 60 and goes to `tpRun` with
IdleN2 = 18; a running engine stays in `tpRun` when the fuel store serves the
tick and goes to `tpOff` when it runs dry.  In each pair the previous phase,
the time step, the flags and N2 are the same. -/
theorem phase_after_tick_depends_on_more :
    ((Calculate { defaultEngine with phase := tpRun, Running := true, Stalled := true }
        (groundTick (1 / 10) 0)).1.phase = tpRun ∧
      (Calculate { defaultEngine with phase := tpRun, Running := true, Stalled := true }
        (groundTick (1 / 10) (1 / 2))).1.phase = tpStall) ∧
    ((Calculate { starterOnEngine with phase := tpSpinUp, N2 := 20, IdleN2 := 60 }
        (groundTick (1 / 10) 0)).1.phase = tpStart ∧
      (Calculate { starterOnEngine with phase := tpSpinUp, N2 := 20, IdleN2 := 18 }
        (groundTick (1 / 10) 0)).1.phase = tpRun) ∧
    ((Calculate { defaultEngine with phase := tpRun, Running := true, N2 := 60 }
        (groundTick (1 / 10) 0)).1.phase = tpRun ∧
      (Calculate { defaultEngine with phase := tpRun, Running := true, N2 := 60 }
        (dryTick (1 / 10) 0)).1.phase = tpOff) := by
  refine ⟨⟨?_, ?_⟩, ⟨?_, ?_⟩, ⟨?_, ?_⟩⟩
  · norm_num +decide [Calculate, selectPhase, readInputs, leaveTrim, phaseRules, dispatch,
      storeThrust, Stall, defaultEngine, groundTick]
  · norm_num +decide [Calculate, selectPhase, readInputs, leaveTrim, phaseRules, dispatch,
      storeThrust, Stall, defaultEngine, groundTick]
  · norm_num +decide [Calculate, selectPhase, readInputs, leaveTrim, phaseRules, dispatch,
      storeThrust, Start, starterOnEngine, defaultEngine, groundTick]
  · norm_num +decide [Calculate, selectPhase, readInputs, leaveTrim, phaseRules, dispatch,
      storeThrust, Start, starterOnEngine, defaultEngine, groundTick]
  · norm_num +decide [Calculate, selectPhase, readInputs, leaveTrim, phaseRules, dispatch,
      storeThrust, Run, ConsumeFuel, defaultEngine, groundTick]
  · norm_num +decide [Calculate, selectPhase, readInputs, leaveTrim, phaseRules, dispatch,
      storeThrust, Run, ConsumeFuel, defaultEngine, groundTick, dryTick]

/-- C9, amended: phase determinism.  For any two engines and collaborator
values that agree on previous phase, time step, Running, Cutoff, Starter,
Starved, Stalled, Seized and N2, the phase selected by the rules of `Calculate`
(the handler that is run) is the same in both; and the phase held after the
tick is the same as well when the two runs also agree on whether the throttle
command is zero, on whether N2 is below IdleN2, and on the Starved flag left by
the tick. -/
theorem phase_determinism (s₁ s₂ : FGSimTurbine) (c₁ c₂ : Collaborators)
    (hp : s₁.phase = s₂.phase) (hdt : c₁.Getdt * c₁.GetRate = c₂.Getdt * c₂.GetRate)
    (hR : s₁.Running = s₂.Running) (hC : s₁.Cutoff = s₂.Cutoff)
    (hS : s₁.Starter = s₂.Starter) (hV : s₁.Starved = s₂.Starved)
    (hL : s₁.Stalled = s₂.Stalled) (hZ : s₁.Seized = s₂.Seized) (hN : s₁.N2 = s₂.N2) :
    (selectPhase s₁ c₁).phase = (selectPhase s₂ c₂).phase ∧
    ((c₁.GetThrottleCmd = 0 ↔ c₂.GetThrottleCmd = 0) →
      (s₁.N2 < s₁.IdleN2 ↔ s₂.N2 < s₂.IdleN2) →
      (Calculate s₁ c₁).1.Starved = (Calculate s₂ c₂).1.Starved →
      (Calculate s₁ c₁).1.phase = (Calculate s₂ c₂).1.phase) := by
  obtain ⟨e1, e2, e3, e4, e5, e6, e7, e8, e9⟩ :=
    selectPhase_agree s₁ s₂ c₁ c₂ hp hdt hR hC hS hV hL hZ hN
  refine ⟨e1, fun hth hidle hst => ?_⟩
  rw [(Calculate_phase_eq s₁ c₁).2, (Calculate_phase_eq s₂ c₂).2] at hst
  rw [(Calculate_phase_eq s₁ c₁).1, (Calculate_phase_eq s₂ c₂).1]
  cases h : (selectPhase s₁ c₁).phase
  · have h' := e1 ▸ h
    rw [dispatch_tpOff _ _ h, dispatch_tpOff _ _ h', (Off_phase _ _).1, (Off_phase _ _).1, h, h']
  · have h' := e1 ▸ h
    rw [dispatch_tpRun _ _ h, dispatch_tpRun _ _ h'] at hst ⊢
    rw [Run_phase, Run_phase, hst, e2, h, h']
  · have h' := e1 ▸ h
    rw [dispatch_tpSpinUp _ _ h, dispatch_tpSpinUp _ _ h', (SpinUp_phase _).1,
      (SpinUp_phase _).1, h, h']
  · have h' := e1 ▸ h
    obtain ⟨n1, n2⟩ := e5 h
    rw [dispatch_tpStart _ _ h, dispatch_tpStart _ _ h', (Start_phase _).1, (Start_phase _).1,
      h, h', n1, n2, e3, e4, e6, e7, ← hV, ← hN]
    by_cases hh : s₁.N2 < s₁.IdleN2
    · have hh' : s₁.N2 < s₂.IdleN2 := by rw [hN]; exact hidle.mp hh
      simp only [hh, hh', if_true]
    · have hh' : ¬ s₁.N2 < s₂.IdleN2 := by rw [hN]; exact fun k => hh (hidle.mpr k)
      simp only [hh, hh', if_false]
  · have h' := e1 ▸ h
    rw [dispatch_tpStall _ _ h, dispatch_tpStall _ _ h', (Stall_phase _ _).1,
      (Stall_phase _ _).1, h, h', e8, e9]
    by_cases hh : c₁.GetThrottleCmd = 0
    · simp only [hh, hth.mp hh, if_true]
    · have hh' : ¬ c₂.GetThrottleCmd = 0 := fun k => hh (hth.mpr k)
      simp only [hh, hh', if_false]
  · have h' := e1 ▸ h
    rw [dispatch_tpSeize _ _ h, dispatch_tpSeize _ _ h', (Seize_phase _ _).1,
      (Seize_phase _ _).1, h, h']
  · have h' := e1 ▸ h
    rw [dispatch_tpTrim _ _ h, dispatch_tpTrim _ _ h', (Trim_phase _ _).1,
      (Trim_phase _ _).1, h, h']

/-- Witness for C9 (amended): the stalled engine at two non-zero throttle settings. -/
theorem phase_determinism_witness :
    (selectPhase { defaultEngine with phase := tpRun, Running := true, Stalled := true }
        (groundTick (1 / 10) (1 / 4))).phase =
      (selectPhase { defaultEngine with phase := tpRun, Running := true, Stalled := true }
        (groundTick (1 / 10) (1 / 2))).phase ∧
    (Calculate { defaultEngine with phase := tpRun, Running := true, Stalled := true }
        (groundTick (1 / 10) (1 / 4))).1.phase =
      (Calculate { defaultEngine with phase := tpRun, Running := true, Stalled := true }
        (groundTick (1 / 10) (1 / 2))).1.phase :=
  ⟨(phase_determinism _ _ (groundTick (1 / 10) (1 / 4)) (groundTick (1 / 10) (1 / 2))
      rfl rfl rfl rfl rfl rfl rfl rfl rfl).1,
   (phase_determinism { defaultEngine with phase := tpRun, Running := true, Stalled := true }
      { defaultEngine with phase := tpRun, Running := true, Stalled := true }
      (groundTick (1 / 10) (1 / 4)) (groundTick (1 / 10) (1 / 2))
      rfl rfl rfl rfl rfl rfl rfl rfl rfl).2 (by norm_num [groundTick]) Iff.rfl
      (by simp [Calculate, storeThrust, dispatch, Off, Run, SpinUp, Start, Stall, Seize, Trim,
        selectPhase, phaseRules, leaveTrim, readInputs, ConsumeFuel, defaultEngine, groundTick])⟩

/-! ### The `Start` handler -/

/-- C10: start completes at idle.  On every tick on which the `Start` handler is
selected with N2 at or above IdleN2 (N2 > 15, not Starved), after the tick the
phase is `tpRun`, Running is true, Starter and Cranking are false, N1 and N2
are unchanged and the returned thrust is 0. -/
theorem Start_completes_at_idle (s : FGSimTurbine) (c : Collaborators)
    (hsel : (selectPhase s c).phase = tpStart) (hN : s.IdleN2 ≤ s.N2)
    (h15 : s.N2 > 15) (hV : s.Starved = false) :
    Calculate s c = storeThrust (Start (selectPhase s c)) ∧
    (Calculate s c).1.phase = tpRun ∧ (Calculate s c).1.Running = true ∧
    (Calculate s c).1.Starter = false ∧ (Calculate s c).1.Cranking = false ∧
    (Calculate s c).1.N1 = s.N1 ∧ (Calculate s c).1.N2 = s.N2 ∧
    (Calculate s c).2 = 0 := by
  obtain ⟨f1, f2, f3, f4⟩ := selectPhase_start_fields s c hsel
  have hc : Calculate s c = storeThrust (Start (selectPhase s c)) := by
    rw [Calculate, dispatch_tpStart _ _ hsel]
  have hst : Start (selectPhase s c) =
      ({ selectPhase s c with
          Cranking := false, phase := tpRun, Running := true, Starter := false }, 0) := by
    have g1 : (selectPhase s c).N2 > 15 ∧ (selectPhase s c).Starved = false := by
      rw [f2, f3]; exact ⟨h15, hV⟩
    have g2 : ¬ (selectPhase s c).N2 < (selectPhase s c).IdleN2 := by
      rw [f2, f4]; exact not_lt.mpr hN
    simp [Start, g1, g2]
  refine ⟨hc, ?_⟩
  rw [hc, hst]
  simp [storeThrust, f1, f2]

/-- Witness for C10: an engine motored to N2 = 60 = IdleN2 with the cutoff cleared. -/
theorem Start_completes_at_idle_witness :
    (Calculate { starterOnEngine with phase := tpStart, N2 := 60 } (groundTick (1 / 10) 0)).1.phase
      = tpRun ∧
    (Calculate { starterOnEngine with phase := tpStart, N2 := 60 } (groundTick (1 / 10) 0)).1.N2
      = 60 :=
  ⟨(Start_completes_at_idle { starterOnEngine with phase := tpStart, N2 := 60 }
      (groundTick (1 / 10) 0)
      (Calculate_light_off_aux _ _ (by decide) rfl rfl (by norm_num) (by norm_num [groundTick])
        rfl rfl rfl)
      (by norm_num [starterOnEngine, defaultEngine]) (by norm_num) rfl).2.1,
   (Start_completes_at_idle { starterOnEngine with phase := tpStart, N2 := 60 }
      (groundTick (1 / 10) 0)
      (Calculate_light_off_aux _ _ (by decide) rfl rfl (by norm_num) (by norm_num [groundTick])
        rfl rfl rfl)
      (by norm_num [starterOnEngine, defaultEngine]) (by norm_num) rfl).2.2.2.2.2.2.1⟩

/-! ### The `Run` handler at idle, the cutoff rule and the rotor-speed bounds -/

/-- The part of `Calculate` before the `switch` leaves the configuration, the
bleed demand and the reverser, augmentation and injection flags as they are,
and stores the time step and throttle command read from the collaborators. -/
theorem selectPhase_config (s : FGSimTurbine) (c : Collaborators) :
    (selectPhase s c).MilThrust = s.MilThrust ∧ (selectPhase s c).TSFC = s.TSFC ∧
    (selectPhase s c).IdleN1 = s.IdleN1 ∧ (selectPhase s c).IdleN2 = s.IdleN2 ∧
    (selectPhase s c).MaxN1 = s.MaxN1 ∧ (selectPhase s c).MaxN2 = s.MaxN2 ∧
    (selectPhase s c).N1_factor = s.N1_factor ∧ (selectPhase s c).N2_factor = s.N2_factor ∧
    (selectPhase s c).delay = s.delay ∧ (selectPhase s c).IdleFF = s.IdleFF ∧
    (selectPhase s c).BleedDemand = s.BleedDemand ∧ (selectPhase s c).Reversed = s.Reversed ∧
    (selectPhase s c).Augmented = s.Augmented ∧ (selectPhase s c).AugMethod = s.AugMethod ∧
    (selectPhase s c).Augmentation = s.Augmentation ∧
    (selectPhase s c).Injected = s.Injected ∧ (selectPhase s c).Injection = s.Injection ∧
    (selectPhase s c).dt = c.Getdt * c.GetRate ∧
    (selectPhase s c).ThrottleCmd = c.GetThrottleCmd := by
  rw [selectPhase_eq]
  unfold leaveTrim
  split_ifs <;> simp [readInputs]

/-- The rotor speeds and the fuel flow written by `Run`, and its returned thrust, when
neither the augmentation nor the injection override applies. -/
theorem Run_N2 (t : FGSimTurbine) (c : Collaborators) :
    (Run t c).1.N2 =
      Seek t.dt t.N2 (t.IdleN2 + t.ThrottleCmd * t.N2_factor) t.delay (t.delay * 3) ∧
    (Run t c).1.N1 =
      Seek t.dt t.N1 (t.IdleN1 + t.ThrottleCmd * t.N1_factor) t.delay (t.delay * 2.4) ∧
    (Run t c).1.MaxN1 = t.MaxN1 ∧ (Run t c).1.MaxN2 = t.MaxN2 := by
  simp [Run, ConsumeFuel]

/-- The `Run` handler on an engine already at idle with the throttle closed. -/
theorem Run_at_idle (t : FGSimTurbine) (c : Collaborators)
    (hN : t.N2 = t.IdleN2) (hth : t.ThrottleCmd = 0) (hB : t.BleedDemand = 0)
    (hRev : t.Reversed = false) (hAug : ¬ (t.Augmented = 1 ∧ t.Augmentation = true))
    (hInj : ¬ (t.Injected = 1 ∧ t.Injection = true)) :
    (Run t c).1.N2 = t.IdleN2 ∧ (Run t c).2 = t.MilThrust * c.table0 ∧
    t.IdleFF ≤ (Run t c).1.FuelFlow_pph := by
  have h1 : ¬ ((0.99 : ℚ) < 0) := by norm_num
  have hA : t.Augmented = 1 → t.AugMethod ≠ 1 → t.Augmentation = false := by
    intro ha _
    cases h : t.Augmentation
    · rfl
    · exact absurd ⟨ha, h⟩ hAug
  have hI : t.Injected = 1 → t.Injection = false := by
    intro hi
    cases h : t.Injection
    · rfl
    · exact absurd ⟨hi, h⟩ hInj
  by_cases hm : t.AugMethod = 1 <;> by_cases ha : t.Augmented = 1 <;>
    by_cases hi : t.Injected = 1 <;>
    simp [Run, ConsumeFuel, hN, hth, hB, hRev, Seek_self, hm, ha, hi, h1, hA, hI] <;>
    split_ifs <;> linarith

/-- A `Seek` step with a non-negative time step and non-negative rates stays in
any interval that contains both the current value and the target. -/
theorem Seek_mem_Icc (dt v t accel decel lo hi : ℚ) (hdt : 0 ≤ dt) (ha : 0 ≤ accel)
    (hd : 0 ≤ decel) (hv : lo ≤ v ∧ v ≤ hi) (ht : lo ≤ t ∧ t ≤ hi) :
    lo ≤ Seek dt v t accel decel ∧ Seek dt v t accel decel ≤ hi := by
  have hA : 0 ≤ dt * accel := mul_nonneg hdt ha
  have hD : 0 ≤ dt * decel := mul_nonneg hdt hd
  simp only [Seek]
  split_ifs <;> constructor <;> linarith [hv.1, hv.2, ht.1, ht.2]

/-- C11: idle steady state in `Run`.  On every tick whose handler is `Run`, with
a zero throttle command, a non-negative time step and a non-negative spool
delay, N2 moves toward IdleN2 without overshoot; and when N2 is already at
IdleN2 (no bleed demand, not reversed, augmentation and injection inactive,
N2_factor = MaxN2 - IdleN2 not zero) N2 stays at IdleN2, the returned thrust is
MilThrust times the idle table value, and the fuel flow after the tick is at
least IdleFF. -/
theorem Calculate_Run_idle (s : FGSimTurbine) (c : Collaborators)
    (hsel : (selectPhase s c).phase = tpRun) (hth : c.GetThrottleCmd = 0)
    (hdt : 0 ≤ c.Getdt * c.GetRate) (hdelay : 0 ≤ s.delay) :
    Calculate s c = storeThrust (Run (selectPhase s c) c) ∧
    min (selectPhase s c).N2 s.IdleN2 ≤ (Calculate s c).1.N2 ∧
    (Calculate s c).1.N2 ≤ max (selectPhase s c).N2 s.IdleN2 ∧
    ((selectPhase s c).N2 = s.IdleN2 → s.BleedDemand = 0 → s.Reversed = false →
      ¬ (s.Augmented = 1 ∧ s.Augmentation = true) →
      ¬ (s.Injected = 1 ∧ s.Injection = true) → s.N2_factor ≠ 0 →
      (Calculate s c).1.N2 = s.IdleN2 ∧ (Calculate s c).2 = s.MilThrust * c.table0 ∧
      s.IdleFF ≤ (Calculate s c).1.FuelFlow_pph) := by
  obtain ⟨k1, -, -, k4, -, -, -, -, k9, k10, k11, k12, k13, -, k15, k16, k17, k18, k19⟩ :=
    selectPhase_config s c
  have hc : Calculate s c = storeThrust (Run (selectPhase s c) c) := by
    rw [Calculate, dispatch_tpRun _ _ hsel]
  have hN2 : (Calculate s c).1.N2 =
      Seek (c.Getdt * c.GetRate) (selectPhase s c).N2 s.IdleN2 s.delay (s.delay * 3) := by
    rw [hc]
    simp [storeThrust, (Run_N2 _ c).1, k4, k9, k18, k19, hth]
  refine ⟨hc, ?_, ?_, ?_⟩
  · rw [hN2]
    exact (Seek_mem_Icc _ _ _ _ _ _ _ hdt hdelay (by linarith)
      ⟨min_le_left _ _, le_max_left _ _⟩ ⟨min_le_right _ _, le_max_right _ _⟩).1
  · rw [hN2]
    exact (Seek_mem_Icc _ _ _ _ _ (min (selectPhase s c).N2 s.IdleN2) _ hdt hdelay (by linarith)
      ⟨min_le_left _ _, le_max_left _ _⟩ ⟨min_le_right _ _, le_max_right _ _⟩).2
  · intro hN hB hRev hAug hInj _
    have h := Run_at_idle (selectPhase s c) c (by rw [hN, k4]) (by rw [k19, hth])
      (by rw [k11, hB]) (by rw [k12, hRev]) (by rw [k13, k15]; exact hAug)
      (by rw [k16, k17]; exact hInj)
    rw [hc]
    simpa [storeThrust, k1, k4, k10] using h

/-- Witness for C11: the default engine running at idle with the throttle closed. -/
theorem Calculate_Run_idle_witness :
    (Calculate idlingEngine (groundTick (1 / 10) 0)).1.N2 = idlingEngine.IdleN2 ∧
    (Calculate idlingEngine (groundTick (1 / 10) 0)).2 =
      idlingEngine.MilThrust * (groundTick (1 / 10) 0).table0 ∧
    idlingEngine.IdleFF ≤ (Calculate idlingEngine (groundTick (1 / 10) 0)).1.FuelFlow_pph :=
  (Calculate_Run_idle idlingEngine (groundTick (1 / 10) 0)
    (by rw [selectPhase_of_not_trim _ _ (by decide)]
        norm_num +decide [rulePhase, readInputs, idlingEngine, defaultEngine, groundTick])
    rfl (by norm_num [groundTick]) (by norm_num [idlingEngine, defaultEngine])).2.2.2
    (by rw [(selectPhase_fields_of_not_trim _ _ (by decide)).2.1]; rfl)
    rfl rfl (by decide) (by decide) (by norm_num [idlingEngine, defaultEngine])

/-- C13: fuel cutoff keeps the engine out of `Run`.  On every tick with a
positive time step whose previous phase is not `tpTrim` and on which Cutoff is
true, the handler that is run is one of `Off`, `SpinUp`, `Stall`, `Seize`
(never `Run`) and the returned thrust is 0. -/
theorem Calculate_cutoff_not_Run (s : FGSimTurbine) (c : Collaborators)
    (hdt : 0 < c.Getdt * c.GetRate) (hp : s.phase ≠ tpTrim) (hC : s.Cutoff = true) :
    ((selectPhase s c).phase = tpOff ∨ (selectPhase s c).phase = tpSpinUp ∨
      (selectPhase s c).phase = tpStall ∨ (selectPhase s c).phase = tpSeize) ∧
    (selectPhase s c).phase ≠ tpRun ∧
    (Calculate s c).2 = 0 := by
  have h : (selectPhase s c).phase = tpOff ∨ (selectPhase s c).phase = tpSpinUp ∨
      (selectPhase s c).phase = tpStall ∨ (selectPhase s c).phase = tpSeize := by
    rw [selectPhase_of_not_trim _ _ hp]
    simp only [rulePhase]
    split_ifs <;> simp_all [readInputs, hdt.ne.symm]
  refine ⟨h, ?_, ?_⟩
  · rcases h with h | h | h | h <;> rw [h] <;> decide
  · rcases h with h | h | h | h
    · rw [Calculate, dispatch_tpOff _ _ h]; simp [storeThrust, Off]
    · rw [Calculate, dispatch_tpSpinUp _ _ h]; simp [storeThrust, SpinUp]
    · rw [Calculate, dispatch_tpStall _ _ h]; simp [storeThrust, Stall]
    · rw [Calculate, dispatch_tpSeize _ _ h]; simp [storeThrust, Seize]

/-- Witness for C13: a running engine whose fuel cutoff is set is sent to `Off`. -/
theorem Calculate_cutoff_not_Run_witness :
    (selectPhase { defaultEngine with phase := tpRun, Running := true, Cutoff := true }
      (groundTick (1 / 10) 1)).phase ≠ tpRun ∧
    (Calculate { defaultEngine with phase := tpRun, Running := true, Cutoff := true }
      (groundTick (1 / 10) 1)).2 = 0 :=
  (Calculate_cutoff_not_Run { defaultEngine with phase := tpRun, Running := true, Cutoff := true }
    (groundTick (1 / 10) 1) (by norm_num [groundTick]) (by decide) rfl).2

/-! ### Rotor-speed bounds -/

theorem Off_rotorBounds (t : FGSimTurbine) (c : Collaborators) (hdt : 0 ≤ t.dt)
    (hq : 0 ≤ c.Getqbar) (hq1 : c.Getqbar / 10 ≤ t.MaxN1) (hq2 : c.Getqbar / 15 ≤ t.MaxN2)
    (h : rotorBounds t) : rotorBounds (Off t c).1 := by
  obtain ⟨a1, a2, a3, a4⟩ := h
  have e1 := Seek_mem_Icc t.dt t.N1 (c.Getqbar / 10) (t.N1 / 2) (t.N1 / 2) 0 t.MaxN1 hdt
    (by linarith) (by linarith) ⟨a1, a2⟩ ⟨div_nonneg hq (by norm_num), hq1⟩
  have e2 := Seek_mem_Icc t.dt t.N2 (c.Getqbar / 15) (t.N2 / 2) (t.N2 / 2) 0 t.MaxN2 hdt
    (by linarith) (by linarith) ⟨a3, a4⟩ ⟨div_nonneg hq (by norm_num), hq2⟩
  simpa [rotorBounds, Off] using ⟨e1.1, e1.2, e2.1, e2.2⟩

theorem Run_rotorBounds (t : FGSimTurbine) (c : Collaborators) (hdt : 0 ≤ t.dt)
    (hdelay : 0 ≤ t.delay) (hth : 0 ≤ t.ThrottleCmd ∧ t.ThrottleCmd ≤ 1)
    (hI1 : 0 ≤ t.IdleN1 ∧ t.IdleN1 ≤ t.MaxN1) (hI2 : 0 ≤ t.IdleN2 ∧ t.IdleN2 ≤ t.MaxN2)
    (hf1 : t.N1_factor = t.MaxN1 - t.IdleN1) (hf2 : t.N2_factor = t.MaxN2 - t.IdleN2)
    (h : rotorBounds t) : rotorBounds (Run t c).1 := by
  obtain ⟨a1, a2, a3, a4⟩ := h
  have g1 : 0 ≤ t.IdleN1 + t.ThrottleCmd * t.N1_factor ∧
      t.IdleN1 + t.ThrottleCmd * t.N1_factor ≤ t.MaxN1 := by
    rw [hf1]; constructor <;> nlinarith [hth.1, hth.2, hI1.1, hI1.2]
  have g2 : 0 ≤ t.IdleN2 + t.ThrottleCmd * t.N2_factor ∧
      t.IdleN2 + t.ThrottleCmd * t.N2_factor ≤ t.MaxN2 := by
    rw [hf2]; constructor <;> nlinarith [hth.1, hth.2, hI2.1, hI2.2]
  have e1 := Seek_mem_Icc t.dt t.N1 _ t.delay (t.delay * 2.4) 0 t.MaxN1 hdt hdelay
    (by linarith) ⟨a1, a2⟩ g1
  have e2 := Seek_mem_Icc t.dt t.N2 _ t.delay (t.delay * 3) 0 t.MaxN2 hdt hdelay
    (by linarith) ⟨a3, a4⟩ g2
  obtain ⟨r1, r2, r3, r4⟩ := Run_N2 t c
  simp only [rotorBounds, r1, r2, r3, r4]
  exact ⟨e1.1, e1.2, e2.1, e2.2⟩

theorem SpinUp_rotorBounds (t : FGSimTurbine) (hdt : 0 ≤ t.dt)
    (hm1 : 5.21 ≤ t.MaxN1) (hm2 : 25.18 ≤ t.MaxN2)
    (h : rotorBounds t) : rotorBounds (SpinUp t).1 := by
  obtain ⟨a1, a2, a3, a4⟩ := h
  have e1 := Seek_mem_Icc t.dt t.N1 5.21 1 (t.N1 / 2) 0 t.MaxN1 hdt
    (by norm_num) (by linarith) ⟨a1, a2⟩ ⟨by norm_num, hm1⟩
  have e2 := Seek_mem_Icc t.dt t.N2 25.18 3 (t.N2 / 2) 0 t.MaxN2 hdt
    (by norm_num) (by linarith) ⟨a3, a4⟩ ⟨by norm_num, hm2⟩
  simpa [rotorBounds, SpinUp] using ⟨e1.1, e1.2, e2.1, e2.2⟩

theorem Start_rotorBounds (t : FGSimTurbine) (hdt : 0 ≤ t.dt)
    (hI1 : 0 ≤ t.IdleN1 ∧ t.IdleN1 ≤ t.MaxN1) (hI2 : 0 ≤ t.IdleN2 ∧ t.IdleN2 ≤ t.MaxN2)
    (h : rotorBounds t) : rotorBounds (Start t).1 := by
  obtain ⟨a1, a2, a3, a4⟩ := h
  have e1 := Seek_mem_Icc t.dt t.N1 t.IdleN1 1.4 (t.N1 / 2) 0 t.MaxN1 hdt
    (by norm_num) (by linarith) ⟨a1, a2⟩ hI1
  have e2 := Seek_mem_Icc t.dt t.N2 t.IdleN2 2 (t.N2 / 2) 0 t.MaxN2 hdt
    (by norm_num) (by linarith) ⟨a3, a4⟩ hI2
  by_cases h1 : t.N2 > 15 ∧ t.Starved = false <;> by_cases h2 : t.N2 < t.IdleN2 <;>
    simp only [rotorBounds, Start, h1, h2, if_true, if_false] <;>
    first
      | exact ⟨e1.1, e1.2, e2.1, e2.2⟩
      | exact ⟨a1, a2, a3, a4⟩

theorem Stall_rotorBounds (t : FGSimTurbine) (c : Collaborators) (hdt : 0 ≤ t.dt)
    (hq : 0 ≤ c.Getqbar) (hq1 : c.Getqbar / 10 ≤ t.MaxN1) (hq2 : c.Getqbar / 15 ≤ t.MaxN2)
    (h : rotorBounds t) : rotorBounds (Stall t c).1 := by
  obtain ⟨a1, a2, a3, a4⟩ := h
  have e1 := Seek_mem_Icc t.dt t.N1 (c.Getqbar / 10) 0 (t.N1 / 10) 0 t.MaxN1 hdt
    (le_refl 0) (by linarith) ⟨a1, a2⟩ ⟨div_nonneg hq (by norm_num), hq1⟩
  have e2 := Seek_mem_Icc t.dt t.N2 (c.Getqbar / 15) 0 (t.N2 / 10) 0 t.MaxN2 hdt
    (le_refl 0) (by linarith) ⟨a3, a4⟩ ⟨div_nonneg hq (by norm_num), hq2⟩
  simpa [rotorBounds, Stall] using ⟨e1.1, e1.2, e2.1, e2.2⟩

theorem Seize_rotorBounds (t : FGSimTurbine) (c : Collaborators) (hdt : 0 ≤ t.dt)
    (hq : 0 ≤ c.Getqbar) (hq1 : c.Getqbar / 10 ≤ t.MaxN1)
    (h : rotorBounds t) : rotorBounds (Seize t c).1 := by
  obtain ⟨a1, a2, a3, a4⟩ := h
  have e1 := Seek_mem_Icc t.dt t.N1 (c.Getqbar / 20) 0 (t.N1 / 15) 0 t.MaxN1 hdt
    (le_refl 0) (by linarith) ⟨a1, a2⟩ ⟨div_nonneg hq (by norm_num), by linarith⟩
  have e3 : (0 : ℚ) ≤ t.MaxN2 := le_trans a3 a4
  simpa [rotorBounds, Seize] using ⟨e1.1, e1.2, e3⟩

/-- The rotor speeds seen by the `switch` of `Calculate` are those the tick began
with, or the idle speeds when trimming has just finished. -/
theorem selectPhase_rotor (s : FGSimTurbine) (c : Collaborators) :
    ((selectPhase s c).N1 = s.N1 ∧ (selectPhase s c).N2 = s.N2) ∨
    ((selectPhase s c).N1 = s.IdleN1 ∧ (selectPhase s c).N2 = s.IdleN2) := by
  rw [selectPhase_eq]
  unfold leaveTrim
  split_ifs <;> simp [readInputs]

/-- C12, as stated, fails: the rotor-speed bounds are not preserved by every
tick.  An engine shut down at N1 = MaxN1 = 100 and N2 = MaxN2 = 100 in flight at
dynamic pressure 1600 is driven by `Off` toward qbar/10 = 160 and leaves the
tick with N1 = 105; a motoring engine with MaxN2 = 20 is driven by `SpinUp`
toward 25.18 and leaves the tick with N2 = 22; a running engine with a
negative spool delay moves away from its target and leaves the tick with
N2 = 118.  In each case the time step is non-negative, the idle speeds lie
between 0 and the maxima, the throttle command is in [0, 1], the dynamic
pressure is non-negative and the bounds hold before the tick. -/
theorem rotor_bounds_not_invariant :
    (rotorBounds shutDownEngine ∧ 0 ≤ fastFlightTick.Getdt * fastFlightTick.GetRate ∧
      0 ≤ fastFlightTick.Getqbar ∧ fastFlightTick.GetThrottleCmd = 0 ∧
      (Calculate shutDownEngine fastFlightTick).1.N1 = 105 ∧
      (Calculate shutDownEngine fastFlightTick).1.MaxN1 = 100 ∧
      ¬ rotorBounds (Calculate shutDownEngine fastFlightTick).1) ∧
    (rotorBounds lowMaxEngine ∧ 0 ≤ lowMaxEngine.IdleN2 ∧
      lowMaxEngine.IdleN2 ≤ lowMaxEngine.MaxN2 ∧
      (Calculate lowMaxEngine (groundTick 1 0)).1.N2 = 22 ∧
      (Calculate lowMaxEngine (groundTick 1 0)).1.MaxN2 = 20 ∧
      ¬ rotorBounds (Calculate lowMaxEngine (groundTick 1 0)).1) ∧
    (rotorBounds negativeDelayEngine ∧
      (Calculate negativeDelayEngine (groundTick (1 / 10) (1 / 2))).1.N2 = 118 ∧
      (Calculate negativeDelayEngine (groundTick (1 / 10) (1 / 2))).1.MaxN2 = 100 ∧
      ¬ rotorBounds (Calculate negativeDelayEngine (groundTick (1 / 10) (1 / 2))).1) := by
  have h1 : (Calculate shutDownEngine fastFlightTick).1.N1 = 105 ∧
      (Calculate shutDownEngine fastFlightTick).1.MaxN1 = 100 := by
    norm_num +decide [Calculate, selectPhase, readInputs, leaveTrim, phaseRules, dispatch,
      storeThrust, Off, Seek, shutDownEngine, defaultEngine, fastFlightTick, groundTick]
  have h2 : (Calculate lowMaxEngine (groundTick 1 0)).1.N2 = 22 ∧
      (Calculate lowMaxEngine (groundTick 1 0)).1.MaxN2 = 20 := by
    norm_num +decide [Calculate, selectPhase, readInputs, leaveTrim, phaseRules, dispatch,
      storeThrust, SpinUp, Seek, lowMaxEngine, defaultEngine, groundTick]
  have h3 : (Calculate negativeDelayEngine (groundTick (1 / 10) (1 / 2))).1.N2 = 118 ∧
      (Calculate negativeDelayEngine (groundTick (1 / 10) (1 / 2))).1.MaxN2 = 100 := by
    norm_num +decide [Calculate, selectPhase, readInputs, leaveTrim, phaseRules, dispatch,
      storeThrust, Run, ConsumeFuel, Seek, negativeDelayEngine, defaultEngine, groundTick]
  refine ⟨⟨?_, ?_, ?_, rfl, h1.1, h1.2, ?_⟩, ⟨?_, ?_, ?_, h2.1, h2.2, ?_⟩, ⟨?_, h3.1, h3.2, ?_⟩⟩
  · norm_num [rotorBounds, shutDownEngine, defaultEngine]
  · norm_num [fastFlightTick, groundTick]
  · norm_num [fastFlightTick, groundTick]
  · intro h
    have := h.2.1
    rw [h1.1, h1.2] at this
    norm_num at this
  · norm_num [rotorBounds, lowMaxEngine, defaultEngine]
  · norm_num [lowMaxEngine, defaultEngine]
  · norm_num [lowMaxEngine, defaultEngine]
  · intro h
    have := h.2.2.2
    rw [h2.1, h2.2] at this
    norm_num at this
  · norm_num [rotorBounds, negativeDelayEngine, defaultEngine]
  · intro h
    have := h.2.2.2
    rw [h3.1, h3.2] at this
    norm_num at this

/-- C12, amended: the rotor-speed bounds are an invariant of every tick when
every seek target lies within them.  For every phase and every call of
`Calculate` with a non-negative time step, on an engine as `Load` leaves it
(N1_factor = MaxN1 - IdleN1, N2_factor = MaxN2 - IdleN2) with non-negative
spool delay, 0 <= IdleN1 <= MaxN1, 0 <= IdleN2 <= MaxN2, the starter targets
within the bounds (5.21 <= MaxN1, 25.18 <= MaxN2), throttle command in [0, 1]
and dynamic pressure qbar >= 0 with qbar/10 <= MaxN1 and qbar/15 <= MaxN2:
if 0 <= N1 <= MaxN1 and 0 <= N2 <= MaxN2 hold before the call they hold
after it. -/
theorem Calculate_rotorBounds (s : FGSimTurbine) (c : Collaborators)
    (hdt : 0 ≤ c.Getdt * c.GetRate) (hdelay : 0 ≤ s.delay)
    (hf1 : s.N1_factor = s.MaxN1 - s.IdleN1) (hf2 : s.N2_factor = s.MaxN2 - s.IdleN2)
    (hI1 : 0 ≤ s.IdleN1 ∧ s.IdleN1 ≤ s.MaxN1) (hI2 : 0 ≤ s.IdleN2 ∧ s.IdleN2 ≤ s.MaxN2)
    (hm1 : 5.21 ≤ s.MaxN1) (hm2 : 25.18 ≤ s.MaxN2)
    (hth : 0 ≤ c.GetThrottleCmd ∧ c.GetThrottleCmd ≤ 1)
    (hq : 0 ≤ c.Getqbar) (hq1 : c.Getqbar / 10 ≤ s.MaxN1) (hq2 : c.Getqbar / 15 ≤ s.MaxN2)
    (h : rotorBounds s) : rotorBounds (Calculate s c).1 := by
  obtain ⟨-, -, k3, k4, k5, k6, k7, k8, k9, -, -, -, -, -, -, -, -, k18, k19⟩ :=
    selectPhase_config s c
  have hT : rotorBounds (selectPhase s c) := by
    rcases selectPhase_rotor s c with ⟨e1, e2⟩ | ⟨e1, e2⟩
    · simpa [rotorBounds, e1, e2, k5, k6] using h
    · simp only [rotorBounds, e1, e2, k5, k6]
      exact ⟨hI1.1, hI1.2, hI2.1, hI2.2⟩
  have hst : ∀ r : FGSimTurbine × ℚ, rotorBounds r.1 → rotorBounds (storeThrust r).1 := by
    intro r hr
    simpa [storeThrust, rotorBounds] using hr
  have hdt' : 0 ≤ (selectPhase s c).dt := by rw [k18]; exact hdt
  cases hp : (selectPhase s c).phase
  · rw [Calculate, dispatch_tpOff _ _ hp]
    exact hst _ (Off_rotorBounds _ c hdt' hq (by rw [k5]; exact hq1) (by rw [k6]; exact hq2) hT)
  · rw [Calculate, dispatch_tpRun _ _ hp]
    exact hst _ (Run_rotorBounds _ c hdt' (by rw [k9]; exact hdelay) (by rw [k19]; exact hth)
      (by rw [k3, k5]; exact hI1) (by rw [k4, k6]; exact hI2) (by rw [k7, k5, k3]; exact hf1)
      (by rw [k8, k6, k4]; exact hf2) hT)
  · rw [Calculate, dispatch_tpSpinUp _ _ hp]
    exact hst _ (SpinUp_rotorBounds _ hdt' (by rw [k5]; exact hm1) (by rw [k6]; exact hm2) hT)
  · rw [Calculate, dispatch_tpStart _ _ hp]
    exact hst _ (Start_rotorBounds _ hdt' (by rw [k3, k5]; exact hI1)
      (by rw [k4, k6]; exact hI2) hT)
  · rw [Calculate, dispatch_tpStall _ _ hp]
    exact hst _ (Stall_rotorBounds _ c hdt' hq (by rw [k5]; exact hq1)
      (by rw [k6]; exact hq2) hT)
  · rw [Calculate, dispatch_tpSeize _ _ hp]
    exact hst _ (Seize_rotorBounds _ c hdt' hq (by rw [k5]; exact hq1) hT)
  · rw [Calculate, dispatch_tpTrim _ _ hp]
    exact hst _ (by simpa [Trim] using hT)

/-- Witness for C12 (amended): the idling default engine on the ground. -/
theorem Calculate_rotorBounds_witness :
    rotorBounds (Calculate idlingEngine (groundTick (1 / 10) (1 / 2))).1 :=
  Calculate_rotorBounds idlingEngine (groundTick (1 / 10) (1 / 2))
    (by norm_num [groundTick]) (by norm_num [idlingEngine, defaultEngine])
    (by norm_num [idlingEngine, defaultEngine]) (by norm_num [idlingEngine, defaultEngine])
    (by norm_num [idlingEngine, defaultEngine]) (by norm_num [idlingEngine, defaultEngine])
    (by norm_num [idlingEngine, defaultEngine]) (by norm_num [idlingEngine, defaultEngine])
    (by norm_num [groundTick]) (by norm_num [groundTick])
    (by norm_num [groundTick, idlingEngine, defaultEngine])
    (by norm_num [groundTick, idlingEngine, defaultEngine])
    (by norm_num [rotorBounds, idlingEngine, defaultEngine])

/-! ### Landing gear: auxiliary facts -/

open BrakeGroup SteerType ReportType

theorem resolveGearPosition_eq (g : FGLGear) (c : GearCollaborators) :
    resolveGearPosition g c =
      { g with
        GearUp := if g.isRetractable ≠ 0 ∧ c.GetGearPos < 0.01 then true else false
        GearDown :=
          if g.isRetractable ≠ 0 then
            (if c.GetGearPos < 0.01 then false else if c.GetGearPos > 0.99 then true else false)
          else true } := by
  unfold resolveGearPosition
  split_ifs <;> simp_all

theorem computeSteerAngle_eq (g : FGLGear) (c : GearCollaborators) :
    computeSteerAngle g c =
      { g with SteerAngle :=
          if g.eSteerType = stSteer then c.degtorad * c.GetSteerPosDeg else 0 } := by
  unfold computeSteerAngle
  cases h : g.eSteerType <;> simp

theorem prepare_eq (g : FGLGear) (c : GearCollaborators) :
    prepare g c =
      { g with
        vForce := FGColumnVector3.InitMatrix
        vMoment := FGColumnVector3.InitMatrix
        GearUp := if g.isRetractable ≠ 0 ∧ c.GetGearPos < 0.01 then true else false
        GearDown :=
          if g.isRetractable ≠ 0 then
            (if c.GetGearPos < 0.01 then false else if c.GetGearPos > 0.99 then true else false)
          else true
        SteerAngle := if g.eSteerType = stSteer then c.degtorad * c.GetSteerPosDeg else 0 } := by
  simp only [prepare, resolveGearPosition_eq, computeSteerAngle_eq]

theorem Force_up (g : FGLGear) (c : GearCollaborators) (h : (prepare g c).GearDown = false) :
    Force g c = (prepare g c, []) := by
  simp [Force, h]

theorem Force_compressed (g : FGLGear) (c : GearCollaborators)
    (h1 : (prepare g c).GearDown = true) (h2 : (locate (prepare g c) c).compressLength > 0) :
    Force g c = finish (compressed (locate (prepare g c) c) c) c := by
  simp only [Force, h1, h2, if_true]

theorem Force_notCompressed (g : FGLGear) (c : GearCollaborators)
    (h1 : (prepare g c).GearDown = true) (h2 : ¬ (locate (prepare g c) c).compressLength > 0) :
    Force g c = finish (notCompressed (locate (prepare g c) c) c) c := by
  simp only [Force, h1, h2, if_true, if_false]

theorem reportLanding_eq (g : FGLGear) (c : GearCollaborators) :
    reportLanding g c =
      { g with LandingReported := if landingReportDue g c then true else g.LandingReported } := by
  unfold reportLanding
  split_ifs <;> rfl

theorem reportTakeoff_eq (g : FGLGear) (c : GearCollaborators) :
    reportTakeoff g c =
      { g with TakeoffReported := if takeoffReportDue g c then true else g.TakeoffReported } := by
  unfold reportTakeoff
  split_ifs <;> rfl

/-- The gear that `finish` returns: only the distances, the report flags and
`lastWOW` are written. -/
theorem finish_fst (g : FGLGear) (c : GearCollaborators) :
    (finish g c).1 =
      { g with
        LandingDistanceTraveled := (distances g c).LandingDistanceTraveled
        TakeoffDistanceTraveled50ft := (distances g c).TakeoffDistanceTraveled50ft
        TakeoffDistanceTraveled := (distances g c).TakeoffDistanceTraveled
        LandingReported :=
          if landingReportDue (distances g c) c then true else g.LandingReported
        TakeoffReported := if takeoffReportDue g c then true else g.TakeoffReported
        lastWOW := g.WOW } := by
  simp only [finish, reportLanding_eq, reportTakeoff_eq]
  simp [distances, takeoffReportDue]

theorem brakeCoefficient_eq (g : FGLGear) (c : GearCollaborators) :
    brakeCoefficient g c =
      { g with BrakeFCoeff :=
          match g.eBrakeGrp with
          | some bgLeft =>
            g.rollingFCoeff * (1 - c.GetBrake bgLeft) + g.staticFCoeff * c.GetBrake bgLeft
          | some bgRight =>
            g.rollingFCoeff * (1 - c.GetBrake bgRight) + g.staticFCoeff * c.GetBrake bgRight
          | some bgCenter =>
            g.rollingFCoeff * (1 - c.GetBrake bgCenter) + g.staticFCoeff * c.GetBrake bgCenter
          | some bgNose =>
            g.rollingFCoeff * (1 - c.GetBrake bgCenter) + g.staticFCoeff * c.GetBrake bgCenter
          | some bgTail =>
            g.rollingFCoeff * (1 - c.GetBrake bgCenter) + g.staticFCoeff * c.GetBrake bgCenter
          | some bgNone => g.rollingFCoeff
          | none => g.BrakeFCoeff } := by
  cases g
  simp only [brakeCoefficient]
  split <;> simp_all

/-- Members that the branch `compressLength > 0` of `Force` does not write. -/
theorem compressed_frame (g : FGLGear) (c : GearCollaborators) :
    (compressed g c).GearUp = g.GearUp ∧ (compressed g c).GearDown = g.GearDown ∧
    (compressed g c).SteerAngle = g.SteerAngle ∧
    (compressed g c).compressLength = g.compressLength ∧
    (compressed g c).kSpring = g.kSpring ∧ (compressed g c).bDamp = g.bDamp ∧
    (compressed g c).bDampRebound = g.bDampRebound ∧
    (compressed g c).staticFCoeff = g.staticFCoeff ∧
    (compressed g c).dynamicFCoeff = g.dynamicFCoeff ∧
    (compressed g c).rollingFCoeff = g.rollingFCoeff ∧
    (compressed g c).eBrakeGrp = g.eBrakeGrp ∧
    (compressed g c).ForceY_Function = g.ForceY_Function ∧
    (compressed g c).TirePressureNorm = g.TirePressureNorm ∧
    (compressed g c).WOW = true := by
  simp only [compressed]
  simp only [bodyForces]
  simp only [groundPlaneForces]
  simp only [strutForce]
  simp only [sideForceCoefficient]
  simp only [tireSlip]
  simp only [wheelAxisVelocity]
  simp only [brakeCoefficient_eq]
  simp only [takeoffRunStart]
  simp only [firstContact]
  simp only [wheelVelocity]
  simp only [and_self]

/-- Members that the branch "Gear is NOT compressed" of `Force` does not write,
and those it sets. -/
theorem notCompressed_fields (g : FGLGear) (c : GearCollaborators) :
    (notCompressed g c).GearUp = g.GearUp ∧ (notCompressed g c).GearDown = g.GearDown ∧
    (notCompressed g c).vForce = g.vForce ∧ (notCompressed g c).vMoment = g.vMoment ∧
    (notCompressed g c).SinkRate = g.SinkRate ∧
    (notCompressed g c).WOW = false ∧ (notCompressed g c).compressLength = 0 ∧
    (notCompressed g c).SteerAngle = g.SteerAngle * (max (c.GetGearPos - 0.8) 0 / 0.2) := by
  simp [notCompressed]

/-- Members that `finish` does not write. -/
theorem finish_frame (g : FGLGear) (c : GearCollaborators) :
    (finish g c).1.GearUp = g.GearUp ∧ (finish g c).1.GearDown = g.GearDown ∧
    (finish g c).1.vForce = g.vForce ∧ (finish g c).1.vMoment = g.vMoment ∧
    (finish g c).1.SinkRate = g.SinkRate ∧
    (finish g c).1.WOW = g.WOW ∧ (finish g c).1.compressLength = g.compressLength ∧
    (finish g c).1.SteerAngle = g.SteerAngle ∧
    (finish g c).1.compressSpeed = g.compressSpeed ∧
    (finish g c).1.vLocalForce = g.vLocalForce ∧
    (finish g c).1.kSpring = g.kSpring ∧ (finish g c).1.bDamp = g.bDamp ∧
    (finish g c).1.bDampRebound = g.bDampRebound ∧
    (finish g c).1.BrakeFCoeff = g.BrakeFCoeff ∧ (finish g c).1.FCoeff = g.FCoeff ∧
    (finish g c).1.WheelSlip = g.WheelSlip ∧
    (finish g c).1.staticFCoeff = g.staticFCoeff ∧
    (finish g c).1.dynamicFCoeff = g.dynamicFCoeff ∧
    (finish g c).1.rollingFCoeff = g.rollingFCoeff ∧
    (finish g c).1.eBrakeGrp = g.eBrakeGrp ∧
    (finish g c).1.ForceY_Function = g.ForceY_Function := by
  rw [finish_fst]
  simp

/-- Members that `locate` does not write. -/
theorem locate_frame (g : FGLGear) (c : GearCollaborators) :
    (locate g c).GearUp = g.GearUp ∧ (locate g c).GearDown = g.GearDown ∧
    (locate g c).vForce = g.vForce ∧ (locate g c).vMoment = g.vMoment ∧
    (locate g c).SinkRate = g.SinkRate ∧ (locate g c).SteerAngle = g.SteerAngle ∧
    (locate g c).kSpring = g.kSpring ∧ (locate g c).bDamp = g.bDamp ∧
    (locate g c).bDampRebound = g.bDampRebound ∧
    (locate g c).staticFCoeff = g.staticFCoeff ∧
    (locate g c).dynamicFCoeff = g.dynamicFCoeff ∧
    (locate g c).rollingFCoeff = g.rollingFCoeff ∧
    (locate g c).eBrakeGrp = g.eBrakeGrp ∧
    (locate g c).ForceY_Function = g.ForceY_Function := by
  simp [locate]

/-- The gear flags after `Force` are those resolved at its beginning. -/
theorem Force_gear_flags (g : FGLGear) (c : GearCollaborators) :
    (Force g c).1.GearUp = (prepare g c).GearUp ∧
    (Force g c).1.GearDown = (prepare g c).GearDown := by
  cases h1 : (prepare g c).GearDown
  · rw [Force_up g c h1]
    exact ⟨rfl, h1⟩
  · by_cases h2 : (locate (prepare g c) c).compressLength > 0
    · rw [Force_compressed g c h1 h2, (finish_frame _ c).1, (finish_frame _ c).2.1,
        (compressed_frame _ c).1, (compressed_frame _ c).2.1, (locate_frame _ c).1,
        (locate_frame _ c).2.1]
      exact ⟨rfl, h1⟩
    · rw [Force_notCompressed g c h1 h2, (finish_frame _ c).1, (finish_frame _ c).2.1,
        (notCompressed_fields _ c).1, (notCompressed_fields _ c).2.1, (locate_frame _ c).1,
        (locate_frame _ c).2.1]
      exact ⟨rfl, h1⟩

theorem locate_compressLength (g : FGLGear) (c : GearCollaborators) :
    (locate (prepare g c) c).compressLength = - AGLevel g c := by
  simp [locate, prepare_eq, AGLevel]

/-- A call of `Force` on a gear that is down and below the ground level runs the
branch `compressLength > 0`. -/
theorem Force_in_contact (g : FGLGear) (c : GearCollaborators)
    (hdown : (Force g c).1.GearDown = true) (hagl : AGLevel g c < 0) :
    Force g c = finish (compressed (locate (prepare g c) c) c) c := by
  rw [(Force_gear_flags g c).2] at hdown
  exact Force_compressed g c hdown (by rw [locate_compressLength]; linarith)

/-- A call of `Force` on a gear that is down and not below the ground level runs
the branch "Gear is NOT compressed". -/
theorem Force_off_ground (g : FGLGear) (c : GearCollaborators)
    (hdown : (Force g c).1.GearDown = true) (hagl : 0 ≤ AGLevel g c) :
    Force g c = finish (notCompressed (locate (prepare g c) c) c) c := by
  rw [(Force_gear_flags g c).2] at hdown
  exact Force_notCompressed g c hdown (by rw [locate_compressLength]; linarith)

/-- A gear that is not retractable is down after `Force`. -/
theorem Force_GearDown_of_fixed (g : FGLGear) (c : GearCollaborators)
    (h : g.isRetractable = 0) : (Force g c).1.GearDown = true := by
  rw [(Force_gear_flags g c).2, prepare_eq]
  simp [h]

/-- On a gear that is down, `Force` ends with `finish`. -/
theorem Force_down_finish (g : FGLGear) (c : GearCollaborators)
    (hdown : (Force g c).1.GearDown = true) :
    ∃ x : FGLGear, Force g c = finish x c := by
  by_cases hagl : AGLevel g c < 0
  · exact ⟨_, Force_in_contact g c hdown hagl⟩
  · exact ⟨_, Force_off_ground g c hdown (not_lt.mp hagl)⟩

/-- The number of crash messages and of suspension requests that `finish` emits. -/
theorem finish_crash_events (g : FGLGear) (c : GearCollaborators) :
    (finish g c).2.count GearEvent.Suspend = (if crashDetected (finish g c).1 then 1 else 0) ∧
    (finish g c).2.count GearEvent.CrashDetected =
      (if crashDetected (finish g c).1 then 1 else 0) := by
  simp only [finish]
  split_ifs <;> simp

/-! ### Landing gear: gear position, free gear, crash detection -/

/-- C17: gear position resolution.  For a retractable gear and gear-position
command p, after `Force` GearUp is true iff p < 0.01 and GearDown is true iff
p > 0.99 (both false for 0.01 <= p <= 0.99); for a non-retractable gear
GearDown is true and GearUp false for every p; GearUp and GearDown are never
both true. -/
theorem Force_gear_position (g : FGLGear) (c : GearCollaborators) :
    (g.isRetractable ≠ 0 →
      ((Force g c).1.GearUp = true ↔ c.GetGearPos < 0.01) ∧
      ((Force g c).1.GearDown = true ↔ c.GetGearPos > 0.99) ∧
      (0.01 ≤ c.GetGearPos → c.GetGearPos ≤ 0.99 →
        (Force g c).1.GearUp = false ∧ (Force g c).1.GearDown = false)) ∧
    (g.isRetractable = 0 → (Force g c).1.GearDown = true ∧ (Force g c).1.GearUp = false) ∧
    ¬ ((Force g c).1.GearUp = true ∧ (Force g c).1.GearDown = true) := by
  obtain ⟨e1, e2⟩ := Force_gear_flags g c
  rw [e1, e2, prepare_eq]
  simp only
  refine ⟨fun hr => ⟨?_, ?_, fun h1 h2 => ?_⟩, fun hr => ?_, ?_⟩
  · simp [hr]
  · simp only [hr, ne_eq, not_false_eq_true, if_true]
    by_cases h1 : c.GetGearPos < 0.01
    · have h2 : ¬ c.GetGearPos > 0.99 := by
        intro h; norm_num at h h1; linarith
      simp [h1, h2]
    · by_cases h2 : c.GetGearPos > 0.99 <;> simp [h1, h2]
  · have h1' : ¬ c.GetGearPos < 0.01 := not_lt.mpr h1
    have h2' : ¬ c.GetGearPos > 0.99 := not_lt.mpr h2
    simp [hr, h1', h2']
  · simp [hr]
  · by_cases hr : g.isRetractable = 0
    · simp [hr]
    · by_cases h1 : c.GetGearPos < 0.01 <;> simp [hr, h1]

/-- Witness for C17: a retractable gear with the lever halfway is neither up nor down. -/
theorem Force_gear_position_witness :
    (Force { newGear with isRetractable := 1 } { standingTick 5 with GetGearPos := 1 / 2 }).1.GearUp
        = false ∧
    (Force { newGear with isRetractable := 1 }
      { standingTick 5 with GetGearPos := 1 / 2 }).1.GearDown = false :=
  (Force_gear_position { newGear with isRetractable := 1 }
    { standingTick 5 with GetGearPos := 1 / 2 }).1 (by decide) |>.2.2
    (by norm_num) (by norm_num)

/-- C18: gear down but not touching.  For every call of `Force` on a down gear
whose height above ground is non-negative (computed compression <= 0), after
the call WOW is false, compressLength is 0, and the returned force vector and
the moment vector are both (0, 0, 0). -/
theorem Force_gear_down_free (g : FGLGear) (c : GearCollaborators)
    (hdown : (Force g c).1.GearDown = true) (hagl : 0 ≤ AGLevel g c) :
    (Force g c).1.WOW = false ∧ (Force g c).1.compressLength = 0 ∧
    (Force g c).1.vForce = ⟨0, 0, 0⟩ ∧ (Force g c).1.vMoment = ⟨0, 0, 0⟩ := by
  rw [Force_off_ground g c hdown hagl]
  obtain ⟨-, -, f3, f4, -, f6, f7, -⟩ := finish_frame (notCompressed (locate (prepare g c) c) c) c
  obtain ⟨-, -, n3, n4, -, n6, n7, -⟩ := notCompressed_fields (locate (prepare g c) c) c
  obtain ⟨-, -, l3, l4, -⟩ := locate_frame (prepare g c) c
  rw [f3, f4, f6, f7, n3, n4, n6, n7, l3, l4, prepare_eq]
  exact ⟨rfl, rfl, rfl, rfl⟩

/-- Witness for C18: the new gear five units above the ground. -/
theorem Force_gear_down_free_witness :
    (Force newGear (standingTick 5)).1.WOW = false ∧
    (Force newGear (standingTick 5)).1.compressLength = 0 ∧
    (Force newGear (standingTick 5)).1.vForce = ⟨0, 0, 0⟩ ∧
    (Force newGear (standingTick 5)).1.vMoment = ⟨0, 0, 0⟩ :=
  Force_gear_down_free newGear (standingTick 5)
    (Force_GearDown_of_fixed newGear (standingTick 5) rfl)
    (by norm_num [AGLevel, standingTick])

/-- C16: crash detection.  On every call of `Force` on a gear that is down, the
crash message and the suspension request are emitted, exactly once each, if
at the end of the call compressLength > 500, or the force magnitude exceeds
1e8, or the moment magnitude exceeds 5e9, or the latched SinkRate exceeds
1.4666*30, and neither is emitted otherwise; in particular an in-contact
compression of 600 triggers them. -/
theorem Force_crash_detection (g : FGLGear) (c : GearCollaborators)
    (hdown : (Force g c).1.GearDown = true) :
    (((Force g c).1.compressLength > 500 ∨
        (Force g c).1.vForce.MagnitudeExceeds 100000000 ∨
        (Force g c).1.vMoment.MagnitudeExceeds 5000000000 ∨
        (Force g c).1.SinkRate > 1.4666 * 30) →
      (Force g c).2.count GearEvent.Suspend = 1 ∧
      (Force g c).2.count GearEvent.CrashDetected = 1) ∧
    (¬ ((Force g c).1.compressLength > 500 ∨
        (Force g c).1.vForce.MagnitudeExceeds 100000000 ∨
        (Force g c).1.vMoment.MagnitudeExceeds 5000000000 ∨
        (Force g c).1.SinkRate > 1.4666 * 30) →
      GearEvent.Suspend ∉ (Force g c).2 ∧ GearEvent.CrashDetected ∉ (Force g c).2) ∧
    (AGLevel g c = -600 →
      (Force g c).1.compressLength = 600 ∧
      (Force g c).2.count GearEvent.Suspend = 1 ∧
      (Force g c).2.count GearEvent.CrashDetected = 1) := by
  have key : ∀ x : FGLGear, crashDetected (finish x c).1 →
      (finish x c).2.count GearEvent.Suspend = 1 ∧
      (finish x c).2.count GearEvent.CrashDetected = 1 := by
    intro x h
    obtain ⟨e1, e2⟩ := finish_crash_events x c
    rw [e1, e2, if_pos h]
    exact ⟨rfl, rfl⟩
  refine ⟨?_, ?_, ?_⟩
  · obtain ⟨x, hx⟩ := Force_down_finish g c hdown
    rw [hx]
    exact key x
  · obtain ⟨x, hx⟩ := Force_down_finish g c hdown
    rw [hx]
    intro h
    have h' : ¬ crashDetected (finish x c).1 := h
    obtain ⟨e1, e2⟩ := finish_crash_events x c
    rw [if_neg h'] at e1 e2
    exact ⟨List.count_eq_zero.mp e1, List.count_eq_zero.mp e2⟩
  · intro h600
    have hc := Force_in_contact g c hdown (by rw [h600]; norm_num)
    have hlen : (Force g c).1.compressLength = 600 := by
      rw [hc, (finish_frame _ c).2.2.2.2.2.2.1, (compressed_frame _ c).2.2.2.1,
        locate_compressLength, h600]
      norm_num
    refine ⟨hlen, ?_⟩
    have hcr : crashDetected (Force g c).1 := Or.inl (by rw [hlen]; norm_num)
    rw [hc] at hcr ⊢
    exact key _ hcr

/-- Witness for C16: the new gear 600 units below the ground level. -/
theorem Force_crash_detection_witness :
    (Force newGear (standingTick (-600))).1.compressLength = 600 ∧
    (Force newGear (standingTick (-600))).2.count GearEvent.Suspend = 1 ∧
    (Force newGear (standingTick (-600))).2.count GearEvent.CrashDetected = 1 :=
  (Force_crash_detection newGear (standingTick (-600))
    (Force_GearDown_of_fixed newGear (standingTick (-600)) rfl)).2.2
    (by norm_num [AGLevel, standingTick])

/-! ### Landing gear: strut force and friction coefficients -/

/-- The vertical strut force, the braking friction coefficient and the side
force coefficient that the branch `compressLength > 0` of `Force` leaves. -/
theorem compressed_forces (g : FGLGear) (c : GearCollaborators) :
    (compressed g c).vLocalForce.eZ =
      min (-g.compressLength * g.kSpring +
        (if (compressed g c).compressSpeed ≥ 0 then -(compressed g c).compressSpeed * g.bDamp
         else -(compressed g c).compressSpeed * g.bDampRebound)) 0 ∧
    (compressed g c).BrakeFCoeff = (brakeCoefficient g c).BrakeFCoeff ∧
    (compressed g c).FCoeff =
      (if g.ForceY_Function = true then c.ForceY_FunctionValue
       else if |(compressed g c).WheelSlip| ≤ 10 then
         g.staticFCoeff * (compressed g c).WheelSlip / 10
       else if |(compressed g c).WheelSlip| ≤ 40 then
         (g.dynamicFCoeff * (|(compressed g c).WheelSlip| - 10) / 10 +
           g.staticFCoeff * (40 - |(compressed g c).WheelSlip|) / 10) *
           |(compressed g c).WheelSlip| / (compressed g c).WheelSlip
       else g.dynamicFCoeff * |(compressed g c).WheelSlip| / (compressed g c).WheelSlip) := by
  simp only [compressed]
  simp only [bodyForces]
  simp only [groundPlaneForces]
  simp only [strutForce]
  simp only [sideForceCoefficient]
  simp only [tireSlip]
  simp only [wheelAxisVelocity]
  simp only [brakeCoefficient_eq]
  simp only [takeoffRunStart]
  simp only [firstContact]
  simp only [wheelVelocity]
  simp only [and_self]

/-- C14: strut force.  On every in-contact call of `Force` (gear down,
compressLength > 0) the vertical local force equals
min(-compressLength*kSpring - compressSpeed*d, 0), where d is the compression
damping coefficient when compressSpeed >= 0 and the rebound damping
coefficient otherwise; hence it is never positive, and for compressLength = 2,
compressSpeed = 0, kSpring = 1000 it is -2000. -/
theorem Force_strut_force (g : FGLGear) (c : GearCollaborators)
    (hdown : (Force g c).1.GearDown = true) (hagl : AGLevel g c < 0) :
    (Force g c).1.compressLength = - AGLevel g c ∧ (Force g c).1.compressLength > 0 ∧
    (Force g c).1.vLocalForce.eZ =
      min (-(Force g c).1.compressLength * (Force g c).1.kSpring -
        (Force g c).1.compressSpeed *
          (if (Force g c).1.compressSpeed ≥ 0 then (Force g c).1.bDamp
           else (Force g c).1.bDampRebound)) 0 ∧
    (Force g c).1.vLocalForce.eZ ≤ 0 ∧
    ((Force g c).1.compressLength = 2 → (Force g c).1.compressSpeed = 0 →
      (Force g c).1.kSpring = 1000 → (Force g c).1.vLocalForce.eZ = -2000) := by
  have hc := Force_in_contact g c hdown hagl
  obtain ⟨-, -, -, -, -, -, f7, -, f9, f10, f11, f12, f13, -⟩ :=
    finish_frame (compressed (locate (prepare g c) c) c) c
  obtain ⟨-, -, -, k4, k5, k6, k7, -⟩ := compressed_frame (locate (prepare g c) c) c
  have hlen : (Force g c).1.compressLength = - AGLevel g c := by
    rw [hc, f7, k4, locate_compressLength]
  have hz : (Force g c).1.vLocalForce.eZ =
      min (-(Force g c).1.compressLength * (Force g c).1.kSpring -
        (Force g c).1.compressSpeed *
          (if (Force g c).1.compressSpeed ≥ 0 then (Force g c).1.bDamp
           else (Force g c).1.bDampRebound)) 0 := by
    rw [hc, f7, f9, f10, f11, f12, f13, k4, k5, k6, k7,
      (compressed_forces (locate (prepare g c) c) c).1]
    congr 1
    split_ifs <;> ring
  refine ⟨hlen, by rw [hlen]; linarith, hz, ?_, ?_⟩
  · rw [hz]; exact min_le_right _ _
  · intro h1 h2 h3
    rw [hz, h1, h2, h3]
    norm_num

/-- The new gear standing two units below the ground level: compression 2, no
compression speed. -/
theorem Force_standing_fields :
    (Force newGear (standingTick (-2))).1.compressLength = 2 ∧
    (Force newGear (standingTick (-2))).1.compressSpeed = 0 ∧
    (Force newGear (standingTick (-2))).1.kSpring = 1000 := by
  have hdown := Force_GearDown_of_fixed newGear (standingTick (-2)) rfl
  have hc := Force_in_contact newGear (standingTick (-2)) hdown
    (by norm_num [AGLevel, standingTick])
  obtain ⟨-, -, -, -, -, -, f7, -, f9, -, f11, -⟩ :=
    finish_frame (compressed (locate (prepare newGear (standingTick (-2))) (standingTick (-2)))
      (standingTick (-2))) (standingTick (-2))
  obtain ⟨-, -, -, k4, k5, -⟩ :=
    compressed_frame (locate (prepare newGear (standingTick (-2))) (standingTick (-2)))
      (standingTick (-2))
  refine ⟨?_, ?_, ?_⟩
  · rw [hc, f7, k4, locate_compressLength]
    norm_num [AGLevel, standingTick]
  · rw [hc, f9]
    simp only [compressed]
    simp only [bodyForces]
    simp only [groundPlaneForces]
    simp only [strutForce]
    simp only [sideForceCoefficient]
    simp only [tireSlip]
    simp only [wheelAxisVelocity]
    simp only [brakeCoefficient_eq]
    simp only [takeoffRunStart]
    simp only [firstContact]
    simp only [wheelVelocity]
    norm_num [locate, prepare_eq, cvel, standingTick, newGear, identityMatrix,
      FGMatrix33.mulVec, FGColumnVector3.cross, FGColumnVector3.add, FGColumnVector3.sub]
  · rw [hc, f11, k5, (locate_frame _ _).2.2.2.2.2.2.1, prepare_eq]
    rfl

/-- Witness for C14: the new gear two units below the ground level, at rest, with
kSpring = 1000: the vertical local force is -2000. -/
theorem Force_strut_force_witness :
    (Force newGear (standingTick (-2))).1.vLocalForce.eZ = -2000 :=
  (Force_strut_force newGear (standingTick (-2))
      (Force_GearDown_of_fixed newGear (standingTick (-2)) rfl)
      (by norm_num [AGLevel, standingTick])).2.2.2.2
    Force_standing_fields.1 Force_standing_fields.2.1 Force_standing_fields.2.2

/-- C20: braking friction coefficient.  On every in-contact call of `Force`,
BrakeFCoeff = rollingFCoeff*(1 - b) + staticFCoeff*b, where b is the Left brake
command for a Left gear, the Right command for a Right gear and the Center
command for Center, Nose and Tail gears, and BrakeFCoeff = rollingFCoeff for
group None; when 0 <= b <= 1 and rollingFCoeff <= staticFCoeff the coefficient
lies between rollingFCoeff and staticFCoeff. -/
theorem Force_brake_coefficient (g : FGLGear) (c : GearCollaborators) (grp : BrakeGroup)
    (hdown : (Force g c).1.GearDown = true) (hagl : AGLevel g c < 0)
    (hgrp : (Force g c).1.eBrakeGrp = some grp) :
    (Force g c).1.BrakeFCoeff =
      (Force g c).1.rollingFCoeff * (1 - brakeCommandSpec c grp) +
        (Force g c).1.staticFCoeff * brakeCommandSpec c grp ∧
    (grp = bgNone → (Force g c).1.BrakeFCoeff = (Force g c).1.rollingFCoeff) ∧
    (0 ≤ brakeCommandSpec c grp → brakeCommandSpec c grp ≤ 1 →
      (Force g c).1.rollingFCoeff ≤ (Force g c).1.staticFCoeff →
      (Force g c).1.rollingFCoeff ≤ (Force g c).1.BrakeFCoeff ∧
      (Force g c).1.BrakeFCoeff ≤ (Force g c).1.staticFCoeff) := by
  have hc := Force_in_contact g c hdown hagl
  obtain ⟨-, -, -, -, -, -, -, -, -, -, -, -, -, f14, -, -, f17, -, f19, f20, -⟩ :=
    finish_frame (compressed (locate (prepare g c) c) c) c
  obtain ⟨-, -, -, -, -, -, -, k8, -, k10, k11, -⟩ :=
    compressed_frame (locate (prepare g c) c) c
  rw [hc, f20, k11] at hgrp
  have hb : (Force g c).1.BrakeFCoeff =
      (Force g c).1.rollingFCoeff * (1 - brakeCommandSpec c grp) +
        (Force g c).1.staticFCoeff * brakeCommandSpec c grp := by
    rw [hc, f14, f17, f19, k8, k10, (compressed_forces _ c).2.1, brakeCoefficient_eq]
    simp only [hgrp]
    cases grp <;> simp [brakeCommandSpec]
  refine ⟨hb, ?_, ?_⟩
  · intro hn
    rw [hb, hn]
    simp [brakeCommandSpec]
  · intro h0 h1 hrs
    rw [hb]
    constructor <;> nlinarith

/-- Witness for C20: a nose gear with the center brake half applied, standing two
units below the ground level. -/
theorem Force_brake_coefficient_witness :
    (Force { newGear with eBrakeGrp := some bgNose }
        { standingTick (-2) with GetBrake := fun _ => 1 / 2 }).1.BrakeFCoeff =
      (Force { newGear with eBrakeGrp := some bgNose }
        { standingTick (-2) with GetBrake := fun _ => 1 / 2 }).1.rollingFCoeff *
          (1 - brakeCommandSpec { standingTick (-2) with GetBrake := fun _ => 1 / 2 } bgNose) +
      (Force { newGear with eBrakeGrp := some bgNose }
        { standingTick (-2) with GetBrake := fun _ => 1 / 2 }).1.staticFCoeff *
          brakeCommandSpec { standingTick (-2) with GetBrake := fun _ => 1 / 2 } bgNose :=
  (Force_brake_coefficient { newGear with eBrakeGrp := some bgNose }
    { standingTick (-2) with GetBrake := fun _ => 1 / 2 } bgNose
    (Force_GearDown_of_fixed _ _ rfl) (by norm_num [AGLevel, standingTick])
    (by
      rw [Force_in_contact _ _ (Force_GearDown_of_fixed _ _ rfl)
        (by norm_num [AGLevel, standingTick]), (finish_frame _ _).2.2.2.2.2.2.2.2.2.2.2.2.2.2.2.2.2.2.2.1,
        (compressed_frame _ _).2.2.2.2.2.2.2.2.2.2.1, (locate_frame _ _).2.2.2.2.2.2.2.2.2.2.2.2.1,
        prepare_eq])).1

/-- C15, the code at a failing input: with a wheel slip of 20 degrees,
staticFCoeff = 0.8, dynamicFCoeff = 0.5 and no cornering curve, `Force` sets
FCoeff = 2.1, which is neither between the two coefficients nor the value 0.7
of the linear blend that equals staticFCoeff at 10 and dynamicFCoeff at 40
degrees: the two weights (|s| - 10)/10 and (40 - |s|)/10 add up to 3. -/
theorem Force_side_coefficient_at_slip_20 :
    (Force skiddingGear slowRollTick).1.GearDown = true ∧
    (Force skiddingGear slowRollTick).1.compressLength = 2 ∧
    (Force skiddingGear slowRollTick).1.WheelSlip = 20 ∧
    (Force skiddingGear slowRollTick).1.staticFCoeff = 4 / 5 ∧
    (Force skiddingGear slowRollTick).1.dynamicFCoeff = 1 / 2 ∧
    (Force skiddingGear slowRollTick).1.ForceY_Function = false ∧
    (Force skiddingGear slowRollTick).1.FCoeff = 21 / 10 := by
  have hdown := Force_GearDown_of_fixed skiddingGear slowRollTick rfl
  have hagl : AGLevel skiddingGear slowRollTick < 0 := by
    norm_num [AGLevel, slowRollTick, standingTick]
  have hc := Force_in_contact skiddingGear slowRollTick hdown hagl
  obtain ⟨-, -, -, -, -, -, f7, -, -, -, -, -, -, -, f15, f16, f17, f18, -, -, f21⟩ :=
    finish_frame (compressed (locate (prepare skiddingGear slowRollTick) slowRollTick)
      slowRollTick) slowRollTick
  obtain ⟨-, -, -, k4, -, -, -, k8, k9, -, -, k12, -⟩ :=
    compressed_frame (locate (prepare skiddingGear slowRollTick) slowRollTick) slowRollTick
  obtain ⟨-, -, -, -, -, -, -, -, -, l10, l11, -, -, l14⟩ :=
    locate_frame (prepare skiddingGear slowRollTick) slowRollTick
  have hslip : (compressed (locate (prepare skiddingGear slowRollTick) slowRollTick)
      slowRollTick).WheelSlip = 20 := by
    simp only [compressed]
    simp only [bodyForces]
    simp only [groundPlaneForces]
    simp only [strutForce]
    simp only [sideForceCoefficient]
    simp only [tireSlip]
    simp only [wheelAxisVelocity]
    simp only [brakeCoefficient_eq]
    simp only [takeoffRunStart]
    simp only [firstContact]
    simp only [wheelVelocity]
    norm_num [locate, prepare_eq, cvel, SinWheel, CosWheel, slowRollTick, standingTick,
      skiddingGear, newGear, identityMatrix, FGMatrix33.mulVec, FGColumnVector3.cross,
      FGColumnVector3.add, FGColumnVector3.sub, abs_of_pos]
  have hstat : (locate (prepare skiddingGear slowRollTick) slowRollTick).staticFCoeff = 4 / 5 := by
    rw [l10, prepare_eq]; norm_num [skiddingGear, newGear]
  have hdyn : (locate (prepare skiddingGear slowRollTick) slowRollTick).dynamicFCoeff = 1 / 2 := by
    rw [l11, prepare_eq]; norm_num [skiddingGear, newGear]
  have hfun : (locate (prepare skiddingGear slowRollTick) slowRollTick).ForceY_Function
      = false := by
    rw [l14, prepare_eq]; rfl
  refine ⟨hdown, ?_, ?_, ?_, ?_, ?_, ?_⟩
  · rw [hc, f7, k4, locate_compressLength]
    norm_num [AGLevel, slowRollTick, standingTick]
  · rw [hc, f16, hslip]
  · rw [hc, f17, k8, hstat]
  · rw [hc, f18, k9, hdyn]
  · rw [hc, f21, k12, hfun]
  · rw [hc, f15, (compressed_forces _ _).2.2, hslip, hstat, hdyn, hfun]
    norm_num [abs_of_pos]

/-- C19, the code at a failing input: for a retractable steerable gear with the
gear-position command at 0.9 and a steering command of 10 degrees, `Force`
leaves the steer angle at the full commanded angle, not at the commanded
angle times max(0.9 - 0.8, 0)/0.2 = 1/2: the gear is not down, so the blend
toward neutral is never reached. -/
theorem Force_steer_angle_in_transit :
    retractableSteerGear.isRetractable ≠ 0 ∧ retractableSteerGear.eSteerType = stSteer ∧
    retractingTick.GetGearPos = 9 / 10 ∧
    (Force retractableSteerGear retractingTick).1.GearDown = false ∧
    (Force retractableSteerGear retractingTick).1.SteerAngle =
      retractingTick.degtorad * retractingTick.GetSteerPosDeg ∧
    (Force retractableSteerGear retractingTick).1.SteerAngle ≠
      retractingTick.degtorad * retractingTick.GetSteerPosDeg *
        (max (retractingTick.GetGearPos - 0.8) 0 / 0.2) := by
  have hup : (prepare retractableSteerGear retractingTick).GearDown = false := by
    rw [prepare_eq]
    norm_num [retractableSteerGear, newGear, retractingTick, standingTick]
  have hsteer : (Force retractableSteerGear retractingTick).1.SteerAngle =
      retractingTick.degtorad * retractingTick.GetSteerPosDeg := by
    rw [Force_up _ _ hup, prepare_eq]
    simp [retractableSteerGear, newGear]
  refine ⟨by decide, rfl, rfl, ?_, hsteer, ?_⟩
  · rw [(Force_gear_flags _ _).2, hup]
  · rw [hsteer]
    norm_num [retractingTick, standingTick]

/-! ### Iterated rate limiter, fuel-flow floor, stopped rotor, motoring -/

/-- A `Seek` step downward from a value already clamped at the target is the
clamp of the lowered value. -/
theorem Seek_max_step (dt T a r d : ℚ) (h : 0 ≤ dt * d) :
    Seek dt (max a T) T r d = max (a - dt * d) T := by
  simp only [Seek]
  by_cases haT : T < a
  · have h1 : max a T = a := max_eq_left haT.le
    rw [h1]
    simp only [gt_iff_lt, haT, if_true]
    split_ifs with h3
    · exact (max_eq_right h3.le).symm
    · exact (max_eq_left (not_lt.mp h3)).symm
  · have h1 : max a T = T := max_eq_right (not_lt.mp haT)
    rw [h1]
    simp only [gt_iff_lt, lt_irrefl, if_false]
    exact (max_eq_right (by linarith [not_lt.mp haT])).symm

/-- Closed form of the iterated `Seek` from below the target. -/
theorem iterateSeek_below (dt v t accel decel : ℚ) (hv : v ≤ t) (h : 0 ≤ dt * accel) (n : ℕ) :
    iterateSeek dt t accel decel n v = min (v + n * (dt * accel)) t := by
  induction n with
  | zero => simp [iterateSeek, hv]
  | succ k ih =>
    simp only [iterateSeek, ih, Seek_min_step _ _ _ _ _ h]
    push_cast
    ring_nf

/-- Closed form of the iterated `Seek` from above the target. -/
theorem iterateSeek_above (dt v t accel decel : ℚ) (hv : t ≤ v) (h : 0 ≤ dt * decel) (n : ℕ) :
    iterateSeek dt t accel decel n v = max (v - n * (dt * decel)) t := by
  induction n with
  | zero => simp [iterateSeek, hv]
  | succ k ih =>
    simp only [iterateSeek, ih, Seek_max_step _ _ _ _ _ h]
    push_cast
    ring_nf

/-- C22: iterated `Seek` converges without oscillation.  For a fixed target,
positive rates and a positive time step, the sequence v, Seek v,
Seek (Seek v), ... is monotone, never crosses the target, equals the target
exactly for every n with n*rate*dt >= |v - t| (rate = accel below the target,
decel above it), and stays at the target thereafter (the target is a fixed
point). -/
theorem iterateSeek_converges (dt v t accel decel : ℚ) (hdt : 0 < dt) (ha : 0 < accel)
    (hd : 0 < decel) :
    ((∀ n, iterateSeek dt t accel decel n v ≤ iterateSeek dt t accel decel (n + 1) v) ∨
      (∀ n, iterateSeek dt t accel decel (n + 1) v ≤ iterateSeek dt t accel decel n v)) ∧
    (v ≤ t → ∀ n, iterateSeek dt t accel decel n v ≤ t) ∧
    (t ≤ v → ∀ n, t ≤ iterateSeek dt t accel decel n v) ∧
    (∀ n : ℕ, |v - t| ≤ n * (if v < t then accel else decel) * dt →
      iterateSeek dt t accel decel n v = t) ∧
    (∀ n m : ℕ, iterateSeek dt t accel decel n v = t → n ≤ m →
      iterateSeek dt t accel decel m v = t) ∧
    Seek dt t t accel decel = t := by
  have hA : 0 < dt * accel := mul_pos hdt ha
  have hD : 0 < dt * decel := mul_pos hdt hd
  have hfix : Seek dt t t accel decel = t := Seek_self dt t accel decel
  have hstay : ∀ n m : ℕ, iterateSeek dt t accel decel n v = t → n ≤ m →
      iterateSeek dt t accel decel m v = t := by
    intro n m hn hnm
    induction m with
    | zero =>
      have : n = 0 := Nat.le_zero.mp hnm
      rw [this] at hn
      exact hn
    | succ k ih =>
      rcases Nat.lt_or_ge n (k + 1) with h | h
      · have := ih (Nat.lt_succ_iff.mp h)
        simp only [iterateSeek, this, hfix]
      · have : n = k + 1 := le_antisymm hnm h
        rw [this] at hn
        exact hn
  rcases le_total v t with hv | hv
  · have cf := iterateSeek_below dt v t accel decel hv hA.le
    refine ⟨Or.inl fun n => ?_, fun _ n => ?_, fun hv' n => ?_, fun n hn => ?_, hstay, hfix⟩
    · rw [cf, cf]
      refine min_le_min ?_ le_rfl
      push_cast
      nlinarith
    · rw [cf]; exact min_le_right _ _
    · have hvt : v = t := le_antisymm hv hv'
      rw [cf, hvt]
      exact le_of_eq (min_eq_right (by
        have : (0 : ℚ) ≤ n := Nat.cast_nonneg n
        nlinarith)).symm
    · rw [cf]
      rcases lt_or_eq_of_le hv with hlt | heq
      · rw [if_pos hlt, abs_of_neg (sub_neg.mpr hlt)] at hn
        exact min_eq_right (by nlinarith)
      · have : (0 : ℚ) ≤ n := Nat.cast_nonneg n
        exact min_eq_right (by rw [heq]; nlinarith)
  · have cf := iterateSeek_above dt v t accel decel hv hD.le
    refine ⟨Or.inr fun n => ?_, fun hv' n => ?_, fun _ n => ?_, fun n hn => ?_, hstay, hfix⟩
    · rw [cf, cf]
      refine max_le_max ?_ le_rfl
      push_cast
      nlinarith
    · have hvt : v = t := le_antisymm hv' hv
      rw [cf, hvt]
      exact le_of_eq (max_eq_right (by
        have : (0 : ℚ) ≤ n := Nat.cast_nonneg n
        nlinarith))
    · rw [cf]; exact le_max_right _ _
    · rw [cf]
      rcases lt_or_eq_of_le hv with hlt | heq
      · rw [if_neg (not_lt.mpr hv), abs_of_pos (sub_pos.mpr hlt)] at hn
        exact max_eq_right (by nlinarith)
      · have : (0 : ℚ) ≤ n := Nat.cast_nonneg n
        exact max_eq_right (by rw [← heq]; nlinarith)

/-- Witness for C22: from 0 toward 10 at rate 3 with time step 1, the target is
reached after four steps. -/
theorem iterateSeek_converges_witness : iterateSeek 1 10 3 2 4 0 = 10 :=
  (iterateSeek_converges 1 0 10 3 2 (by norm_num) (by norm_num) (by norm_num)).2.2.2.1 4
    (by norm_num)

/-- When the rules of `Calculate` select `tpOff`, the rotor speeds seen by `Off`
are those the tick began with. -/
theorem selectPhase_off_fields (s : FGSimTurbine) (c : Collaborators)
    (h : (selectPhase s c).phase = tpOff) :
    (selectPhase s c).N1 = s.N1 ∧ (selectPhase s c).N2 = s.N2 := by
  by_cases hT : s.phase = tpTrim ∧ 0 < c.Getdt * c.GetRate
  · obtain ⟨hT1, hT2⟩ := hT
    by_cases hRV : s.Running = true ∧ s.Starved = false
    · exfalso
      rw [selectPhase_leave_trim_run s c hT1 hT2 hRV.1 hRV.2] at h
      revert h
      cases s.Seized <;> cases s.Stalled <;> simp
    · rw [selectPhase_leave_trim_off s c hT1 hT2 hRV]
      simp [readInputs]
  · have h1 : leaveTrim (readInputs s c) = readInputs s c :=
      leaveTrim_of_not _ (by simpa [readInputs] using hT)
    rw [selectPhase_eq, h1]
    simp [readInputs]

/-- C27: a stopped rotor never windmills in `Off`.  On every tick whose handler
is `Off`, for every time step and every dynamic pressure, N2 = 0 before the
tick implies N2 = 0 after it, and likewise N1 = 0 stays 0: the `Seek` rates
passed are N/2, which is zero. -/
theorem Off_stopped_rotor_stays (s : FGSimTurbine) (c : Collaborators)
    (hsel : (selectPhase s c).phase = tpOff) :
    Calculate s c = storeThrust (Off (selectPhase s c) c) ∧
    (s.N2 = 0 → (Calculate s c).1.N2 = 0) ∧ (s.N1 = 0 → (Calculate s c).1.N1 = 0) := by
  obtain ⟨f1, f2⟩ := selectPhase_off_fields s c hsel
  have hc : Calculate s c = storeThrust (Off (selectPhase s c) c) := by
    rw [Calculate, dispatch_tpOff _ _ hsel]
  refine ⟨hc, fun h => ?_, fun h => ?_⟩
  · rw [hc]
    simp [storeThrust, Off, f2, h, Seek_zero_rates]
  · rw [hc]
    simp [storeThrust, Off, f1, h, Seek_zero_rates]

/-- Witness for C27: the default engine at rest in fast flight (dynamic pressure 1600). -/
theorem Off_stopped_rotor_stays_witness :
    (Calculate defaultEngine fastFlightTick).1.N2 = 0 ∧
    (Calculate defaultEngine fastFlightTick).1.N1 = 0 :=
  ⟨(Off_stopped_rotor_stays defaultEngine fastFlightTick
      (by rw [selectPhase_of_not_trim _ _ (by decide)]
          norm_num +decide [rulePhase, readInputs, defaultEngine, fastFlightTick,
            groundTick])).2.1 rfl,
   (Off_stopped_rotor_stays defaultEngine fastFlightTick
      (by rw [selectPhase_of_not_trim _ _ (by decide)]
          norm_num +decide [rulePhase, readInputs, defaultEngine, fastFlightTick,
            groundTick])).2.2 rfl⟩

/-- C30: `SpinUp` does not end when the starter is released.  For every engine
in phase `tpSpinUp` with Cutoff true, Running false, a positive time step and
none of Starved, Stalled, Seized set, `Calculate` keeps the phase `tpSpinUp`
and takes the `Seek` step of N2 toward 25.18 (so N2 rises while below
25.18 and never exceeds it), whether Starter is true or false. -/
theorem SpinUp_persists (s : FGSimTurbine) (c : Collaborators)
    (hp : s.phase = tpSpinUp) (hC : s.Cutoff = true) (hR : s.Running = false)
    (hdt : 0 < c.Getdt * c.GetRate)
    (hV : s.Starved = false) (hL : s.Stalled = false) (hZ : s.Seized = false) :
    (selectPhase s c).phase = tpSpinUp ∧
    Calculate s c = storeThrust (SpinUp (selectPhase s c)) ∧
    (Calculate s c).1.phase = tpSpinUp ∧
    (Calculate s c).1.N2 = Seek (c.Getdt * c.GetRate) s.N2 25.18 3 (s.N2 / 2) ∧
    (s.N2 < 25.18 → s.N2 < (Calculate s c).1.N2 ∧ (Calculate s c).1.N2 ≤ 25.18) := by
  have hnt : s.phase ≠ tpTrim := by rw [hp]; decide
  obtain ⟨-, f2, f3, -, -, -, -, -, -⟩ := selectPhase_fields_of_not_trim s c hnt
  have h : (selectPhase s c).phase = tpSpinUp := by
    rw [selectPhase_of_not_trim s c hnt]
    simp [rulePhase, readInputs, hp, hR, hC, hV, hL, hZ, hdt.ne.symm]
  have hc : Calculate s c = storeThrust (SpinUp (selectPhase s c)) := by
    rw [Calculate, dispatch_tpSpinUp _ _ h]
  have hN : (Calculate s c).1.N2 = Seek (c.Getdt * c.GetRate) s.N2 25.18 3 (s.N2 / 2) := by
    rw [hc]
    simp [storeThrust, SpinUp, f2, f3]
  refine ⟨h, hc, ?_, hN, fun hlt => ?_⟩
  · rw [hc]
    simpa [storeThrust, SpinUp] using h
  · rw [hN]
    simp only [Seek]
    have h1 : ¬ s.N2 > 25.18 := not_lt.mpr hlt.le
    simp only [h1, if_false, hlt, if_true]
    split_ifs with h2
    · exact ⟨hlt, le_refl _⟩
    · exact ⟨by nlinarith, not_lt.mp h2⟩

/-- Witness for C30: the motoring engine after the starter has been released. -/
theorem SpinUp_persists_witness :
    (Calculate { motoringEngine with phase := tpSpinUp, Starter := false, N2 := 10 }
      (groundTick (1 / 10) 0)).1.phase = tpSpinUp :=
  (SpinUp_persists { motoringEngine with phase := tpSpinUp, Starter := false, N2 := 10 }
    (groundTick (1 / 10) 0) rfl rfl rfl (by norm_num [groundTick]) rfl rfl rfl).2.2.1

/-! ### Landing gear: construction, wheel slip, rolling force, distances, gear not down -/

theorem steerTypeOf_steerTypeString (s : String) (m : ℚ) :
    steerTypeOf (steerTypeString s m) =
      some (if m = 360 then stCaster else if m = 0 then stFixed else stSteer) := by
  unfold steerTypeString
  split_ifs <;> simp [steerTypeOf]

/-- The members of a gear that the constructor has built. -/
theorem FGLGear_constructed (el : Element) (c : GearCollaborators) (g : FGLGear)
    (h : FGLGear.FGLGear el c = some g) :
    g.eSteerType =
      (if el.max_steer.getD 0 = 360 then stCaster
       else if el.max_steer.getD 0 = 0 then stFixed else stSteer) ∧
    g.eBrakeGrp = brakeGroupOf el.brake_group ∧
    g.TakeoffDistanceTraveled = 0 ∧ g.TakeoffDistanceTraveled50ft = 0 ∧
    g.StartedGroundRun = false ∧ g.WOW = true ∧ g.lastWOW = true ∧
    g.GearDown = true ∧ g.TirePressureNorm = 1 := by
  unfold FGLGear.FGLGear at h
  simp only [steerTypeOf_steerTypeString] at h
  cases hl : el.location with
  | none => simp [hl] at h
  | some v =>
    simp only [hl, Option.some.injEq] at h
    subst h
    simp

/-- The constructor returns a gear exactly when a location is given. -/
theorem FGLGear_isSome (el : Element) (c : GearCollaborators) :
    (FGLGear.FGLGear el c).isSome = el.location.isSome := by
  unfold FGLGear.FGLGear
  simp only [steerTypeOf_steerTypeString]
  cases hl : el.location <;> simp

/-- The gear built from `exampleElement`. -/
theorem FGLGear_exampleElement (s : String) :
    FGLGear.FGLGear (exampleElement s) (standingTick 0) =
      some { newGear with eBrakeGrp := brakeGroupOf s } := by
  unfold FGLGear.FGLGear
  simp only [steerTypeOf_steerTypeString]
  norm_num [exampleElement, newGear, standingTick, identityMatrix, FGMatrix33.mulVec,
    FGColumnVector3.InitMatrix, truncate]

/-- Further members that `finish` does not write. -/
theorem finish_frame_wheel (g : FGLGear) (c : GearCollaborators) :
    (finish g c).1.RollingWhlVel = g.RollingWhlVel ∧
    (finish g c).1.SideWhlVel = g.SideWhlVel ∧
    (finish g c).1.RollingForce = g.RollingForce ∧
    (finish g c).1.TirePressureNorm = g.TirePressureNorm ∧
    (finish g c).1.StartedGroundRun = g.StartedGroundRun ∧
    (finish g c).1.FirstContact = g.FirstContact := by
  rw [finish_fst]
  simp

/-- The two takeoff distances that `finish` leaves. -/
theorem finish_distances (g : FGLGear) (c : GearCollaborators) :
    (finish g c).1.TakeoffDistanceTraveled50ft =
      (if g.StartedGroundRun = true then
         g.TakeoffDistanceTraveled50ft + c.GetVground * (c.Getdt * c.GetRate)
       else g.TakeoffDistanceTraveled50ft) ∧
    (finish g c).1.TakeoffDistanceTraveled =
      (if g.StartedGroundRun = true ∧ g.WOW = true then
         g.TakeoffDistanceTraveled + c.GetVground * (c.Getdt * c.GetRate)
       else g.TakeoffDistanceTraveled) := by
  rw [finish_fst]
  simp [distances]

/-- Members that are the same before `Force` and when the contact branches are
entered. -/
theorem located_frame (g : FGLGear) (c : GearCollaborators) :
    (locate (prepare g c) c).WheelSlip = g.WheelSlip ∧
    (locate (prepare g c) c).TirePressureNorm = g.TirePressureNorm ∧
    (locate (prepare g c) c).StartedGroundRun = g.StartedGroundRun ∧
    (locate (prepare g c) c).TakeoffDistanceTraveled50ft = g.TakeoffDistanceTraveled50ft ∧
    (locate (prepare g c) c).TakeoffDistanceTraveled = g.TakeoffDistanceTraveled := by
  simp [locate, prepare_eq]

/-- The takeoff bookkeeping of the branch "Gear is NOT compressed". -/
theorem notCompressed_takeoff (g : FGLGear) (c : GearCollaborators) :
    (notCompressed g c).StartedGroundRun =
      (if c.GetDistanceAGL > 200 then false else g.StartedGroundRun) ∧
    (notCompressed g c).TakeoffDistanceTraveled50ft = g.TakeoffDistanceTraveled50ft ∧
    (notCompressed g c).TakeoffDistanceTraveled = g.TakeoffDistanceTraveled := by
  simp [notCompressed]

/-- The wheel slip, the rolling force and the takeoff bookkeeping that the
branch `compressLength > 0` of `Force` leaves. -/
theorem compressed_wheel (g : FGLGear) (c : GearCollaborators) :
    (compressed g c).WheelSlip =
      (if (compressed g c).RollingWhlVel = 0 ∧ (compressed g c).SideWhlVel = 0 then 0
       else if |(compressed g c).RollingWhlVel| < 1 then
         0.05 * c.radtodeg * c.atan2 (compressed g c).SideWhlVel |(compressed g c).RollingWhlVel|
           + 0.95 * g.WheelSlip
       else c.radtodeg * c.atan2 (compressed g c).SideWhlVel |(compressed g c).RollingWhlVel|) ∧
    (compressed g c).RollingForce =
      (if |(compressed g c).RollingWhlVel| > 1e-3 then
         (1 - g.TirePressureNorm) * 30 +
           (compressed g c).vLocalForce.eZ * (compressed g c).BrakeFCoeff *
             |(compressed g c).RollingWhlVel| / (compressed g c).RollingWhlVel
       else 0) ∧
    (compressed g c).StartedGroundRun =
      (if takeoffRunStarts g c then true else g.StartedGroundRun) ∧
    (compressed g c).TakeoffDistanceTraveled50ft =
      (if takeoffRunStarts g c then 0 else g.TakeoffDistanceTraveled50ft) ∧
    (compressed g c).TakeoffDistanceTraveled =
      (if takeoffRunStarts g c then 0 else g.TakeoffDistanceTraveled) := by
  simp only [compressed]
  simp only [bodyForces]
  simp only [groundPlaneForces]
  simp only [strutForce]
  simp only [sideForceCoefficient]
  simp only [tireSlip]
  simp only [wheelAxisVelocity]
  simp only [brakeCoefficient_eq]
  simp only [takeoffRunStart]
  simp only [takeoffRunStarts]
  simp only [firstContact]
  simp only [wheelVelocity]
  simp only [and_self]

/-- The wheel velocities, the tire pressure and the braking coefficient after the
skidding gear has rolled slowly for one tick. -/
theorem Force_slow_roll_fields :
    (Force skiddingGear slowRollTick).1.RollingWhlVel = 1 / 2 ∧
    (Force skiddingGear slowRollTick).1.SideWhlVel = 0 ∧
    (Force skiddingGear slowRollTick).1.TirePressureNorm = 1 ∧
    (Force skiddingGear slowRollTick).1.BrakeFCoeff = 1 / 50 := by
  have hdown := Force_GearDown_of_fixed skiddingGear slowRollTick rfl
  have hagl : AGLevel skiddingGear slowRollTick < 0 := by
    norm_num [AGLevel, slowRollTick, standingTick]
  have hc := Force_in_contact skiddingGear slowRollTick hdown hagl
  obtain ⟨w1, w2, -, w4, -⟩ :=
    finish_frame_wheel (compressed (locate (prepare skiddingGear slowRollTick) slowRollTick)
      slowRollTick) slowRollTick
  rw [hc, w1, w2, w4, (finish_frame _ _).2.2.2.2.2.2.2.2.2.2.2.2.2.1]
  simp only [compressed]
  simp only [bodyForces]
  simp only [groundPlaneForces]
  simp only [strutForce]
  simp only [sideForceCoefficient]
  simp only [tireSlip]
  simp only [wheelAxisVelocity]
  simp only [brakeCoefficient_eq]
  simp only [takeoffRunStart]
  simp only [firstContact]
  simp only [wheelVelocity]
  norm_num [locate, prepare_eq, cvel, SinWheel, CosWheel, slowRollTick, standingTick,
    skiddingGear, newGear, identityMatrix, FGMatrix33.mulVec, FGColumnVector3.cross,
    FGColumnVector3.add, FGColumnVector3.sub]

/-- C25: rolling force.  On every in-contact call of `Force`, RollingForce is 0
when |RollingWhlVel| <= 1e-3 and otherwise equals
(1 - TirePressureNorm)*30 + Fz*BrakeFCoeff*|RollingWhlVel|/RollingWhlVel, that is
(1 - TirePressureNorm)*30 + Fz*BrakeFCoeff*sign(RollingWhlVel), with Fz the
vertical strut force, which is never positive; so with TirePressureNorm = 1 and
BrakeFCoeff >= 0, RollingForce*RollingWhlVel <= 0. -/
theorem Force_rolling_force (g : FGLGear) (c : GearCollaborators)
    (hdown : (Force g c).1.GearDown = true) (hagl : AGLevel g c < 0) :
    (Force g c).1.RollingForce =
      (if |(Force g c).1.RollingWhlVel| > 1e-3 then
         (1 - (Force g c).1.TirePressureNorm) * 30 +
           (Force g c).1.vLocalForce.eZ * (Force g c).1.BrakeFCoeff *
             |(Force g c).1.RollingWhlVel| / (Force g c).1.RollingWhlVel
       else 0) ∧
    (|(Force g c).1.RollingWhlVel| ≤ 1e-3 → (Force g c).1.RollingForce = 0) ∧
    (|(Force g c).1.RollingWhlVel| > 1e-3 →
      (Force g c).1.RollingForce =
        (1 - (Force g c).1.TirePressureNorm) * 30 +
          (Force g c).1.vLocalForce.eZ * (Force g c).1.BrakeFCoeff *
            (if 0 < (Force g c).1.RollingWhlVel then 1 else -1)) ∧
    (Force g c).1.vLocalForce.eZ ≤ 0 ∧
    ((Force g c).1.TirePressureNorm = 1 → 0 ≤ (Force g c).1.BrakeFCoeff →
      (Force g c).1.RollingForce * (Force g c).1.RollingWhlVel ≤ 0) := by
  have hc := Force_in_contact g c hdown hagl
  obtain ⟨w1, -, w3, w4, -⟩ := finish_frame_wheel (compressed (locate (prepare g c) c) c) c
  obtain ⟨-, -, -, -, -, -, -, -, -, f10, -, -, -, f14, -⟩ :=
    finish_frame (compressed (locate (prepare g c) c) c) c
  have k13 := (compressed_frame (locate (prepare g c) c) c).2.2.2.2.2.2.2.2.2.2.2.2.1
  have hz : (Force g c).1.vLocalForce.eZ ≤ 0 := by
    rw [hc, f10, (compressed_forces _ c).1]
    exact min_le_right _ _
  have hr : (Force g c).1.RollingForce =
      (if |(Force g c).1.RollingWhlVel| > 1e-3 then
         (1 - (Force g c).1.TirePressureNorm) * 30 +
           (Force g c).1.vLocalForce.eZ * (Force g c).1.BrakeFCoeff *
             |(Force g c).1.RollingWhlVel| / (Force g c).1.RollingWhlVel
       else 0) := by
    rw [hc, w1, w3, w4, f10, f14, k13, (compressed_wheel _ c).2.1]
  refine ⟨hr, ?_, ?_, hz, ?_⟩
  · intro hsmall
    rw [hr, if_neg (not_lt.mpr hsmall)]
  · intro hbig
    rw [hr, if_pos hbig]
    have hne : (Force g c).1.RollingWhlVel ≠ 0 := by
      intro h0
      rw [h0] at hbig
      norm_num at hbig
    split_ifs with hpos
    · rw [abs_of_pos hpos, mul_div_assoc, div_self hne]
    · have hneg : (Force g c).1.RollingWhlVel < 0 :=
        lt_of_le_of_ne (not_lt.mp hpos) hne
      rw [abs_of_neg hneg, mul_div_assoc, neg_div, div_self hne]
  · intro htire hbrake
    rw [hr]
    split_ifs with hbig
    · have hne : (Force g c).1.RollingWhlVel ≠ 0 := by
        intro h0
        rw [h0] at hbig
        norm_num at hbig
      rw [htire, sub_self, zero_mul, zero_add, div_mul_cancel₀ _ hne]
      have h1 : (Force g c).1.vLocalForce.eZ * (Force g c).1.BrakeFCoeff ≤ 0 :=
        mul_nonpos_iff.mpr (Or.inr ⟨hz, hbrake⟩)
      have h2 := mul_nonpos_iff.mpr (Or.inr ⟨h1, abs_nonneg (Force g c).1.RollingWhlVel⟩)
      linarith
    · simp

/-- Witness for C25: the gear rolling straight ahead at 1/2 unit per second with
full tire pressure and BrakeFCoeff = 1/50; the rolling force opposes the roll. -/
theorem Force_rolling_force_witness :
    (Force skiddingGear slowRollTick).1.RollingForce *
      (Force skiddingGear slowRollTick).1.RollingWhlVel ≤ 0 :=
  (Force_rolling_force skiddingGear slowRollTick
      (Force_GearDown_of_fixed skiddingGear slowRollTick rfl)
      (by norm_num [AGLevel, slowRollTick, standingTick])).2.2.2.2
    Force_slow_roll_fields.2.2.1
    (by rw [Force_slow_roll_fields.2.2.2]; norm_num)

/-- A retractable gear with the gear-position command at or below 0.99 is not
down. -/
theorem prepare_not_down (g : FGLGear) (c : GearCollaborators)
    (hret : g.isRetractable ≠ 0) (hpos : c.GetGearPos ≤ 0.99) :
    (prepare g c).GearDown = false := by
  have hn : ¬ c.GetGearPos > 0.99 := not_lt.mpr hpos
  rw [prepare_eq]
  simp [hret, hn]

/-- C28: a gear that is not down is frozen.  For every call of `Force` on a
retractable gear with the gear-position command <= 0.99, the returned force and
the moment are zero, the gear is not down, and WOW, lastWOW, compressLength,
FirstContact, StartedGroundRun, SinkRate, the three distance accumulators and
the two peak trackers are unchanged, and no event is emitted (no contact-change
message, no crash message, no suspension), whatever WOW and SinkRate were. -/
theorem Force_gear_not_down_frozen (g : FGLGear) (c : GearCollaborators)
    (hret : g.isRetractable ≠ 0) (hpos : c.GetGearPos ≤ 0.99) :
    (Force g c).1.vForce = FGColumnVector3.InitMatrix ∧
    (Force g c).1.vMoment = FGColumnVector3.InitMatrix ∧
    (Force g c).1.GearDown = false ∧
    (Force g c).1.WOW = g.WOW ∧ (Force g c).1.lastWOW = g.lastWOW ∧
    (Force g c).1.compressLength = g.compressLength ∧
    (Force g c).1.FirstContact = g.FirstContact ∧
    (Force g c).1.StartedGroundRun = g.StartedGroundRun ∧
    (Force g c).1.SinkRate = g.SinkRate ∧
    (Force g c).1.LandingDistanceTraveled = g.LandingDistanceTraveled ∧
    (Force g c).1.TakeoffDistanceTraveled = g.TakeoffDistanceTraveled ∧
    (Force g c).1.TakeoffDistanceTraveled50ft = g.TakeoffDistanceTraveled50ft ∧
    (Force g c).1.MaximumStrutForce = g.MaximumStrutForce ∧
    (Force g c).1.MaximumStrutTravel = g.MaximumStrutTravel ∧
    (Force g c).2 = [] := by
  have hup := prepare_not_down g c hret hpos
  rw [Force_up g c hup]
  refine ⟨by rw [prepare_eq], by rw [prepare_eq], hup, ?_⟩
  rw [prepare_eq]
  simp

/-- Witness for C28: the retractable gear with WOW true and a latched sink rate of
100, gear-position command 0.9: no force, WOW and SinkRate kept, no event. -/
theorem Force_gear_not_down_frozen_witness :
    sunkRetractableGear.WOW = true ∧ sunkRetractableGear.SinkRate > 1.4666 * 30 ∧
    (Force sunkRetractableGear retractingTick).1.vForce = FGColumnVector3.InitMatrix ∧
    (Force sunkRetractableGear retractingTick).1.WOW = sunkRetractableGear.WOW ∧
    (Force sunkRetractableGear retractingTick).1.SinkRate = sunkRetractableGear.SinkRate ∧
    (Force sunkRetractableGear retractingTick).2 = [] :=
  ⟨rfl, by norm_num [sunkRetractableGear],
    (Force_gear_not_down_frozen sunkRetractableGear retractingTick (by decide)
      (by norm_num [retractingTick, standingTick])).1,
    (Force_gear_not_down_frozen sunkRetractableGear retractingTick (by decide)
      (by norm_num [retractingTick, standingTick])).2.2.2.1,
    (Force_gear_not_down_frozen sunkRetractableGear retractingTick (by decide)
      (by norm_num [retractingTick, standingTick])).2.2.2.2.2.2.2.2.1,
    (Force_gear_not_down_frozen sunkRetractableGear retractingTick (by decide)
      (by norm_num [retractingTick, standingTick])).2.2.2.2.2.2.2.2.2.2.2.2.2.2⟩

/-- The two takeoff distances after a call of `Force` on a gear that is down: a
starting takeoff run resets both, an active ground run adds the distance of the
tick to the 50-ft distance, and to the liftoff distance when WOW is true. -/
theorem Force_takeoff_distances (g : FGLGear) (c : GearCollaborators)
    (hdown : (Force g c).1.GearDown = true) :
    (Force g c).1.TakeoffDistanceTraveled50ft =
      (if AGLevel g c < 0 ∧ takeoffRunStarts g c then 0 else g.TakeoffDistanceTraveled50ft) +
        (if (Force g c).1.StartedGroundRun = true then c.GetVground * (c.Getdt * c.GetRate)
         else 0) ∧
    (Force g c).1.TakeoffDistanceTraveled =
      (if AGLevel g c < 0 ∧ takeoffRunStarts g c then 0 else g.TakeoffDistanceTraveled) +
        (if (Force g c).1.StartedGroundRun = true ∧ (Force g c).1.WOW = true then
           c.GetVground * (c.Getdt * c.GetRate)
         else 0) := by
  obtain ⟨l1, l2, l3, l4, l5⟩ := located_frame g c
  have hs : takeoffRunStarts (locate (prepare g c) c) c ↔ takeoffRunStarts g c := by
    simp only [takeoffRunStarts, l3]
  by_cases hagl : AGLevel g c < 0
  · have hc := Force_in_contact g c hdown hagl
    obtain ⟨-, -, k3, k4, k5⟩ := compressed_wheel (locate (prepare g c) c) c
    have kw := (compressed_frame (locate (prepare g c) c) c).2.2.2.2.2.2.2.2.2.2.2.2.2
    have f6 := (finish_frame (compressed (locate (prepare g c) c) c) c).2.2.2.2.2.1
    have w5 := (finish_frame_wheel (compressed (locate (prepare g c) c) c) c).2.2.2.2.1
    rw [hc, (finish_distances _ c).1, (finish_distances _ c).2, w5, f6, kw, k3, k4, k5,
      l3, l4, l5]
    simp only [hs, hagl, true_and, and_true]
    split_ifs <;> simp_all
  · have hc := Force_off_ground g c hdown (not_lt.mp hagl)
    obtain ⟨n1, n2, n3⟩ := notCompressed_takeoff (locate (prepare g c) c) c
    have nw := (notCompressed_fields (locate (prepare g c) c) c).2.2.2.2.2.1
    have f6 := (finish_frame (notCompressed (locate (prepare g c) c) c) c).2.2.2.2.2.1
    have w5 := (finish_frame_wheel (notCompressed (locate (prepare g c) c) c) c).2.2.2.2.1
    rw [hc, (finish_distances _ c).1, (finish_distances _ c).2, w5, f6, nw, n1, n2, n3,
      l3, l4, l5]
    simp only [hagl, false_and, if_false]
    split_ifs <;> simp_all

/-- One call of `Force` with non-negative ground speed and tick time keeps the
liftoff distance at or below the 50-ft distance. -/
theorem Force_takeoff_order (g : FGLGear) (c : GearCollaborators)
    (hv : 0 ≤ c.GetVground) (hdt : 0 ≤ c.Getdt * c.GetRate)
    (h : g.TakeoffDistanceTraveled ≤ g.TakeoffDistanceTraveled50ft) :
    (Force g c).1.TakeoffDistanceTraveled ≤ (Force g c).1.TakeoffDistanceTraveled50ft := by
  have hd : 0 ≤ c.GetVground * (c.Getdt * c.GetRate) := mul_nonneg hv hdt
  cases hg : (Force g c).1.GearDown
  · rw [(Force_gear_flags g c).2] at hg
    rw [Force_up g c hg, prepare_eq]
    exact h
  · rw [(Force_takeoff_distances g c hg).1, (Force_takeoff_distances g c hg).2]
    split_ifs <;> first | linarith | (exfalso; tauto)

/-- Calls of `Force` with non-negative ground speed and tick time keep the
liftoff distance at or below the 50-ft distance. -/
theorem iterateForce_takeoff_order (cs : List GearCollaborators) :
    ∀ g : FGLGear, (∀ c ∈ cs, 0 ≤ c.GetVground ∧ 0 ≤ c.Getdt * c.GetRate) →
      g.TakeoffDistanceTraveled ≤ g.TakeoffDistanceTraveled50ft →
      (iterateForce cs g).TakeoffDistanceTraveled ≤
        (iterateForce cs g).TakeoffDistanceTraveled50ft := by
  induction cs with
  | nil => intro g _ h; exact h
  | cons c cs ih =>
    intro g hcs h
    simp only [iterateForce]
    apply ih
    · intro c1 hc1
      exact hcs c1 (List.mem_cons_of_mem _ hc1)
    · exact Force_takeoff_order g c (hcs c (List.mem_cons_self _ _)).1
        (hcs c (List.mem_cons_self _ _)).2 h

/-- C26: takeoff distance ordering.  Starting from a newly constructed gear, after
every sequence of calls of `Force` with ground speed >= 0 and tick time >= 0,
TakeoffDistanceTraveled <= TakeoffDistanceTraveled50ft; and on every gear-down
call (on any gear) the 50-ft distance grows by the distance of the tick when the
ground run is active, the liftoff distance only when in addition WOW is true,
both being reset to 0 on the tick at which the run starts. -/
theorem iterateForce_takeoff_distance_order (el : Element) (c0 : GearCollaborators)
    (g : FGLGear) (cs : List GearCollaborators)
    (hnew : FGLGear.FGLGear el c0 = some g)
    (hticks : ∀ c ∈ cs, 0 ≤ c.GetVground ∧ 0 ≤ c.Getdt * c.GetRate) :
    (iterateForce cs g).TakeoffDistanceTraveled ≤
      (iterateForce cs g).TakeoffDistanceTraveled50ft ∧
    (∀ (x : FGLGear) (c : GearCollaborators), (Force x c).1.GearDown = true →
      (Force x c).1.TakeoffDistanceTraveled50ft =
        (if AGLevel x c < 0 ∧ takeoffRunStarts x c then 0 else x.TakeoffDistanceTraveled50ft) +
          (if (Force x c).1.StartedGroundRun = true then c.GetVground * (c.Getdt * c.GetRate)
           else 0) ∧
      (Force x c).1.TakeoffDistanceTraveled =
        (if AGLevel x c < 0 ∧ takeoffRunStarts x c then 0 else x.TakeoffDistanceTraveled) +
          (if (Force x c).1.StartedGroundRun = true ∧ (Force x c).1.WOW = true then
             c.GetVground * (c.Getdt * c.GetRate)
           else 0)) := by
  obtain ⟨-, -, h3, h4, -⟩ := FGLGear_constructed el c0 g hnew
  refine ⟨iterateForce_takeoff_order cs g hticks (by rw [h3, h4]), ?_⟩
  intro x c hdown
  exact Force_takeoff_distances x c hdown

/-- The gear built from `exampleElement` with an empty brake group string is
`newGear`. -/
theorem FGLGear_exampleElement_empty :
    FGLGear.FGLGear (exampleElement "") (standingTick 0) = some newGear := by
  rw [FGLGear_exampleElement]
  simp [brakeGroupOf]
  rfl

/-- Witness for C26: the new gear over two ticks of a takeoff roll and one tick
after liftoff. -/
theorem iterateForce_takeoff_distance_order_witness :
    (iterateForce [takeoffRollTick, takeoffRollTick, liftoffTick] newGear).TakeoffDistanceTraveled ≤
      (iterateForce [takeoffRollTick, takeoffRollTick, liftoffTick]
        newGear).TakeoffDistanceTraveled50ft :=
  (iterateForce_takeoff_distance_order (exampleElement "") (standingTick 0) newGear
    [takeoffRollTick, takeoffRollTick, liftoffTick] FGLGear_exampleElement_empty
    (by
      intro c hc
      simp only [List.mem_cons, List.mem_singleton, List.not_mem_nil, or_false] at hc
      rcases hc with rfl | rfl | rfl <;>
        norm_num [takeoffRollTick, liftoffTick, standingTick])).1

/-- The gear built from `casterElement`. -/
theorem FGLGear_casterElement :
    FGLGear.FGLGear casterElement (standingTick 0) = some casterGear := by
  unfold FGLGear.FGLGear
  simp only [steerTypeOf_steerTypeString]
  norm_num [casterElement, casterGear, exampleElement, newGear, standingTick, identityMatrix,
    FGMatrix33.mulVec, FGColumnVector3.InitMatrix, truncate, brakeGroupOf]
  simp

/-- C29: the steer type comes from the maximum steer angle alone.  For every gear
definition from which the constructor builds a gear (it does so exactly when a
location is given), the steer type is Castered iff max_steer is 360, Fixed iff
max_steer is 0 or absent, and Steerable otherwise, and the constructor builds
the same gear whatever the configured steer_type string is. -/
theorem FGLGear_steer_type (el : Element) (c : GearCollaborators) (g : FGLGear)
    (h : FGLGear.FGLGear el c = some g) :
    (g.eSteerType = stCaster ↔ el.max_steer = some 360) ∧
    (g.eSteerType = stFixed ↔ (el.max_steer = some 0 ∨ el.max_steer = none)) ∧
    (g.eSteerType = stSteer ↔ ∃ v : ℚ, el.max_steer = some v ∧ v ≠ 360 ∧ v ≠ 0) ∧
    (∀ s : String, FGLGear.FGLGear { el with steer_type := s } c = some g) ∧
    (∀ s : String, (FGLGear.FGLGear { el with steer_type := s } c).isSome = el.location.isSome) := by
  have hs := (FGLGear_constructed el c g h).1
  refine ⟨?_, ?_, ?_, ?_, ?_⟩
  · rw [hs]
    cases hm : el.max_steer with
    | none => simp
    | some v =>
      simp only [Option.getD_some]
      split_ifs <;> simp_all
  · rw [hs]
    cases hm : el.max_steer with
    | none => simp
    | some v =>
      simp only [Option.getD_some]
      split_ifs <;> simp_all
  · rw [hs]
    cases hm : el.max_steer with
    | none => simp
    | some v =>
      simp only [Option.getD_some]
      split_ifs <;> simp_all
  · intro s
    rw [← h]
    rfl
  · intro s
    rw [FGLGear_isSome]

/-- Witness for C29: a gear definition with max_steer = 360 and the steer type
string "FIXED" gives a castered gear. -/
theorem FGLGear_steer_type_witness :
    casterElement.steer_type = "FIXED" ∧
    (casterGear.eSteerType = stCaster ↔ casterElement.max_steer = some 360) :=
  ⟨rfl, (FGLGear_steer_type casterElement (standingTick 0) casterGear FGLGear_casterElement).1⟩

/-- C21, the code at a failing input: for the brake group string "BOTH" (not
empty and none of LEFT, RIGHT, CENTER, NOSE, TAIL, NONE) the constructor
returns a gear, but its `eBrakeGrp` holds no brake group: the last `else` of
the chain only prints a message and assigns nothing, whereas the branch for
the empty string assigns bgNone. -/
theorem FGLGear_unrecognised_brake_group :
    (exampleElement "BOTH").brake_group = "BOTH" ∧
    FGLGear.FGLGear (exampleElement "BOTH") (standingTick 0) =
      some { newGear with eBrakeGrp := none } ∧
    FGLGear.FGLGear (exampleElement "") (standingTick 0) =
      some { newGear with eBrakeGrp := some bgNone } := by
  refine ⟨rfl, ?_, ?_⟩
  · rw [FGLGear_exampleElement]
    simp [brakeGroupOf]
  · rw [FGLGear_exampleElement]
    simp [brakeGroupOf]

end JSBSim
